import Mathlib

/-! # ZDSearch: field search over organizations, users and tickets

A shallow embedding of `search.go`.  Go strings are Lean strings (sequences of
Unicode code points, the valid UTF-8 strings), Go slices are lists (a nil
slice and an empty slice are both `[]`), a Go `int` is an integer of the
64-bit range, and a Go map is the list of its entries, each key once.  A function that returns `(results, err)` returns a pair whose
second component is `none` when `err == nil`; a run that leaves the modelled
fragment (a run-time panic of a slice expression, the `%v` rendering of a
struct value) is `none` at the outer level.  `parseSearchInput`, whose slice
expression counts bytes and can cut a character, is given on the bytes of its
input as well (`parseSearchInputBytes`).
-/

set_option autoImplicit false

namespace ZDSearch

/-! ## Machine integers -/

/-- Smallest value of a Go `int` (64-bit). -/
def minInt : Int := -9223372036854775808

/-- Largest value of a Go `int` (64-bit). -/
def maxInt : Int := 9223372036854775807

/-- Go `int`: an integer of the 64-bit two-complement range. -/
abbrev GoInt := { n : Int // minInt ≤ n ∧ n ≤ maxInt }

/-! ## Entities -/

mutual
/-- Go struct `Organization` (search.go), fields in declaration order. -/
inductive Organization where
  | mk (ID : GoInt) (Name : String) (URL : String) (External_id : String)
      (DomainNames : List String) (Created_at : String) (Details : String)
      (Shared_tickets : Bool) (Tags : List String) (AssociatedUsers : List User)
      (AssociatedTickets : List Ticket)
/-- Go struct `User` (search.go), fields in declaration order. -/
inductive User where
  | mk (ID : GoInt) (Name : String) (URL : String) (External_id : String) (Alias : String)
      (Created_at : String) (Active : Bool) (Verified : Bool) (Shared : Bool) (Locale : String)
      (Timezone : String) (Last_login_at : String) (Email : String) (Phone : String)
      (Signature : String) (Tags : List String) (Suspended : Bool) (Role : String) (Org : GoInt)
      (OrgObject : Organization) (TicketsSubmitted : List Ticket)
      (TicketsAssigned : List Ticket)
/-- Go struct `Ticket` (search.go), fields in declaration order. -/
inductive Ticket where
  | mk (ID : String) (URL : String) (External_id : String) (Created_at : String)
      (Priority : String) (Status : String) (Type_ : String) (Subject : String)
      (Description : String) (Tags : List String) (Org : GoInt) (Has_incidents : Bool)
      (Due_at : String) (Submitter : GoInt) (Assignee : GoInt) (Via : String)
      (SubmitterObj : User) (AssigneeObj : User) (OrgObj : Organization)
end

/-- Field `ID` of `Organization`. -/
def Organization.ID : Organization → GoInt
  | .mk v _ _ _ _ _ _ _ _ _ _ => v

/-- Field `Name` of `Organization`. -/
def Organization.Name : Organization → String
  | .mk _ v _ _ _ _ _ _ _ _ _ => v

/-- Field `URL` of `Organization`. -/
def Organization.URL : Organization → String
  | .mk _ _ v _ _ _ _ _ _ _ _ => v

/-- Field `External_id` of `Organization`. -/
def Organization.External_id : Organization → String
  | .mk _ _ _ v _ _ _ _ _ _ _ => v

/-- Field `DomainNames` of `Organization`. -/
def Organization.DomainNames : Organization → List String
  | .mk _ _ _ _ v _ _ _ _ _ _ => v

/-- Field `Created_at` of `Organization`. -/
def Organization.Created_at : Organization → String
  | .mk _ _ _ _ _ v _ _ _ _ _ => v

/-- Field `Details` of `Organization`. -/
def Organization.Details : Organization → String
  | .mk _ _ _ _ _ _ v _ _ _ _ => v

/-- Field `Shared_tickets` of `Organization`. -/
def Organization.Shared_tickets : Organization → Bool
  | .mk _ _ _ _ _ _ _ v _ _ _ => v

/-- Field `Tags` of `Organization`. -/
def Organization.Tags : Organization → List String
  | .mk _ _ _ _ _ _ _ _ v _ _ => v

/-- Field `AssociatedUsers` of `Organization`. -/
def Organization.AssociatedUsers : Organization → List User
  | .mk _ _ _ _ _ _ _ _ _ v _ => v

/-- Field `AssociatedTickets` of `Organization`. -/
def Organization.AssociatedTickets : Organization → List Ticket
  | .mk _ _ _ _ _ _ _ _ _ _ v => v

/-- Field `ID` of `User`. -/
def User.ID : User → GoInt
  | .mk v _ _ _ _ _ _ _ _ _ _ _ _ _ _ _ _ _ _ _ _ _ => v

/-- Field `Name` of `User`. -/
def User.Name : User → String
  | .mk _ v _ _ _ _ _ _ _ _ _ _ _ _ _ _ _ _ _ _ _ _ => v

/-- Field `URL` of `User`. -/
def User.URL : User → String
  | .mk _ _ v _ _ _ _ _ _ _ _ _ _ _ _ _ _ _ _ _ _ _ => v

/-- Field `External_id` of `User`. -/
def User.External_id : User → String
  | .mk _ _ _ v _ _ _ _ _ _ _ _ _ _ _ _ _ _ _ _ _ _ => v

/-- Field `Alias` of `User`. -/
def User.Alias : User → String
  | .mk _ _ _ _ v _ _ _ _ _ _ _ _ _ _ _ _ _ _ _ _ _ => v

/-- Field `Created_at` of `User`. -/
def User.Created_at : User → String
  | .mk _ _ _ _ _ v _ _ _ _ _ _ _ _ _ _ _ _ _ _ _ _ => v

/-- Field `Active` of `User`. -/
def User.Active : User → Bool
  | .mk _ _ _ _ _ _ v _ _ _ _ _ _ _ _ _ _ _ _ _ _ _ => v

/-- Field `Verified` of `User`. -/
def User.Verified : User → Bool
  | .mk _ _ _ _ _ _ _ v _ _ _ _ _ _ _ _ _ _ _ _ _ _ => v

/-- Field `Shared` of `User`. -/
def User.Shared : User → Bool
  | .mk _ _ _ _ _ _ _ _ v _ _ _ _ _ _ _ _ _ _ _ _ _ => v

/-- Field `Locale` of `User`. -/
def User.Locale : User → String
  | .mk _ _ _ _ _ _ _ _ _ v _ _ _ _ _ _ _ _ _ _ _ _ => v

/-- Field `Timezone` of `User`. -/
def User.Timezone : User → String
  | .mk _ _ _ _ _ _ _ _ _ _ v _ _ _ _ _ _ _ _ _ _ _ => v

/-- Field `Last_login_at` of `User`. -/
def User.Last_login_at : User → String
  | .mk _ _ _ _ _ _ _ _ _ _ _ v _ _ _ _ _ _ _ _ _ _ => v

/-- Field `Email` of `User`. -/
def User.Email : User → String
  | .mk _ _ _ _ _ _ _ _ _ _ _ _ v _ _ _ _ _ _ _ _ _ => v

/-- Field `Phone` of `User`. -/
def User.Phone : User → String
  | .mk _ _ _ _ _ _ _ _ _ _ _ _ _ v _ _ _ _ _ _ _ _ => v

/-- Field `Signature` of `User`. -/
def User.Signature : User → String
  | .mk _ _ _ _ _ _ _ _ _ _ _ _ _ _ v _ _ _ _ _ _ _ => v

/-- Field `Tags` of `User`. -/
def User.Tags : User → List String
  | .mk _ _ _ _ _ _ _ _ _ _ _ _ _ _ _ v _ _ _ _ _ _ => v

/-- Field `Suspended` of `User`. -/
def User.Suspended : User → Bool
  | .mk _ _ _ _ _ _ _ _ _ _ _ _ _ _ _ _ v _ _ _ _ _ => v

/-- Field `Role` of `User`. -/
def User.Role : User → String
  | .mk _ _ _ _ _ _ _ _ _ _ _ _ _ _ _ _ _ v _ _ _ _ => v

/-- Field `Org` of `User`. -/
def User.Org : User → GoInt
  | .mk _ _ _ _ _ _ _ _ _ _ _ _ _ _ _ _ _ _ v _ _ _ => v

/-- Field `OrgObject` of `User`. -/
def User.OrgObject : User → Organization
  | .mk _ _ _ _ _ _ _ _ _ _ _ _ _ _ _ _ _ _ _ v _ _ => v

/-- Field `TicketsSubmitted` of `User`. -/
def User.TicketsSubmitted : User → List Ticket
  | .mk _ _ _ _ _ _ _ _ _ _ _ _ _ _ _ _ _ _ _ _ v _ => v

/-- Field `TicketsAssigned` of `User`. -/
def User.TicketsAssigned : User → List Ticket
  | .mk _ _ _ _ _ _ _ _ _ _ _ _ _ _ _ _ _ _ _ _ _ v => v

/-- Field `ID` of `Ticket`. -/
def Ticket.ID : Ticket → String
  | .mk v _ _ _ _ _ _ _ _ _ _ _ _ _ _ _ _ _ _ => v

/-- Field `URL` of `Ticket`. -/
def Ticket.URL : Ticket → String
  | .mk _ v _ _ _ _ _ _ _ _ _ _ _ _ _ _ _ _ _ => v

/-- Field `External_id` of `Ticket`. -/
def Ticket.External_id : Ticket → String
  | .mk _ _ v _ _ _ _ _ _ _ _ _ _ _ _ _ _ _ _ => v

/-- Field `Created_at` of `Ticket`. -/
def Ticket.Created_at : Ticket → String
  | .mk _ _ _ v _ _ _ _ _ _ _ _ _ _ _ _ _ _ _ => v

/-- Field `Priority` of `Ticket`. -/
def Ticket.Priority : Ticket → String
  | .mk _ _ _ _ v _ _ _ _ _ _ _ _ _ _ _ _ _ _ => v

/-- Field `Status` of `Ticket`. -/
def Ticket.Status : Ticket → String
  | .mk _ _ _ _ _ v _ _ _ _ _ _ _ _ _ _ _ _ _ => v

/-- Field `Type` of `Ticket`. -/
def Ticket.Type_ : Ticket → String
  | .mk _ _ _ _ _ _ v _ _ _ _ _ _ _ _ _ _ _ _ => v

/-- Field `Subject` of `Ticket`. -/
def Ticket.Subject : Ticket → String
  | .mk _ _ _ _ _ _ _ v _ _ _ _ _ _ _ _ _ _ _ => v

/-- Field `Description` of `Ticket`. -/
def Ticket.Description : Ticket → String
  | .mk _ _ _ _ _ _ _ _ v _ _ _ _ _ _ _ _ _ _ => v

/-- Field `Tags` of `Ticket`. -/
def Ticket.Tags : Ticket → List String
  | .mk _ _ _ _ _ _ _ _ _ v _ _ _ _ _ _ _ _ _ => v

/-- Field `Org` of `Ticket`. -/
def Ticket.Org : Ticket → GoInt
  | .mk _ _ _ _ _ _ _ _ _ _ v _ _ _ _ _ _ _ _ => v

/-- Field `Has_incidents` of `Ticket`. -/
def Ticket.Has_incidents : Ticket → Bool
  | .mk _ _ _ _ _ _ _ _ _ _ _ v _ _ _ _ _ _ _ => v

/-- Field `Due_at` of `Ticket`. -/
def Ticket.Due_at : Ticket → String
  | .mk _ _ _ _ _ _ _ _ _ _ _ _ v _ _ _ _ _ _ => v

/-- Field `Submitter` of `Ticket`. -/
def Ticket.Submitter : Ticket → GoInt
  | .mk _ _ _ _ _ _ _ _ _ _ _ _ _ v _ _ _ _ _ => v

/-- Field `Assignee` of `Ticket`. -/
def Ticket.Assignee : Ticket → GoInt
  | .mk _ _ _ _ _ _ _ _ _ _ _ _ _ _ v _ _ _ _ => v

/-- Field `Via` of `Ticket`. -/
def Ticket.Via : Ticket → String
  | .mk _ _ _ _ _ _ _ _ _ _ _ _ _ _ _ v _ _ _ => v

/-- Field `SubmitterObj` of `Ticket`. -/
def Ticket.SubmitterObj : Ticket → User
  | .mk _ _ _ _ _ _ _ _ _ _ _ _ _ _ _ _ v _ _ => v

/-- Field `AssigneeObj` of `Ticket`. -/
def Ticket.AssigneeObj : Ticket → User
  | .mk _ _ _ _ _ _ _ _ _ _ _ _ _ _ _ _ _ v _ => v

/-- Field `OrgObj` of `Ticket`. -/
def Ticket.OrgObj : Ticket → Organization
  | .mk _ _ _ _ _ _ _ _ _ _ _ _ _ _ _ _ _ _ v => v

/-! ## Reflection -/

/-- Value of a struct field as `reflections.GetField` hands it out in an
`interface{}`: the dynamic type is the constructor. -/
inductive Value where
  | string (s : String)
  | strings (l : List String)
  | bool (b : Bool)
  | int (n : GoInt)
  | users (l : List User)
  | tickets (l : List Ticket)
  | organization (o : Organization)
  | user (u : User)

/-- Descriptor of one struct field of the struct type `α`: its static type
(the constructor) and its accessor. -/
inductive Field (α : Type) where
  | string (get : α → String)
  | strings (get : α → List String)
  | bool (get : α → Bool)
  | int (get : α → GoInt)
  | users (get : α → List User)
  | tickets (get : α → List Ticket)
  | organization (get : α → Organization)
  | user (get : α → User)

/-- The value a field holds in the struct `e` (`field.Interface()`). -/
def Field.value {α : Type} : Field α → α → Value
  | .string get, e => .string (get e)
  | .strings get, e => .strings (get e)
  | .bool get, e => .bool (get e)
  | .int get, e => .int (get e)
  | .users get, e => .users (get e)
  | .tickets get, e => .tickets (get e)
  | .organization get, e => .organization (get e)
  | .user get, e => .user (get e)

/-- The name of a field's type as `reflect.Type.String()` prints it
(`field.Type().String()` in `GetFieldType`); the structs live in package `main`. -/
def Field.typeString {α : Type} : Field α → String
  | .string _ => "string"
  | .strings _ => "[]string"
  | .bool _ => "bool"
  | .int _ => "int"
  | .users _ => "[]main.User"
  | .tickets _ => "[]main.Ticket"
  | .organization _ => "main.Organization"
  | .user _ => "main.User"

/-- Field table of `Organization`: what `reflect` finds by `FieldByName`, in declaration order. -/
def Organization.fields : List (String × Field Organization) :=
  [("ID", .int Organization.ID),
   ("Name", .string Organization.Name),
   ("URL", .string Organization.URL),
   ("External_id", .string Organization.External_id),
   ("DomainNames", .strings Organization.DomainNames),
   ("Created_at", .string Organization.Created_at),
   ("Details", .string Organization.Details),
   ("Shared_tickets", .bool Organization.Shared_tickets),
   ("Tags", .strings Organization.Tags),
   ("AssociatedUsers", .users Organization.AssociatedUsers),
   ("AssociatedTickets", .tickets Organization.AssociatedTickets)]

/-- Field table of `User`: what `reflect` finds by `FieldByName`, in declaration order. -/
def User.fields : List (String × Field User) :=
  [("ID", .int User.ID),
   ("Name", .string User.Name),
   ("URL", .string User.URL),
   ("External_id", .string User.External_id),
   ("Alias", .string User.Alias),
   ("Created_at", .string User.Created_at),
   ("Active", .bool User.Active),
   ("Verified", .bool User.Verified),
   ("Shared", .bool User.Shared),
   ("Locale", .string User.Locale),
   ("Timezone", .string User.Timezone),
   ("Last_login_at", .string User.Last_login_at),
   ("Email", .string User.Email),
   ("Phone", .string User.Phone),
   ("Signature", .string User.Signature),
   ("Tags", .strings User.Tags),
   ("Suspended", .bool User.Suspended),
   ("Role", .string User.Role),
   ("Org", .int User.Org),
   ("OrgObject", .organization User.OrgObject),
   ("TicketsSubmitted", .tickets User.TicketsSubmitted),
   ("TicketsAssigned", .tickets User.TicketsAssigned)]

/-- Field table of `Ticket`: what `reflect` finds by `FieldByName`, in declaration order. -/
def Ticket.fields : List (String × Field Ticket) :=
  [("ID", .string Ticket.ID),
   ("URL", .string Ticket.URL),
   ("External_id", .string Ticket.External_id),
   ("Created_at", .string Ticket.Created_at),
   ("Priority", .string Ticket.Priority),
   ("Status", .string Ticket.Status),
   ("Type", .string Ticket.Type_),
   ("Subject", .string Ticket.Subject),
   ("Description", .string Ticket.Description),
   ("Tags", .strings Ticket.Tags),
   ("Org", .int Ticket.Org),
   ("Has_incidents", .bool Ticket.Has_incidents),
   ("Due_at", .string Ticket.Due_at),
   ("Submitter", .int Ticket.Submitter),
   ("Assignee", .int Ticket.Assignee),
   ("Via", .string Ticket.Via),
   ("SubmitterObj", .user Ticket.SubmitterObj),
   ("AssigneeObj", .user Ticket.AssigneeObj),
   ("OrgObj", .organization Ticket.OrgObj)]
/-! ## Errors -/

/-- The two sentinel errors of `strconv`. -/
inductive NumErr where
  | ErrSyntax
  | ErrRange
  deriving DecidableEq, Repr

/-- The errors a search returns: `No such field: %s in obj` (from
`reflections.GetField` and from `GetFieldType`), the invalid boolean search
value (`errors.New` in the three search functions, with the four strings the
message is formatted from), and the `*strconv.NumError` of `strconv.Atoi`. -/
inductive SearchError where
  | noSuchField (name : String)
  | invalidBool (entity searchField searchFieldType searchValue : String)
  | numError (func num : String) (err : NumErr)
  deriving DecidableEq, Repr

/-! ## Library functions -/

/-- Go `strings.ToLower`: the string mapped rune by rune to lower case.  The
ASCII letters `A` to `Z` are mapped as Go maps them.  A rune outside ASCII is
left as it is, where Go consults the Unicode case tables; there the lower case
of a rune outside ASCII is again outside ASCII, or `i` (of U+0130) or `k` (of
U+212A), so the model and Go agree on whether the result is `true` or `false`,
the one use a search makes of it. -/
def strings_ToLower (s : String) : String :=
  ⟨s.data.map Char.toLower⟩

/-- Go `strings.Split(s, sep)` for a separator of one character, on the
characters of `s`: the pieces between the separators, `n + 1` pieces for `n`
separators, so a string without separator (the empty one too) is one piece. -/
def splitChars (sep : Char) : List Char → List (List Char)
  | [] => [[]]
  | c :: cs =>
    if c = sep then [] :: splitChars sep cs
    else
      match splitChars sep cs with
      | [] => [[c]]
      | piece :: pieces => (c :: piece) :: pieces

/-- Go `strings.Split(s, sep)` for a separator of one character. -/
def strings_Split (s : String) (sep : Char) : List String :=
  (splitChars sep s.data).map String.mk

/-- Go slice expression `s[lo:hi]` on a string: a run-time panic (`none`)
unless `0 ≤ lo ≤ hi ≤ len(s)`.  Positions count characters; they are byte
positions in Go, which is the same cut when the characters cut off are ASCII. -/
def sliceString (s : String) (lo hi : Int) : Option String :=
  if 0 ≤ lo ∧ lo ≤ hi ∧ hi ≤ (s.length : Int) then
    some ⟨(s.data.drop lo.toNat).take (hi.toNat - lo.toNat)⟩
  else none

/-- The elements of a `[]string` as `%v` prints them between the brackets:
separated by one space. -/
def joinSpace : List String → List Char
  | [] => []
  | [a] => a.data
  | a :: b :: rest => a.data ++ ' ' :: joinSpace (b :: rest)

/-- Go `%v` of an `int`: decimal digits, a minus sign before a negative number. -/
def formatInt : Int → String
  | .ofNat m => Nat.repr m
  | .negSucc m => "-" ++ Nat.repr (m + 1)

/-- Go `fmt.Sprintf("%v", val)` for the values a search formats: a string is
printed as it is, a `[]string` as `[a b c]`, a bool as `true` or `false`, an
int in decimal.  The rendering of struct values is not modelled (`none`); no
search branch formats one. -/
def fmt_Sprintf_v : Value → Option String
  | .string s => some s
  | .strings l => some ⟨'[' :: (joinSpace l ++ [']'])⟩
  | .bool b => some (if b then "true" else "false")
  | .int n => some (formatInt n.val)
  | _ => none

/-- Largest `uint64`, the `maxVal` of `strconv.ParseUint` at bit size 64. -/
def maxUint64 : Nat := 18446744073709551615

/-- The digit loop of `strconv.ParseUint(s, 10, 64)`: a character that is not a
decimal digit is a syntax error, a value above `maxUint64` a range error,
whichever the scan meets first. -/
def parseUintLoop : List Char → Nat → Except NumErr Nat
  | [], n => .ok n
  | c :: cs, n =>
    if '0' ≤ c ∧ c ≤ '9' then
      if n ≥ maxUint64 / 10 + 1 then .error .ErrRange
      else if n * 10 + (c.toNat - '0'.toNat) > maxUint64 then .error .ErrRange
      else parseUintLoop cs (n * 10 + (c.toNat - '0'.toNat))
    else .error .ErrSyntax

/-- Go `strconv.ParseUint(s, 10, 64)` on the characters of `s`. -/
def strconv_ParseUint (s : List Char) : Except NumErr Nat :=
  match s with
  | [] => .error .ErrSyntax
  | _ => parseUintLoop s 0

/-- Go `strconv.ParseInt(s, 10, 0)` with a 64-bit `int`: an optional sign, then
`ParseUint`; a magnitude that does not fit is a range error. -/
def strconv_ParseInt (s : String) : Except NumErr Int :=
  match s.data with
  | [] => .error .ErrSyntax
  | c :: cs =>
    let neg : Bool := c = '-'
    let digits := if c = '+' ∨ c = '-' then cs else c :: cs
    match strconv_ParseUint digits with
    | .error .ErrSyntax => .error .ErrSyntax
    | .error .ErrRange => .error .ErrRange
    | .ok un =>
      if neg = false ∧ un ≥ 9223372036854775808 then .error .ErrRange
      else if neg = true ∧ un > 9223372036854775808 then .error .ErrRange
      else .ok (if neg then -(un : Int) else (un : Int))

/-- Go `strconv.Atoi`: `ParseInt(s, 10, 0)` (the fast path for short strings
computes the same), the error reported under the name `Atoi`. -/
def strconv_Atoi (s : String) : Except SearchError Int :=
  match strconv_ParseInt s with
  | .ok n => .ok n
  | .error err => .error (.numError "Atoi" s err)

/-- Go `reflections.GetField(obj, name)` of the library `oleiade/reflections`:
the value of the field called `name` (`FieldByName(name).Interface()`), or the
error `No such field: %s in obj`; `GetFieldType` of search.go is the same
function with the type in place of the value. -/
def reflections_GetField {α : Type} (fields : List (String × Field α)) (obj : α)
    (name : String) : Except SearchError Value :=
  match fields.lookup name with
  | none => .error (.noSuchField name)
  | some field => .ok (field.value obj)

/-- Go `GetFieldType(obj, name)` (search.go): the type of the field called
`name` as a string, or the error `No such field`; `obj` is a struct, so the
check `hasValidType` passes. -/
def GetFieldType {α : Type} (fields : List (String × Field α)) (_obj : α)
    (name : String) : Except SearchError String :=
  match fields.lookup name with
  | none => .error (.noSuchField name)
  | some field => .ok field.typeString

/-! ## Search -/

/-- Comparison `val == searchValue` of an interface value with a string: true
when the dynamic type is `string` and the strings are equal. -/
def Value.eqString : Value → String → Bool
  | .string s, t => decide (s = t)
  | _, _ => false

/-- Comparison `val == searchBoolVal` of an interface value with a bool. -/
def Value.eqBool : Value → Bool → Bool
  | .bool a, b => decide (a = b)
  | _, _ => false

/-- The `[]string` branch of a search loop body: render, strip the brackets,
split on a space, append the entity once for each piece equal to the search value. -/
def searchStrings {α : Type} (val : Value) (searchValue : String) (e : α)
    (results : List α) : Option (List α) :=
  match fmt_Sprintf_v val with
  | none => none
  | some valStr =>
    match sliceString valStr 1 ((valStr.length : Int) - 1) with
    | none => none
    | some valStr =>
      some ((strings_Split valStr ' ').foldl
        (fun results v => if v = searchValue then results ++ [e] else results) results)

/-- The `bool` branch of a search loop body. -/
def searchBool {α : Type} (entity : String) (val : Value)
    (searchField searchFieldType searchValue : String) (e : α)
    (results : List α) : List α × Option SearchError :=
  if strings_ToLower searchValue = "true" then
    (if val.eqBool true then results ++ [e] else results, none)
  else if strings_ToLower searchValue = "false" then
    (if val.eqBool false then results ++ [e] else results, none)
  else
    (results, some (.invalidBool entity searchField searchFieldType searchValue))

/-- The `int` branch of a search loop body. -/
def searchInt {α : Type} (val : Value) (searchValue : String) (e : α)
    (results : List α) : Option (List α × Option SearchError) :=
  match fmt_Sprintf_v val with
  | none => none
  | some valStr =>
    match strconv_Atoi valStr with
    | .error err => some (results, some err)
    | .ok valInt =>
      match strconv_Atoi searchValue with
      | .error err => some (results, some err)
      | .ok searchInt =>
        some (if valInt = searchInt then results ++ [e] else results, none)

/-- One pass of the loop body shared by `SearchOrgs`, `SearchUsers` and
`SearchTickets` (the three bodies differ in the struct type and in the entity
name of the boolean error message): the results so far, extended, and the
error of an early `return results, err`. -/
def searchEntity {α : Type} (entity : String) (fields : List (String × Field α))
    (searchField searchValue : String) (e : α) (results : List α) :
    Option (List α × Option SearchError) :=
  match reflections_GetField fields e searchField with
  | .error err => some (results, some err)
  | .ok val =>
    match GetFieldType fields e searchField with
    | .error err => some (results, some err)
    | .ok searchFieldType =>
      let results1 :=
        if searchFieldType = "string" then
          (if val.eqString searchValue then results ++ [e] else results)
        else results
      match (if searchFieldType = "[]string" then searchStrings val searchValue e results1
             else some results1) with
      | none => none
      | some results2 =>
        match (if searchFieldType = "bool" then
                 searchBool entity val searchField searchFieldType searchValue e results2
               else (results2, none)) with
        | (results3, some err) => some (results3, some err)
        | (results3, none) =>
          if searchFieldType = "int" then searchInt val searchValue e results3
          else some (results3, none)

/-- The loop `for _, e := range list` of a search function, from the results
so far: it stops at the first error and returns it with the results so far. -/
def searchLoop {α : Type} (entity : String) (fields : List (String × Field α))
    (searchField searchValue : String) : List α → List α → Option (List α × Option SearchError)
  | [], results => some (results, none)
  | e :: rest, results =>
    match searchEntity entity fields searchField searchValue e results with
    | none => none
    | some (results1, some err) => some (results1, some err)
    | some (results1, none) => searchLoop entity fields searchField searchValue rest results1

/-- Go `SearchOrgs(searchField, searchValue, OrgList)`. -/
def SearchOrgs (searchField searchValue : String) (OrgList : List Organization) :
    Option (List Organization × Option SearchError) :=
  searchLoop "Organization" Organization.fields searchField searchValue OrgList []

/-- Go `SearchUsers(searchField, searchValue, UserList)`. -/
def SearchUsers (searchField searchValue : String) (UserList : List User) :
    Option (List User × Option SearchError) :=
  searchLoop "User" User.fields searchField searchValue UserList []

/-- Go `SearchTickets(searchField, searchValue, TicketList)`. -/
def SearchTickets (searchField searchValue : String) (TicketList : List Ticket) :
    Option (List Ticket × Option SearchError) :=
  searchLoop "Ticket" Ticket.fields searchField searchValue TicketList []

/-! ## Maps and indices -/

/-- Go `map[int]V`: the entries in the order their keys were first stored, each
key at most once (every map here grows from the empty map by `mapSet`). -/
abbrev GoMap (V : Type) := List (GoInt × V)

/-- Go `v, indexed := m[k]`: the value stored under `k`, `none` when `k` is not
a key (`indexed == false`). -/
def mapGet {V : Type} : GoMap V → GoInt → Option V
  | [], _ => none
  | (k1, v) :: rest, k => if k1 = k then some v else mapGet rest k

/-- Go `m[k] = v`: the entry of `k` replaced, or a new entry. -/
def mapSet {V : Type} : GoMap V → GoInt → V → GoMap V
  | [], k, v => [(k, v)]
  | (k1, v1) :: rest, k, v =>
    if k1 = k then (k, v) :: rest else (k1, v1) :: mapSet rest k v

/-- Go `m[k]` for a map of slices: the slice stored under `k`, the nil slice when
`k` is not a key. -/
def mapIndex {α : Type} (m : GoMap (List α)) (k : GoInt) : List α :=
  (mapGet m k).getD []

/-- Go `len(m)`. -/
def mapLen {V : Type} (m : GoMap V) : Nat :=
  m.length

/-- Loop body of `indexOrgUsers` and `indexOrgTickets`: a first bucket for a new
key, the bucket of a known key extended. -/
def addToBucketChecked {α : Type} (key : α → GoInt) (index : GoMap (List α)) (x : α) :
    GoMap (List α) :=
  if (mapGet index (key x)).isSome = false then mapSet index (key x) [x]
  else mapSet index (key x) (mapIndex index (key x) ++ [x])

/-- Loop body of `indexUserSubmittedTickets` and `indexUserAssignedTickets`:
`index[k] = append(index[k], x)`. -/
def addToBucket {α : Type} (key : α → GoInt) (index : GoMap (List α)) (x : α) :
    GoMap (List α) :=
  mapSet index (key x) (mapIndex index (key x) ++ [x])

/-- Loop body of `indexOrgs` and `indexUsers`: stored only when the key is new. -/
def addIfAbsent {α : Type} (key : α → GoInt) (index : GoMap α) (x : α) : GoMap α :=
  if (mapGet index (key x)).isSome = false then mapSet index (key x) x else index

/-- Go `indexOrgUsers(UserList)`. -/
def indexOrgUsers (UserList : List User) : GoMap (List User) :=
  UserList.foldl (addToBucketChecked User.Org) []

/-- Go `indexOrgTickets(TicketList)`. -/
def indexOrgTickets (TicketList : List Ticket) : GoMap (List Ticket) :=
  TicketList.foldl (addToBucketChecked Ticket.Org) []

/-- Go `indexOrgs(OrgList)`. -/
def indexOrgs (OrgList : List Organization) : GoMap Organization :=
  OrgList.foldl (addIfAbsent Organization.ID) []

/-- Go `indexUserSubmittedTickets(TicketList)`. -/
def indexUserSubmittedTickets (TicketList : List Ticket) : GoMap (List Ticket) :=
  TicketList.foldl (addToBucket Ticket.Submitter) []

/-- Go `indexUserAssignedTickets(TicketList)`. -/
def indexUserAssignedTickets (TicketList : List Ticket) : GoMap (List Ticket) :=
  TicketList.foldl (addToBucket Ticket.Assignee) []

/-- Go `indexUsers(UserList)`. -/
def indexUsers (UserList : List User) : GoMap User :=
  UserList.foldl (addIfAbsent User.ID) []

/-! ## Associated entities -/

/-- Go `org.AssociatedUsers = users` on a copy of the struct. -/
def Organization.setAssociatedUsers : Organization → List User → Organization
  | .mk a b c d e f g h i _ k, users => .mk a b c d e f g h i users k

/-- Go `org.AssociatedTickets = tickets` on a copy of the struct. -/
def Organization.setAssociatedTickets : Organization → List Ticket → Organization
  | .mk a b c d e f g h i j _, tickets => .mk a b c d e f g h i j tickets

/-- Loop body of `getAssociatedUsersAndTickets`: the copy `org` of the loop
variable with both association fields set from the indices. -/
def associateUsersAndTickets (orgUserIndex : GoMap (List User))
    (indexOrgTickets : GoMap (List Ticket)) (org : Organization) : Organization :=
  let org1 :=
    match mapGet orgUserIndex org.ID with
    | some assocUsers => org.setAssociatedUsers assocUsers
    | none => org.setAssociatedUsers []
  match mapGet indexOrgTickets org1.ID with
  | some assocTickets => org1.setAssociatedTickets assocTickets
  | none => org1.setAssociatedTickets []

/-- Go `getAssociatedUsersAndTickets(orgs, orgUserIndex, indexOrgTickets)`: it
has no error result and no statement that can panic. -/
def getAssociatedUsersAndTickets (orgs : List Organization)
    (orgUserIndex : GoMap (List User)) (indexOrgTickets : GoMap (List Ticket)) :
    List Organization :=
  orgs.foldl (fun orgResults org =>
    orgResults ++ [associateUsersAndTickets orgUserIndex indexOrgTickets org]) []

/-! ## Associated organizations, users and tickets of users and tickets -/

/-- Go `user.OrgObject = org` on a copy of the struct. -/
def User.setOrgObject : User → Organization → User
  | .mk x0 x1 x2 x3 x4 x5 x6 x7 x8 x9 x10 x11 x12 x13 x14 x15 x16 x17 x18 _ x20 x21, org =>
      .mk x0 x1 x2 x3 x4 x5 x6 x7 x8 x9 x10 x11 x12 x13 x14 x15 x16 x17 x18 org x20 x21

/-- Go `user.TicketsSubmitted = tickets` on a copy of the struct. -/
def User.setTicketsSubmitted : User → List Ticket → User
  | .mk x0 x1 x2 x3 x4 x5 x6 x7 x8 x9 x10 x11 x12 x13 x14 x15 x16 x17 x18 x19 _ x21, tickets =>
      .mk x0 x1 x2 x3 x4 x5 x6 x7 x8 x9 x10 x11 x12 x13 x14 x15 x16 x17 x18 x19 tickets x21

/-- Go `user.TicketsAssigned = tickets` on a copy of the struct. -/
def User.setTicketsAssigned : User → List Ticket → User
  | .mk x0 x1 x2 x3 x4 x5 x6 x7 x8 x9 x10 x11 x12 x13 x14 x15 x16 x17 x18 x19 x20 _, tickets =>
      .mk x0 x1 x2 x3 x4 x5 x6 x7 x8 x9 x10 x11 x12 x13 x14 x15 x16 x17 x18 x19 x20 tickets

/-- Go `ticket.SubmitterObj = user` on a copy of the struct. -/
def Ticket.setSubmitterObj : Ticket → User → Ticket
  | .mk x0 x1 x2 x3 x4 x5 x6 x7 x8 x9 x10 x11 x12 x13 x14 x15 _ x17 x18, user =>
      .mk x0 x1 x2 x3 x4 x5 x6 x7 x8 x9 x10 x11 x12 x13 x14 x15 user x17 x18

/-- Go `ticket.AssigneeObj = user` on a copy of the struct. -/
def Ticket.setAssigneeObj : Ticket → User → Ticket
  | .mk x0 x1 x2 x3 x4 x5 x6 x7 x8 x9 x10 x11 x12 x13 x14 x15 x16 _ x18, user =>
      .mk x0 x1 x2 x3 x4 x5 x6 x7 x8 x9 x10 x11 x12 x13 x14 x15 x16 user x18

/-- Go `ticket.OrgObj = org` on a copy of the struct. -/
def Ticket.setOrgObj : Ticket → Organization → Ticket
  | .mk x0 x1 x2 x3 x4 x5 x6 x7 x8 x9 x10 x11 x12 x13 x14 x15 x16 x17 _, org =>
      .mk x0 x1 x2 x3 x4 x5 x6 x7 x8 x9 x10 x11 x12 x13 x14 x15 x16 x17 org

/-- Loop body of `getAssociatedOrgsAndTickets`: the copy `user` of the loop
variable, each association field set when its key is in the index and left as it
is otherwise. -/
def associateOrgsAndTickets (orgIndex : GoMap Organization)
    (userSubmittedIndex userAssignedIndex : GoMap (List Ticket)) (user : User) : User :=
  let user1 :=
    match mapGet orgIndex user.Org with
    | some org => user.setOrgObject org
    | none => user
  let user2 :=
    match mapGet userSubmittedIndex user1.ID with
    | some submittedTix => user1.setTicketsSubmitted submittedTix
    | none => user1
  match mapGet userAssignedIndex user2.ID with
  | some assignedTix => user2.setTicketsAssigned assignedTix
  | none => user2

/-- Go `getAssociatedOrgsAndTickets(users, orgIndex, userSubmittedIndex,
userAssignedIndex)`: it has no error result and no statement that can panic. -/
def getAssociatedOrgsAndTickets (users : List User) (orgIndex : GoMap Organization)
    (userSubmittedIndex userAssignedIndex : GoMap (List Ticket)) : List User :=
  users.foldl (fun userResults user =>
    userResults ++ [associateOrgsAndTickets orgIndex userSubmittedIndex userAssignedIndex user])
    []

/-- Loop body of `getAssociatedUsersAndOrgs`: the copy `ticket` of the loop
variable, each association field set when its key is in the index and left as it
is otherwise. -/
def associateUsersAndOrgs (userIndex : GoMap User) (orgIndex : GoMap Organization)
    (ticket : Ticket) : Ticket :=
  let ticket1 :=
    match mapGet userIndex ticket.Submitter with
    | some userSubmitted => ticket.setSubmitterObj userSubmitted
    | none => ticket
  let ticket2 :=
    match mapGet userIndex ticket1.Assignee with
    | some userAssigned => ticket1.setAssigneeObj userAssigned
    | none => ticket1
  match mapGet orgIndex ticket2.Org with
  | some org => ticket2.setOrgObj org
  | none => ticket2

/-- Go `getAssociatedUsersAndOrgs(tickets, userIndex, orgIndex)`: it has no error
result and no statement that can panic. -/
def getAssociatedUsersAndOrgs (tickets : List Ticket) (userIndex : GoMap User)
    (orgIndex : GoMap Organization) : List Ticket :=
  tickets.foldl (fun ticketResults ticket =>
    ticketResults ++ [associateUsersAndOrgs userIndex orgIndex ticket]) []

/-! ## Command line input -/

/-- Go `unicode.IsSpace`: the code points with the Unicode property White_Space. -/
def unicode_IsSpace (c : Char) : Bool :=
  decide ((9 ≤ c.toNat ∧ c.toNat ≤ 13) ∨ c.toNat = 32 ∨ c.toNat = 133 ∨ c.toNat = 160
    ∨ c.toNat = 5760 ∨ (8192 ≤ c.toNat ∧ c.toNat ≤ 8202) ∨ c.toNat = 8232 ∨ c.toNat = 8233
    ∨ c.toNat = 8239 ∨ c.toNat = 8287 ∨ c.toNat = 12288)

/-- Go `strings.TrimSpace`: the string without its leading and trailing white space. -/
def strings_TrimSpace (s : String) : String :=
  ⟨(((s.data.dropWhile unicode_IsSpace).reverse).dropWhile unicode_IsSpace).reverse⟩

/-- Go slice expression `s[:len(s)-1]`, the string without its last byte: a
run-time panic on the empty string (`none`) and nowhere else.  An ASCII last
character is that byte.  Behind any other last character the cut falls inside
its UTF-8 encoding and leaves the bytes before the last one, which are no text:
each is written U+FFFD here, the rune Go decodes such a byte to;
`parseSearchInputBytes` keeps the bytes themselves. -/
def sliceDropLastByte (s : String) : Option String :=
  match s.data.getLast? with
  | none => none
  | some c =>
    if c.toNat < 128 then some ⟨s.data.dropLast⟩
    else some ⟨s.data.dropLast ++ List.replicate (c.utf8Size - 1) (Char.ofNat 65533)⟩

/-- The error of `parseSearchInput`: `Invalid search format. Search format: ...`. -/
inductive ParseError where
  | invalidSearchFormat
  deriving DecidableEq, Repr

/-- Go `parseSearchInput(searchInput)`: search type, search field, search value
and error.  The pieces `searchInputComps[0]`, `searchInputComps[1]` and the pieces
from index 2 on are taken by pattern matching: two leading pieces exist exactly
when `len(searchInputComps) >= 2`, further pieces exactly when the length is above 2. -/
def parseSearchInput (searchInput : String) :
    Option (String × String × String × Option ParseError) :=
  match sliceDropLastByte searchInput with
  | none => none
  | some line =>
    match strings_Split line ' ' with
    | comp0 :: comp1 :: rest =>
      let searchType := strings_TrimSpace comp0
      let searchField := strings_TrimSpace comp1
      match rest with
      | _ :: _ =>
        let searchValue := rest.foldl (fun builder comp => builder ++ (comp ++ " ")) ""
        some (searchType, searchField, strings_TrimSpace searchValue, none)
      | [] => some (searchType, searchField, "", none)
    | _ => some ("", "", "", some .invalidSearchFormat)

/-! ## Command line input, byte by byte

A Go string is a sequence of bytes, and the slice expression of
`parseSearchInput` counts bytes: cut inside the encoding of a character it leaves
bytes that are no text.  This section gives `parseSearchInput` on the bytes
themselves, `strings.TrimSpace` decoding them as package `utf8` does. -/

/-- Go conversion `[]byte(s)` of a string of text: its UTF-8 encoding. -/
def bytesOf (s : String) : List UInt8 :=
  s.data.flatMap String.utf8EncodeChar

/-- Go `strings.Split(s, sep)` for a separator of one byte, on the bytes of
`s`: the pieces between the separators, `n + 1` pieces for `n` separators. -/
def splitBytes (sep : UInt8) : List UInt8 → List (List UInt8)
  | [] => [[]]
  | b :: bs =>
    if b = sep then [] :: splitBytes sep bs
    else
      match splitBytes sep bs with
      | [] => [[b]]
      | piece :: pieces => (b :: piece) :: pieces

/-- Go `utf8.RuneError`, the rune U+FFFD that decoding gives for a byte that is
part of no valid encoding. -/
def utf8_RuneError : Nat := 65533

/-- The entry of table `first` of package `utf8` for the first byte of an
encoding of several bytes: the length of the encoding, and the lowest and the
highest value accepted for its second byte (`acceptRanges`); `none` for a byte
that starts no such encoding. -/
def utf8_first (b : UInt8) : Option (Nat × UInt8 × UInt8) :=
  if 0xC2 ≤ b ∧ b ≤ 0xDF then some (2, 0x80, 0xBF)
  else if b = 0xE0 then some (3, 0xA0, 0xBF)
  else if (0xE1 ≤ b ∧ b ≤ 0xEC) ∨ b = 0xEE ∨ b = 0xEF then some (3, 0x80, 0xBF)
  else if b = 0xED then some (3, 0x80, 0x9F)
  else if b = 0xF0 then some (4, 0x90, 0xBF)
  else if 0xF1 ≤ b ∧ b ≤ 0xF3 then some (4, 0x80, 0xBF)
  else if b = 0xF4 then some (4, 0x80, 0x8F)
  else none

/-- Go `utf8.DecodeRuneInString(p)`: the first rune of `p` and its width in
bytes; `(RuneError, 0)` for the empty string and `(RuneError, 1)` where the bytes
are no valid encoding. -/
def utf8_DecodeRune (p : List UInt8) : Nat × Nat :=
  match p with
  | [] => (utf8_RuneError, 0)
  | p0 :: rest =>
    if p0 < 0x80 then (p0.toNat, 1)
    else
      match utf8_first p0 with
      | none => (utf8_RuneError, 1)
      | some (sz, lo, hi) =>
        if p.length < sz then (utf8_RuneError, 1)
        else
          match rest with
          | [] => (utf8_RuneError, 1)
          | b1 :: rest1 =>
            if b1 < lo ∨ hi < b1 then (utf8_RuneError, 1)
            else if sz ≤ 2 then (p0.toNat % 32 * 64 + b1.toNat % 64, 2)
            else
              match rest1 with
              | [] => (utf8_RuneError, 1)
              | b2 :: rest2 =>
                if b2 < 0x80 ∨ 0xBF < b2 then (utf8_RuneError, 1)
                else if sz ≤ 3 then
                  (p0.toNat % 16 * 4096 + b1.toNat % 64 * 64 + b2.toNat % 64, 3)
                else
                  match rest2 with
                  | [] => (utf8_RuneError, 1)
                  | b3 :: _ =>
                    if b3 < 0x80 ∨ 0xBF < b3 then (utf8_RuneError, 1)
                    else
                      (p0.toNat % 8 * 262144 + b1.toNat % 64 * 4096 + b2.toNat % 64 * 64
                        + b3.toNat % 64, 4)

/-- Go `utf8.RuneStart(b)`: the byte is not a continuation byte. -/
def utf8_RuneStart (b : UInt8) : Bool :=
  b &&& 0xC0 != 0x80

/-- The loop `for start--; start >= lim; start-- { if RuneStart(p[start]) { break } }`
of `DecodeLastRuneInString`, entered with `start + 1` as the argument: the value
of `start` after the loop, `-1` when it ran below index 0. -/
def lastRuneScan (p : List UInt8) (lim : Nat) : Nat → Int
  | 0 => -1
  | start + 1 =>
    if lim ≤ start then
      if utf8_RuneStart (p.getD start 0) then (start : Int) else lastRuneScan p lim start
    else (start : Int)

/-- Go `utf8.DecodeLastRuneInString(p)`: the last rune of `p` and its width in
bytes; `(RuneError, 0)` for the empty string and `(RuneError, 1)` where the bytes
are no valid encoding.  `lim` is `end - UTFMax`, 0 when that is negative (the
subtraction of natural numbers), and `Int.toNat` is `if start < 0 { start = 0 }`. -/
def utf8_DecodeLastRune (p : List UInt8) : Nat × Nat :=
  match p.getLast? with
  | none => (utf8_RuneError, 0)
  | some last =>
    if last < 0x80 then (last.toNat, 1)
    else
      let lim := p.length - 4
      let start := (lastRuneScan p lim (p.length - 1)).toNat
      let (r, size) := utf8_DecodeRune (p.drop start)
      if start + size ≠ p.length then (utf8_RuneError, 1) else (r, size)

/-- Go `unicode.IsSpace(r)` of a rune given by its number. -/
def unicode_IsSpaceRune (r : Nat) : Bool :=
  decide ((9 ≤ r ∧ r ≤ 13) ∨ r = 32 ∨ r = 133 ∨ r = 160
    ∨ r = 5760 ∨ (8192 ≤ r ∧ r ≤ 8202) ∨ r = 8232 ∨ r = 8233
    ∨ r = 8239 ∨ r = 8287 ∨ r = 12288)

/-- Go `strings.TrimLeftFunc(s, unicode.IsSpace)`: the string from its first rune
that is no white space on.  The runes are decoded from the left; `skip` counts
the bytes still to pass of a rune found to be white space. -/
def trimLeftSpace : Nat → List UInt8 → List UInt8
  | _, [] => []
  | skip + 1, _ :: rest => trimLeftSpace skip rest
  | 0, b :: rest =>
    if unicode_IsSpaceRune (utf8_DecodeRune (b :: rest)).1 then
      trimLeftSpace ((utf8_DecodeRune (b :: rest)).2 - 1) rest
    else b :: rest

/-- Go `strings.TrimRightFunc(s, unicode.IsSpace)` on the reversed string: the
string up to its last rune that is no white space.  The runes are decoded from
the right (`DecodeLastRuneInString`); `skip` counts the bytes still to pass of a
rune found to be white space. -/
def trimRightSpace : Nat → List UInt8 → List UInt8
  | _, [] => []
  | skip + 1, _ :: rest => trimRightSpace skip rest
  | 0, b :: rest =>
    if unicode_IsSpaceRune (utf8_DecodeLastRune (b :: rest).reverse).1 then
      trimRightSpace ((utf8_DecodeLastRune (b :: rest).reverse).2 - 1) rest
    else b :: rest

/-- Go `strings.TrimSpace(s)` on the bytes of `s`:
`TrimRightFunc(TrimLeftFunc(s, unicode.IsSpace), unicode.IsSpace)`. -/
def bytes_TrimSpace (s : List UInt8) : List UInt8 :=
  (trimRightSpace 0 (trimLeftSpace 0 s).reverse).reverse

/-- Go `parseSearchInput(searchInput)` on the bytes of `searchInput`: search
type, search field, search value and error.  `searchInput[:len(searchInput)-1]`
is the input without its last byte, a run-time panic (`none`) on the empty
input and nowhere else; the pieces are taken by pattern matching as in
`parseSearchInput`. -/
def parseSearchInputBytes (searchInput : List UInt8) :
    Option (List UInt8 × List UInt8 × List UInt8 × Option ParseError) :=
  match searchInput with
  | [] => none
  | _ :: _ =>
    match splitBytes 32 searchInput.dropLast with
    | comp0 :: comp1 :: rest =>
      let searchType := bytes_TrimSpace comp0
      let searchField := bytes_TrimSpace comp1
      match rest with
      | _ :: _ =>
        let searchValue := rest.foldl (fun builder comp => builder ++ (comp ++ [32])) []
        some (searchType, searchField, bytes_TrimSpace searchValue, none)
      | [] => some (searchType, searchField, [], none)
    | _ => some ([], [], [], some .invalidSearchFormat)

/-- Go conversion `[]rune(s)` on the bytes of `s`: the runes that decoding from
the left gives, `RuneError` for each byte that is part of no valid encoding;
`skip` counts the bytes still to pass of the rune decoded last. -/
def runesOf : Nat → List UInt8 → List Nat
  | _, [] => []
  | skip + 1, _ :: rest => runesOf skip rest
  | 0, b :: rest =>
    (utf8_DecodeRune (b :: rest)).1 :: runesOf ((utf8_DecodeRune (b :: rest)).2 - 1) rest

/-- The pieces a search compares with the search value for a `[]string` field
holding `l`: the rendering without its brackets, split on a space. -/
def tokens (l : List String) : List String :=
  strings_Split ⟨joinSpace l⟩ ' '

/-! ## Zero values and sample data -/

/-- Go zero value of `int`. -/
def zeroInt : GoInt := ⟨0, by decide⟩

/-- Go zero value `Organization{}`. -/
def zeroOrganization : Organization :=
  .mk zeroInt "" "" "" [] "" "" false [] [] []

/-- Go zero value `User{}`. -/
def zeroUser : User :=
  .mk zeroInt "" "" "" "" "" false false false "" "" "" "" "" "" [] false "" zeroInt
    zeroOrganization [] []

/-- Organization 103 with the field values `TestSearchOrgs` expects (the two
lists are examples), as decoded from JSON: no associations yet. -/
def sampleOrg : Organization :=
  .mk ⟨103, by decide⟩ "Plasmos" "http://initech.zendesk.com/api/v2/organizations/103.json"
    "e73240f3-8ecf-411d-ad0d-80ca8a84053d" ["comvex.com", "automon.com"]
    "2016-05-28T04:40:37 -10:00" "Non profit" false ["Parrish", "Lindsay"] [] []

/-- An organization that shares tickets and has a tag with a tab inside. -/
def tabOrg : Organization :=
  .mk ⟨104, by decide⟩ "Xylar" "" "" ["xylar.com"] "" "" true ["a\tb", "West"] [] []

/-- User 49 with the field values `TestSearchUsers` expects (the tags are an example). -/
def sampleUser : User :=
  .mk ⟨49, by decide⟩ "Faulkner Holcomb" "http://initech.zendesk.com/api/v2/users/49.json"
    "4bd5e757-c0cd-445b-b702-ee3ed794f6c4" "Miss Jody" "2016-05-12T08:39:30 -10:00"
    true false true "zh-CN" "Antigua and Barbuda" "2014-12-04T12:51:36 -11:00"
    "jodyholcomb@flotonic.com" "9255-943-719" "Don't Worry Be Happy!" ["Lacombe"]
    true "end-user" ⟨118, by decide⟩ zeroOrganization [] []

/-- The ticket with the field values `TestSearchTickets` expects (the tags are
an example). -/
def sampleTicket : Ticket :=
  .mk "1a227508-9f39-427c-8f57-1b72f3fab87c"
    "http://initech.zendesk.com/api/v2/tickets/1a227508-9f39-427c-8f57-1b72f3fab87c.json"
    "3e5ca820-cd1f-4a02-a18f-11b18e7bb49a" "2016-04-14T08:32:31 -10:00" "low" "hold"
    "incident" "A Catastrophe in Micronesia"
    "Aliquip excepteur fugiat ex minim ea aute eu labore. Sunt eiusmod esse eu non commodo est veniam consequat."
    ["Puerto Rico", "Idaho"] ⟨112, by decide⟩ false "2016-08-15T05:37:32 -10:00"
    ⟨71, by decide⟩ ⟨38, by decide⟩ "chat" zeroUser zeroUser zeroOrganization

/-- A user with the given ID and organization, all other fields zero. -/
def userOf (id org : GoInt) : User :=
  .mk id "" "" "" "" "" false false false "" "" "" "" "" "" [] false "" org
    zeroOrganization [] []

/-- A ticket with the given ID, organization, submitter and assignee, all other
fields zero. -/
def ticketOf (id : String) (org submitter assignee : GoInt) : Ticket :=
  .mk id "" "" "" "" "" "" "" "" [] org false "" submitter assignee "" zeroUser zeroUser
    zeroOrganization

/-- A second organization with the ID 104 of `tabOrg`. -/
def dupOrg : Organization :=
  .mk ⟨104, by decide⟩ "Duplicate" "" "" [] "" "" false [] [] []

/-- Three users of organization 104 among four. -/
def scenarioUsers : List User :=
  [userOf ⟨1, by decide⟩ ⟨104, by decide⟩, sampleUser, userOf ⟨2, by decide⟩ ⟨104, by decide⟩,
    userOf ⟨3, by decide⟩ ⟨104, by decide⟩]

/-- Two tickets of organization 104 among three. -/
def scenarioTickets : List Ticket :=
  [ticketOf "t1" ⟨104, by decide⟩ ⟨1, by decide⟩ ⟨2, by decide⟩, sampleTicket,
    ticketOf "t2" ⟨104, by decide⟩ ⟨1, by decide⟩ ⟨3, by decide⟩]

/-- A ticket whose two tags share the word `New`. -/
def newTicket : Ticket :=
  .mk "4cce7415-ef12-42b6-b7b5-fb00e24f9cc1" "" "" "" "" "" "" "" "" ["New York", "New Jersey"]
    ⟨112, by decide⟩ false "" ⟨71, by decide⟩ ⟨38, by decide⟩ "" zeroUser zeroUser
    zeroOrganization

/-- An organization with an empty tag beside another tag. -/
def emptyTagOrg : Organization :=
  .mk ⟨105, by decide⟩ "Koffee" "" "" [] "" "" false ["", "West"] [] []

/-- A user that already carries a submitted ticket before any association. -/
def staleUser : User :=
  .mk ⟨49, by decide⟩ "" "" "" "" "" false false false "" "" "" "" "" "" [] false ""
    ⟨118, by decide⟩ zeroOrganization [sampleTicket] []

/-- An organization with the same tag twice. -/
def twinTagOrg : Organization :=
  .mk ⟨106, by decide⟩ "Twin" "" "" [] "" "" false ["a", "a"] [] []

/-! # Theorems -/

/-! ## One pass of the loop body, field kind by field kind -/

theorem foldl_append_matches {α : Type} (e : α) (searchValue : String) (toks : List String)
    (results : List α) :
    toks.foldl (fun results v => if v = searchValue then results ++ [e] else results) results
      = results ++ List.replicate (toks.count searchValue) e := by
  induction toks generalizing results with
  | nil => simp
  | cons t ts ih =>
    simp only [List.foldl_cons, ih, List.count_cons]
    by_cases h : t = searchValue
    · simp [h, List.replicate_succ, Nat.add_comm]
    · simp [h]

theorem sliceString_brackets (j : List Char) :
    sliceString ⟨'[' :: (j ++ [']'])⟩ 1
      (((⟨'[' :: (j ++ [']'])⟩ : String).length : Int) - 1) = some ⟨j⟩ := by
  have hlen : (⟨'[' :: (j ++ [']'])⟩ : String).length = j.length + 2 := by
    simp [String.length]
  unfold sliceString
  rw [hlen]
  have h1 : ((j.length + 2 : Nat) : Int) - 1 = ((j.length + 1 : Nat) : Int) := by
    push_cast; ring
  rw [h1]
  have hc : (0 : Int) ≤ 1 ∧ (1 : Int) ≤ ((j.length + 1 : Nat) : Int)
      ∧ ((j.length + 1 : Nat) : Int) ≤ ((j.length + 2 : Nat) : Int) := by
    refine ⟨by decide, ?_, ?_⟩ <;> push_cast <;> omega
  rw [if_pos hc]
  simp

theorem searchStrings_strings {α : Type} (l : List String) (searchValue : String) (e : α)
    (results : List α) :
    searchStrings (.strings l) searchValue e results
      = some (results ++ List.replicate ((tokens l).count searchValue) e) := by
  simp only [searchStrings, fmt_Sprintf_v, sliceString_brackets, foldl_append_matches, tokens]

section Step

variable {α : Type} (entity : String) (fields : List (String × Field α))
  (searchField searchValue : String)

theorem searchEntity_noField (h : fields.lookup searchField = none) (e : α) (results : List α) :
    searchEntity entity fields searchField searchValue e results
      = some (results, some (.noSuchField searchField)) := by
  simp [searchEntity, reflections_GetField, h]

theorem searchEntity_string (get : α → String)
    (h : fields.lookup searchField = some (.string get)) (e : α) (results : List α) :
    searchEntity entity fields searchField searchValue e results
      = some (if get e = searchValue then results ++ [e] else results, none) := by
  simp [searchEntity, reflections_GetField, GetFieldType, h, Field.value, Field.typeString,
    Value.eqString]

theorem searchEntity_strings (get : α → List String)
    (h : fields.lookup searchField = some (.strings get)) (e : α) (results : List α) :
    searchEntity entity fields searchField searchValue e results
      = some (results ++ List.replicate ((tokens (get e)).count searchValue) e, none) := by
  simp [searchEntity, reflections_GetField, GetFieldType, h, Field.value, Field.typeString,
    searchStrings_strings]

theorem searchEntity_bool (get : α → Bool)
    (h : fields.lookup searchField = some (.bool get)) (e : α) (results : List α) :
    searchEntity entity fields searchField searchValue e results
      = some (searchBool entity (.bool (get e)) searchField "bool" searchValue e results) := by
  simp only [searchEntity, reflections_GetField, GetFieldType, h, Field.value, Field.typeString]
  have h1 : ("bool" = "string") = False := by decide
  have h2 : ("bool" = "[]string") = False := by decide
  have h3 : ("bool" = "int") = False := by decide
  simp only [h1, h2, h3, if_false, if_true]
  rcases hb : searchBool entity (.bool (get e)) searchField "bool" searchValue e results
    with ⟨r, _ | err⟩ <;> rfl

theorem searchEntity_int (get : α → GoInt)
    (h : fields.lookup searchField = some (.int get)) (e : α) (results : List α) :
    searchEntity entity fields searchField searchValue e results
      = searchInt (.int (get e)) searchValue e results := by
  simp [searchEntity, reflections_GetField, GetFieldType, h, Field.value, Field.typeString]

theorem searchEntity_other (field : Field α)
    (h : fields.lookup searchField = some field)
    (h1 : field.typeString ≠ "string") (h2 : field.typeString ≠ "[]string")
    (h3 : field.typeString ≠ "bool") (h4 : field.typeString ≠ "int")
    (e : α) (results : List α) :
    searchEntity entity fields searchField searchValue e results = some (results, none) := by
  simp [searchEntity, reflections_GetField, GetFieldType, h, h1, h2, h3, h4]

end Step

/-! ## Decimal rendering and `strconv.Atoi` -/

theorem digitChar_isDigit (d : Nat) (h : d < 10) :
    ('0' ≤ Nat.digitChar d ∧ Nat.digitChar d ≤ '9')
      ∧ (Nat.digitChar d).toNat - '0'.toNat = d := by
  interval_cases d <;> decide

theorem toDigitsCore_append (fuel : Nat) : ∀ (n : Nat) (ds : List Char),
    Nat.toDigitsCore 10 fuel n ds = Nat.toDigitsCore 10 fuel n [] ++ ds := by
  induction fuel with
  | zero => intro n ds; simp [Nat.toDigitsCore]
  | succ k ih =>
    intro n ds
    simp only [Nat.toDigitsCore]
    by_cases h : n / 10 = 0
    · simp [h]
    · simp only [h, if_false]
      rw [ih (n / 10) (Nat.digitChar (n % 10) :: ds), ih (n / 10) [Nat.digitChar (n % 10)]]
      simp

theorem toDigitsCore_step (k n : Nat) :
    Nat.toDigitsCore 10 (k + 1) n []
      = if n / 10 = 0 then [Nat.digitChar (n % 10)]
        else Nat.toDigitsCore 10 k (n / 10) [] ++ [Nat.digitChar (n % 10)] := by
  simp only [Nat.toDigitsCore]
  by_cases h : n / 10 = 0
  · simp [h]
  · simp only [h, if_false]
    exact toDigitsCore_append k (n / 10) [Nat.digitChar (n % 10)]

theorem parseUintLoop_append (xs ys : List Char) : ∀ (n : Nat),
    parseUintLoop (xs ++ ys) n
      = match parseUintLoop xs n with
        | .ok m => parseUintLoop ys m
        | .error err => .error err := by
  induction xs with
  | nil => intro n; simp [parseUintLoop]
  | cons c cs ih =>
    intro n
    simp only [List.cons_append, parseUintLoop]
    split_ifs <;> first | rfl | exact ih _

theorem parseUintLoop_digit (d n : Nat) (hd : d < 10) (h : n * 10 + d ≤ maxUint64) :
    parseUintLoop [Nat.digitChar d] n = .ok (n * 10 + d) := by
  obtain ⟨hc, hv⟩ := digitChar_isDigit d hd
  have h1 : ¬ n ≥ maxUint64 / 10 + 1 := by
    unfold maxUint64 at *; omega
  have h2 : ¬ n * 10 + d > maxUint64 := by omega
  simp only [parseUintLoop, hc, hv, h1, h2, and_self, if_true, if_false]

theorem parseUintLoop_toDigits (n : Nat) : ∀ (fuel : Nat), n < fuel → n ≤ maxUint64 →
    parseUintLoop (Nat.toDigitsCore 10 fuel n []) 0 = .ok n := by
  induction n using Nat.strong_induction_on with
  | _ n ih =>
    intro fuel hf hn
    obtain ⟨k, rfl⟩ : ∃ k, fuel = k + 1 := ⟨fuel - 1, by omega⟩
    rw [toDigitsCore_step]
    by_cases h : n / 10 = 0
    · rw [if_pos h]
      have hlt : n % 10 < 10 := Nat.mod_lt _ (by decide)
      have := parseUintLoop_digit (n % 10) 0 hlt (by unfold maxUint64 at *; omega)
      rw [this]
      congr 1
      omega
    · rw [if_neg h, parseUintLoop_append]
      have hlt : n / 10 < n := by omega
      rw [ih (n / 10) hlt k (by omega) (by omega)]
      have hd : n % 10 < 10 := Nat.mod_lt _ (by decide)
      have := parseUintLoop_digit (n % 10) (n / 10) hd (by omega)
      simp only [this]
      congr 1
      omega

theorem toDigitsCore_allDigits (n : Nat) : ∀ (fuel : Nat), n < fuel →
    ∀ c ∈ Nat.toDigitsCore 10 fuel n [], '0' ≤ c ∧ c ≤ '9' := by
  induction n using Nat.strong_induction_on with
  | _ n ih =>
    intro fuel hf c hc
    obtain ⟨k, rfl⟩ : ∃ k, fuel = k + 1 := ⟨fuel - 1, by omega⟩
    rw [toDigitsCore_step] at hc
    have hd : n % 10 < 10 := Nat.mod_lt _ (by decide)
    by_cases h : n / 10 = 0
    · rw [if_pos h, List.mem_singleton] at hc
      subst hc
      exact (digitChar_isDigit _ hd).1
    · rw [if_neg h, List.mem_append, List.mem_singleton] at hc
      rcases hc with hc | hc
      · exact ih (n / 10) (by omega) k (by omega) c hc
      · subst hc
        exact (digitChar_isDigit _ hd).1

theorem toDigits_ne_nil (n : Nat) : Nat.toDigits 10 n ≠ [] := by
  unfold Nat.toDigits
  rw [toDigitsCore_step]
  split_ifs <;> simp

theorem digit_ne_sign (c : Char) (h : '0' ≤ c ∧ c ≤ '9') : c ≠ '+' ∧ c ≠ '-' := by
  constructor <;> (intro hc; subst hc; revert h; decide)

theorem strconv_ParseUint_toDigits (n : Nat) (hn : n ≤ maxUint64) :
    strconv_ParseUint (Nat.toDigits 10 n) = .ok n := by
  have hne := toDigits_ne_nil n
  have hloop := parseUintLoop_toDigits n (n + 1) (by omega) hn
  unfold strconv_ParseUint
  revert hne hloop
  show Nat.toDigits 10 n ≠ [] → parseUintLoop (Nat.toDigits 10 n) 0 = .ok n → _
  cases Nat.toDigits 10 n with
  | nil => intro hne; exact absurd rfl hne
  | cons c cs => intro _ hloop; exact hloop

/-- Parsing the decimal rendering of a Go `int` gives the `int` back. -/
theorem strconv_Atoi_formatInt (n : GoInt) : strconv_Atoi (formatInt n.val) = .ok n.val := by
  obtain ⟨v, hlo, hhi⟩ := n
  unfold minInt at hlo
  unfold maxInt at hhi
  cases v with
  | ofNat m =>
    have hm : m ≤ 9223372036854775807 := by
      have : (m : Int) ≤ 9223372036854775807 := hhi
      omega
    have hne := toDigits_ne_nil m
    have hall := toDigitsCore_allDigits m (m + 1) (by omega)
    have hparse := strconv_ParseUint_toDigits m (by unfold maxUint64; omega)
    simp only [strconv_Atoi, strconv_ParseInt, formatInt, Nat.repr, List.asString]
    rcases hd : Nat.toDigits 10 m with _ | ⟨c, cs⟩
    · exact absurd hd hne
    · have hc : '0' ≤ c ∧ c ≤ '9' := hall c (by
        show c ∈ Nat.toDigits 10 m
        rw [hd]; exact List.mem_cons_self _ _)
      obtain ⟨hp, hm'⟩ := digit_ne_sign c hc
      rw [hd] at hparse
      simp only [hp, hm', or_self, if_false, decide_False, hparse]
      have h1 : ¬ m ≥ 9223372036854775808 := by omega
      simp [h1]
  | negSucc m =>
    have hm : m + 1 ≤ 9223372036854775808 := by
      have : -9223372036854775808 ≤ Int.negSucc m := hlo
      rw [Int.negSucc_eq] at this
      omega
    have hparse := strconv_ParseUint_toDigits (m + 1) (by unfold maxUint64; omega)
    have hdata : ("-" ++ Nat.repr (m + 1)).data = '-' :: Nat.toDigits 10 (m + 1) := by
      simp [Nat.repr, List.asString]
    simp only [strconv_Atoi, strconv_ParseInt, formatInt, hdata]
    simp only [or_true, if_true, decide_True, hparse]
    have h1 : ¬ m + 1 > 9223372036854775808 := by omega
    simp [h1, Int.negSucc_eq]

/-! ## The whole loop, field kind by field kind -/

section Loop

variable {α : Type} (entity : String) (fields : List (String × Field α))
  (searchField searchValue : String)

theorem searchLoop_noField (h : fields.lookup searchField = none) (e : α) (rest results : List α) :
    searchLoop entity fields searchField searchValue (e :: rest) results
      = some (results, some (.noSuchField searchField)) := by
  simp [searchLoop, searchEntity_noField entity fields searchField searchValue h]

theorem searchLoop_string (get : α → String)
    (h : fields.lookup searchField = some (.string get)) (list : List α) :
    ∀ results : List α, searchLoop entity fields searchField searchValue list results
      = some (results ++ list.filter (fun e => decide (get e = searchValue)), none) := by
  induction list with
  | nil => intro results; simp [searchLoop]
  | cons e rest ih =>
    intro results
    simp only [searchLoop, searchEntity_string entity fields searchField searchValue get h, ih]
    by_cases hv : get e = searchValue <;> simp [hv, List.filter_cons]

theorem searchLoop_strings (get : α → List String)
    (h : fields.lookup searchField = some (.strings get)) (list : List α) :
    ∀ results : List α, searchLoop entity fields searchField searchValue list results
      = some (results ++ list.flatMap
          (fun e => List.replicate ((tokens (get e)).count searchValue) e), none) := by
  induction list with
  | nil => intro results; simp [searchLoop]
  | cons e rest ih =>
    intro results
    simp only [searchLoop, searchEntity_strings entity fields searchField searchValue get h, ih]
    simp [List.flatMap_cons]

theorem searchLoop_bool (get : α → Bool)
    (h : fields.lookup searchField = some (.bool get)) (b : Bool)
    (hb : strings_ToLower searchValue = (if b then "true" else "false")) (list : List α) :
    ∀ results : List α, searchLoop entity fields searchField searchValue list results
      = some (results ++ list.filter (fun e => decide (get e = b)), none) := by
  induction list with
  | nil => intro results; simp [searchLoop]
  | cons e rest ih =>
    intro results
    simp only [searchLoop, searchEntity_bool entity fields searchField searchValue get h,
      searchBool, hb, Value.eqBool]
    cases b <;> cases hg : get e <;> simp [ih, hg, List.filter_cons]

theorem searchLoop_bool_invalid (get : α → Bool)
    (h : fields.lookup searchField = some (.bool get))
    (ht : strings_ToLower searchValue ≠ "true") (hf : strings_ToLower searchValue ≠ "false")
    (e : α) (rest results : List α) :
    searchLoop entity fields searchField searchValue (e :: rest) results
      = some (results, some (.invalidBool entity searchField "bool" searchValue)) := by
  simp [searchLoop, searchEntity_bool entity fields searchField searchValue get h,
    searchBool, ht, hf]

theorem searchLoop_int (get : α → GoInt)
    (h : fields.lookup searchField = some (.int get)) (n : Int)
    (hn : strconv_Atoi searchValue = .ok n) (list : List α) :
    ∀ results : List α, searchLoop entity fields searchField searchValue list results
      = some (results ++ list.filter (fun e => decide ((get e).val = n)), none) := by
  induction list with
  | nil => intro results; simp [searchLoop]
  | cons e rest ih =>
    intro results
    simp only [searchLoop, searchEntity_int entity fields searchField searchValue get h,
      searchInt, fmt_Sprintf_v, strconv_Atoi_formatInt, hn]
    by_cases hv : (get e).val = n <;> simp [hv, ih, List.filter_cons]

theorem searchLoop_int_invalid (get : α → GoInt)
    (h : fields.lookup searchField = some (.int get)) (err : SearchError)
    (hn : strconv_Atoi searchValue = .error err) (e : α) (rest results : List α) :
    searchLoop entity fields searchField searchValue (e :: rest) results
      = some (results, some err) := by
  simp only [searchLoop, searchEntity_int entity fields searchField searchValue get h,
    searchInt, fmt_Sprintf_v, strconv_Atoi_formatInt, hn]

theorem searchLoop_other (field : Field α)
    (h : fields.lookup searchField = some field)
    (h1 : field.typeString ≠ "string") (h2 : field.typeString ≠ "[]string")
    (h3 : field.typeString ≠ "bool") (h4 : field.typeString ≠ "int") (list : List α) :
    ∀ results : List α, searchLoop entity fields searchField searchValue list results
      = some (results, none) := by
  induction list with
  | nil => intro results; simp [searchLoop]
  | cons e rest ih =>
    intro results
    simp only [searchLoop,
      searchEntity_other entity fields searchField searchValue field h h1 h2 h3 h4, ih]

end Loop

/-! ## Splitting a rendered list -/

theorem splitChars_ne_nil (sep : Char) (cs : List Char) : splitChars sep cs ≠ [] := by
  cases cs with
  | nil => simp [splitChars]
  | cons c cs =>
    simp only [splitChars]
    split_ifs
    · simp
    · split <;> simp

theorem splitChars_append_sep (sep : Char) (a b : List Char) :
    splitChars sep (a ++ sep :: b) = splitChars sep a ++ splitChars sep b := by
  induction a with
  | nil => simp [splitChars]
  | cons c cs ih =>
    simp only [List.cons_append, splitChars, List.append_eq]
    rw [ih]
    by_cases hc : c = sep
    · simp [hc]
    · simp only [hc, if_false]
      rcases hs : splitChars sep cs with _ | ⟨p, ps⟩
      · exact absurd hs (splitChars_ne_nil sep cs)
      · simp

theorem splitChars_no_sep (sep : Char) (cs : List Char) (h : sep ∉ cs) :
    splitChars sep cs = [cs] := by
  induction cs with
  | nil => simp [splitChars]
  | cons c cs ih =>
    have hc : ¬ c = sep := fun hc => h (by simp [hc])
    have hcs : sep ∉ cs := fun hm => h (List.mem_cons_of_mem _ hm)
    simp [splitChars, hc, ih hcs]

theorem splitChars_pieces_no_sep (sep : Char) (cs : List Char) :
    ∀ piece ∈ splitChars sep cs, sep ∉ piece := by
  induction cs with
  | nil => simp [splitChars]
  | cons c cs ih =>
    intro piece hp
    simp only [splitChars] at hp
    by_cases hc : c = sep
    · simp only [hc, if_true, List.mem_cons] at hp
      rcases hp with hp | hp
      · simp [hp]
      · exact ih piece hp
    · simp only [hc, if_false] at hp
      rcases hs : splitChars sep cs with _ | ⟨p, ps⟩
      · exact absurd hs (splitChars_ne_nil sep cs)
      · rw [hs] at hp ih
        simp only [List.mem_cons] at hp
        rcases hp with hp | hp
        · subst hp
          intro hm
          rcases List.mem_cons.mp hm with hm | hm
          · exact hc hm.symm
          · exact ih p (List.mem_cons_self _ _) hm
        · exact ih piece (List.mem_cons_of_mem _ hp)

theorem splitChars_joinSpace_mem (l : List String) (v : String) (hv : v ∈ l)
    (hsp : ' ' ∉ v.data) : v.data ∈ splitChars ' ' (joinSpace l) := by
  induction l with
  | nil => simp at hv
  | cons a rest ih =>
    cases rest with
    | nil =>
      have : v = a := by simpa using hv
      subst this
      simp [joinSpace, splitChars_no_sep ' ' v.data hsp]
    | cons b rest =>
      simp only [joinSpace, splitChars_append_sep, List.mem_append]
      rcases List.mem_cons.mp hv with hv | hv
      · subst hv
        left
        simp [splitChars_no_sep ' ' v.data hsp]
      · right
        exact ih hv

theorem mem_tokens_of_mem (l : List String) (v : String) (hv : v ∈ l)
    (hsp : ' ' ∉ v.data) : v ∈ tokens l := by
  unfold tokens strings_Split
  exact List.mem_map.mpr ⟨v.data, splitChars_joinSpace_mem l v hv hsp, rfl⟩

theorem not_mem_tokens_of_space (l : List String) (v : String) (hsp : ' ' ∈ v.data) :
    v ∉ tokens l := by
  unfold tokens strings_Split
  intro hm
  obtain ⟨piece, hp, rfl⟩ := List.mem_map.mp hm
  exact splitChars_pieces_no_sep ' ' _ piece hp hsp

/-! ## The claims -/

section Generic

variable {α : Type} (entity : String) (fields : List (String × Field α))

theorem strings_ToLower_bool (b : Bool) :
    strings_ToLower (if b then "true" else "false") = (if b then "true" else "false") := by
  cases b <;> decide

theorem searchLoop_finds_scalar (F : String) (field : Field α) (list : List α) (E : α)
    (text : String) (hF : fields.lookup F = some field)
    (hkind : field.typeString = "string" ∨ field.typeString = "int"
      ∨ field.typeString = "bool")
    (htext : fmt_Sprintf_v (field.value E) = some text) (hE : E ∈ list) :
    ∃ results, searchLoop entity fields F text list [] = some (results, none) ∧ E ∈ results := by
  cases field with
  | string get =>
    simp only [Field.value, fmt_Sprintf_v, Option.some.injEq] at htext
    subst htext
    exact ⟨_, searchLoop_string entity fields F _ get hF list [], by simp [hE]⟩
  | int get =>
    simp only [Field.value, fmt_Sprintf_v, Option.some.injEq] at htext
    subst htext
    refine ⟨_, searchLoop_int entity fields F _ get hF (get E).val
      (strconv_Atoi_formatInt (get E)) list [], by simp [hE]⟩
  | bool get =>
    simp only [Field.value, fmt_Sprintf_v, Option.some.injEq] at htext
    subst htext
    exact ⟨_, searchLoop_bool entity fields F _ get hF (get E)
      (strings_ToLower_bool (get E)) list [], by simp [hE]⟩
  | strings get => exact absurd hkind (by simp only [Field.typeString]; decide)
  | users get => exact absurd hkind (by simp only [Field.typeString]; decide)
  | tickets get => exact absurd hkind (by simp only [Field.typeString]; decide)
  | organization get => exact absurd hkind (by simp only [Field.typeString]; decide)
  | user get => exact absurd hkind (by simp only [Field.typeString]; decide)

theorem searchLoop_string_exact (F s : String) (get : α → String) (list : List α)
    (hF : fields.lookup F = some (.string get)) :
    searchLoop entity fields F s list []
      = some (list.filter (fun e => decide (get e = s)), none) := by
  simpa using searchLoop_string entity fields F s get hF list []

theorem searchLoop_finds_element (F V : String) (get : α → List String) (list : List α)
    (E : α) (hF : fields.lookup F = some (.strings get)) (hE : E ∈ list)
    (hV : V ∈ get E) (hsp : ' ' ∉ V.data) :
    ∃ results, searchLoop entity fields F V list [] = some (results, none) ∧ E ∈ results := by
  refine ⟨_, searchLoop_strings entity fields F V get hF list [], ?_⟩
  simp only [List.nil_append, List.mem_flatMap]
  refine ⟨E, hE, ?_⟩
  have hpos : 0 < (tokens (get E)).count V :=
    List.count_pos_iff.mpr (mem_tokens_of_mem (get E) V hV hsp)
  rw [List.mem_replicate]
  exact ⟨by omega, rfl⟩

theorem searchLoop_space_none (F s : String) (get : α → List String) (list : List α)
    (hF : fields.lookup F = some (.strings get)) (hsp : ' ' ∈ s.data) :
    searchLoop entity fields F s list [] = some ([], none) := by
  rw [searchLoop_strings entity fields F s get hF list []]
  have h0 : ∀ e : α, (tokens (get e)).count s = 0 := fun e =>
    List.count_eq_zero.mpr (not_mem_tokens_of_space (get e) s hsp)
  simp [h0]

theorem searchLoop_bool_exact (F s : String) (get : α → Bool) (list : List α) (b : Bool)
    (hF : fields.lookup F = some (.bool get))
    (hb : strings_ToLower s = (if b then "true" else "false")) :
    searchLoop entity fields F s list []
      = some (list.filter (fun e => decide (get e = b)), none) := by
  simpa using searchLoop_bool entity fields F s get hF b hb list []

theorem searchLoop_int_exact (F s : String) (get : α → GoInt) (list : List α) (n : Int)
    (hF : fields.lookup F = some (.int get)) (hn : strconv_Atoi s = .ok n) :
    searchLoop entity fields F s list []
      = some (list.filter (fun e => decide ((get e).val = n)), none) := by
  simpa using searchLoop_int entity fields F s get hF n hn list []

end Generic

section GenericErrors

variable {α : Type} (entity : String) (fields : List (String × Field α))

theorem searchLoop_bool_rejects (F s : String) (get : α → Bool) (list : List α)
    (hF : fields.lookup F = some (.bool get)) (hne : list ≠ [])
    (ht : strings_ToLower s ≠ "true") (hf : strings_ToLower s ≠ "false") :
    searchLoop entity fields F s list [] = some ([], some (.invalidBool entity F "bool" s)) := by
  obtain ⟨e, rest, rfl⟩ := List.exists_cons_of_ne_nil hne
  exact searchLoop_bool_invalid entity fields F s get hF ht hf e rest []

theorem searchLoop_int_rejects (F s : String) (get : α → GoInt) (list : List α)
    (err : SearchError) (hF : fields.lookup F = some (.int get)) (hne : list ≠ [])
    (hs : strconv_Atoi s = .error err) :
    searchLoop entity fields F s list [] = some ([], some err) := by
  obtain ⟨e, rest, rfl⟩ := List.exists_cons_of_ne_nil hne
  exact searchLoop_int_invalid entity fields F s get hF err hs e rest []

theorem searchLoop_unknown_field (F s : String) (list : List α)
    (hF : fields.lookup F = none) (hne : list ≠ []) :
    searchLoop entity fields F s list [] = some ([], some (.noSuchField F)) := by
  obtain ⟨e, rest, rfl⟩ := List.exists_cons_of_ne_nil hne
  exact searchLoop_noField entity fields F s hF e rest []

theorem searchLoop_empty_value (F : String) (list : List α) :
    (∀ get : α → String, fields.lookup F = some (.string get) →
      ∃ results, searchLoop entity fields F "" list [] = some (results, none))
    ∧ (∀ get : α → List String, fields.lookup F = some (.strings get) →
      ∃ results, searchLoop entity fields F "" list [] = some (results, none))
    ∧ (∀ get : α → Bool, fields.lookup F = some (.bool get) → list ≠ [] →
      searchLoop entity fields F "" list [] = some ([], some (.invalidBool entity F "bool" "")))
    ∧ (∀ get : α → GoInt, fields.lookup F = some (.int get) → list ≠ [] →
      searchLoop entity fields F "" list []
        = some ([], some (.numError "Atoi" "" .ErrSyntax))) := by
  refine ⟨fun get hF => ⟨_, searchLoop_string entity fields F "" get hF list []⟩,
    fun get hF => ⟨_, searchLoop_strings entity fields F "" get hF list []⟩,
    fun get hF hne => searchLoop_bool_rejects entity fields F "" get list hF hne
      (by decide) (by decide),
    fun get hF hne => searchLoop_int_rejects entity fields F "" get list _ hF hne rfl⟩

end GenericErrors

/-- C1: for every collection, every entity `E` in it and every field `F` of kind
string, int or bool holding the value `V`, the search on `F` with the textual form
of `V` (what `%v` prints: the string itself, the decimal rendering of the int,
`true` or `false` for the bool) succeeds and its result contains `E`; for
`SearchOrgs`, `SearchUsers` and `SearchTickets`. -/
theorem C1_search_finds_own_value :
    (∀ (F : String) (field : Field Organization) (OrgList : List Organization)
        (E : Organization) (text : String),
      Organization.fields.lookup F = some field →
      (field.typeString = "string" ∨ field.typeString = "int" ∨ field.typeString = "bool") →
      fmt_Sprintf_v (field.value E) = some text → E ∈ OrgList →
      ∃ results, SearchOrgs F text OrgList = some (results, none) ∧ E ∈ results)
    ∧ (∀ (F : String) (field : Field User) (UserList : List User) (E : User) (text : String),
      User.fields.lookup F = some field →
      (field.typeString = "string" ∨ field.typeString = "int" ∨ field.typeString = "bool") →
      fmt_Sprintf_v (field.value E) = some text → E ∈ UserList →
      ∃ results, SearchUsers F text UserList = some (results, none) ∧ E ∈ results)
    ∧ (∀ (F : String) (field : Field Ticket) (TicketList : List Ticket) (E : Ticket)
        (text : String),
      Ticket.fields.lookup F = some field →
      (field.typeString = "string" ∨ field.typeString = "int" ∨ field.typeString = "bool") →
      fmt_Sprintf_v (field.value E) = some text → E ∈ TicketList →
      ∃ results, SearchTickets F text TicketList = some (results, none) ∧ E ∈ results) :=
  ⟨fun F field list E text hF hk ht hE =>
      searchLoop_finds_scalar "Organization" Organization.fields F field list E text hF hk ht hE,
    fun F field list E text hF hk ht hE =>
      searchLoop_finds_scalar "User" User.fields F field list E text hF hk ht hE,
    fun F field list E text hF hk ht hE =>
      searchLoop_finds_scalar "Ticket" Ticket.fields F field list E text hF hk ht hE⟩

/-- C1 at the test data: organization 103 is found by `ID` with the value `103`. -/
theorem C1_search_finds_own_value_witness :
    Organization.fields.lookup "ID" = some (.int Organization.ID)
    ∧ fmt_Sprintf_v ((Field.int Organization.ID).value sampleOrg) = some "103"
    ∧ sampleOrg ∈ [tabOrg, sampleOrg]
    ∧ ∃ results, SearchOrgs "ID" "103" [tabOrg, sampleOrg] = some (results, none)
        ∧ sampleOrg ∈ results :=
  ⟨rfl, rfl, by simp,
    C1_search_finds_own_value.1 "ID" (.int Organization.ID) [tabOrg, sampleOrg] sampleOrg "103"
      rfl (Or.inr (Or.inl rfl)) rfl (by simp)⟩

/-- C2: for every collection and every search value `s`, a search on a string
field succeeds and returns exactly the entities whose field value equals `s`
character for character, in source order (the filtered collection);
`Organization.Name`, `User.Email` and `Ticket.ID` are string fields. -/
theorem C2_string_search_exact :
    (∀ (F s : String) (get : Organization → String) (OrgList : List Organization),
      Organization.fields.lookup F = some (.string get) →
      SearchOrgs F s OrgList = some (OrgList.filter (fun e => decide (get e = s)), none))
    ∧ (∀ (F s : String) (get : User → String) (UserList : List User),
      User.fields.lookup F = some (.string get) →
      SearchUsers F s UserList = some (UserList.filter (fun e => decide (get e = s)), none))
    ∧ (∀ (F s : String) (get : Ticket → String) (TicketList : List Ticket),
      Ticket.fields.lookup F = some (.string get) →
      SearchTickets F s TicketList
        = some (TicketList.filter (fun e => decide (get e = s)), none))
    ∧ (Organization.fields.lookup "Name" = some (.string Organization.Name)
      ∧ User.fields.lookup "Email" = some (.string User.Email)
      ∧ Ticket.fields.lookup "ID" = some (.string Ticket.ID)) :=
  ⟨fun F s get list hF => searchLoop_string_exact "Organization" Organization.fields F s get list hF,
    fun F s get list hF => searchLoop_string_exact "User" User.fields F s get list hF,
    fun F s get list hF => searchLoop_string_exact "Ticket" Ticket.fields F s get list hF,
    rfl, rfl, rfl⟩

/-- C2 at the test data: the ticket of `TestSearchTickets` is found by its `ID`,
and a value of another letter case or with a trailing blank finds nothing. -/
theorem C2_string_search_exact_witness :
    Ticket.fields.lookup "ID" = some (.string Ticket.ID)
    ∧ SearchTickets "ID" "1a227508-9f39-427c-8f57-1b72f3fab87c" [sampleTicket]
        = some ([sampleTicket], none)
    ∧ SearchTickets "ID" "1A227508-9F39-427C-8F57-1B72F3FAB87C" [sampleTicket]
        = some ([], none)
    ∧ SearchTickets "ID" "1a227508-9f39-427c-8f57-1b72f3fab87c " [sampleTicket]
        = some ([], none) :=
  ⟨rfl,
    C2_string_search_exact.2.2.1 "ID" "1a227508-9f39-427c-8f57-1b72f3fab87c" Ticket.ID
      [sampleTicket] rfl,
    C2_string_search_exact.2.2.1 "ID" "1A227508-9F39-427C-8F57-1B72F3FAB87C" Ticket.ID
      [sampleTicket] rfl,
    C2_string_search_exact.2.2.1 "ID" "1a227508-9f39-427c-8f57-1b72f3fab87c " Ticket.ID
      [sampleTicket] rfl⟩

/-- C3: for every collection, every entity `E` in it and every `[]string` field
`F` of `E` that contains an element `V` without whitespace (that `V` holds no
space is all that is used), the search on `F` with the value `V` succeeds and its
result contains `E`; `Tags` and `DomainNames` are the `[]string` fields. -/
theorem C3_list_search_finds_element :
    (∀ (F V : String) (get : Organization → List String) (OrgList : List Organization)
        (E : Organization),
      Organization.fields.lookup F = some (.strings get) → E ∈ OrgList → V ∈ get E →
      ' ' ∉ V.data →
      ∃ results, SearchOrgs F V OrgList = some (results, none) ∧ E ∈ results)
    ∧ (∀ (F V : String) (get : User → List String) (UserList : List User) (E : User),
      User.fields.lookup F = some (.strings get) → E ∈ UserList → V ∈ get E →
      ' ' ∉ V.data →
      ∃ results, SearchUsers F V UserList = some (results, none) ∧ E ∈ results)
    ∧ (∀ (F V : String) (get : Ticket → List String) (TicketList : List Ticket) (E : Ticket),
      Ticket.fields.lookup F = some (.strings get) → E ∈ TicketList → V ∈ get E →
      ' ' ∉ V.data →
      ∃ results, SearchTickets F V TicketList = some (results, none) ∧ E ∈ results)
    ∧ (Organization.fields.lookup "Tags" = some (.strings Organization.Tags)
      ∧ Organization.fields.lookup "DomainNames" = some (.strings Organization.DomainNames)
      ∧ User.fields.lookup "Tags" = some (.strings User.Tags)
      ∧ Ticket.fields.lookup "Tags" = some (.strings Ticket.Tags)) :=
  ⟨fun F V get list E hF hE hV hsp =>
      searchLoop_finds_element "Organization" Organization.fields F V get list E hF hE hV hsp,
    fun F V get list E hF hE hV hsp =>
      searchLoop_finds_element "User" User.fields F V get list E hF hE hV hsp,
    fun F V get list E hF hE hV hsp =>
      searchLoop_finds_element "Ticket" Ticket.fields F V get list E hF hE hV hsp,
    rfl, rfl, rfl, rfl⟩

/-- C3 at the test data: organization 103 is found by its domain name `automon.com`. -/
theorem C3_list_search_finds_element_witness :
    Organization.fields.lookup "DomainNames" = some (.strings Organization.DomainNames)
    ∧ sampleOrg ∈ [tabOrg, sampleOrg]
    ∧ "automon.com" ∈ sampleOrg.DomainNames
    ∧ ' ' ∉ "automon.com".data
    ∧ ∃ results, SearchOrgs "DomainNames" "automon.com" [tabOrg, sampleOrg]
        = some (results, none) ∧ sampleOrg ∈ results :=
  ⟨rfl, by simp, by decide, by decide,
    C3_list_search_finds_element.1 "DomainNames" "automon.com" Organization.DomainNames
      [tabOrg, sampleOrg] sampleOrg rfl (by simp) (by decide) (by decide)⟩

/-- C4, the claim fails for a tab: the tag `a<TAB>b` holds a whitespace character
and the search on `Tags` for exactly that value returns the organization. -/
theorem C4_tab_value_matches :
    '\t' ∈ "a\tb".data
    ∧ Organization.fields.lookup "Tags" = some (.strings Organization.Tags)
    ∧ "a\tb" ∈ tabOrg.Tags
    ∧ SearchOrgs "Tags" "a\tb" [tabOrg] = some ([tabOrg], none) :=
  ⟨by decide, rfl, by decide, rfl⟩

/-- C4 as amended: for every collection and every search value that contains at
least one space character, a search on a `[]string` field succeeds and returns
no entity, also when an entity holds that very value as an element. -/
theorem C4_space_value_matches_nothing :
    (∀ (F s : String) (get : Organization → List String) (OrgList : List Organization),
      Organization.fields.lookup F = some (.strings get) → ' ' ∈ s.data →
      SearchOrgs F s OrgList = some ([], none))
    ∧ (∀ (F s : String) (get : User → List String) (UserList : List User),
      User.fields.lookup F = some (.strings get) → ' ' ∈ s.data →
      SearchUsers F s UserList = some ([], none))
    ∧ (∀ (F s : String) (get : Ticket → List String) (TicketList : List Ticket),
      Ticket.fields.lookup F = some (.strings get) → ' ' ∈ s.data →
      SearchTickets F s TicketList = some ([], none)) :=
  ⟨fun F s get list hF hsp =>
      searchLoop_space_none "Organization" Organization.fields F s get list hF hsp,
    fun F s get list hF hsp => searchLoop_space_none "User" User.fields F s get list hF hsp,
    fun F s get list hF hsp => searchLoop_space_none "Ticket" Ticket.fields F s get list hF hsp⟩

/-- C4 as amended, at the test data: the ticket tagged `Puerto Rico` is not
found by searching `Tags` for `Puerto Rico`. -/
theorem C4_space_value_matches_nothing_witness :
    Ticket.fields.lookup "Tags" = some (.strings Ticket.Tags)
    ∧ ' ' ∈ "Puerto Rico".data
    ∧ "Puerto Rico" ∈ sampleTicket.Tags
    ∧ SearchTickets "Tags" "Puerto Rico" [sampleTicket] = some ([], none) :=
  ⟨rfl, by decide, by decide,
    C4_space_value_matches_nothing.2.2 "Tags" "Puerto Rico" Ticket.Tags [sampleTicket] rfl
      (by decide)⟩

/-- C5: for every collection and every search value `s` whose lower-casing is
`true` or `false`, a search on a bool field succeeds and returns exactly the
entities whose field equals the parsed boolean `b`, in source order; `TRUE`,
`False` and `tRuE` are such values, `Shared_tickets`, `Active` and
`Has_incidents` such fields. -/
theorem C5_bool_search_exact :
    (∀ (F s : String) (get : Organization → Bool) (OrgList : List Organization) (b : Bool),
      Organization.fields.lookup F = some (.bool get) →
      strings_ToLower s = (if b then "true" else "false") →
      SearchOrgs F s OrgList = some (OrgList.filter (fun e => decide (get e = b)), none))
    ∧ (∀ (F s : String) (get : User → Bool) (UserList : List User) (b : Bool),
      User.fields.lookup F = some (.bool get) →
      strings_ToLower s = (if b then "true" else "false") →
      SearchUsers F s UserList = some (UserList.filter (fun e => decide (get e = b)), none))
    ∧ (∀ (F s : String) (get : Ticket → Bool) (TicketList : List Ticket) (b : Bool),
      Ticket.fields.lookup F = some (.bool get) →
      strings_ToLower s = (if b then "true" else "false") →
      SearchTickets F s TicketList
        = some (TicketList.filter (fun e => decide (get e = b)), none))
    ∧ (strings_ToLower "TRUE" = "true" ∧ strings_ToLower "False" = "false"
      ∧ strings_ToLower "tRuE" = "true")
    ∧ (Organization.fields.lookup "Shared_tickets" = some (.bool Organization.Shared_tickets)
      ∧ User.fields.lookup "Active" = some (.bool User.Active)
      ∧ Ticket.fields.lookup "Has_incidents" = some (.bool Ticket.Has_incidents)) :=
  ⟨fun F s get list b hF hb =>
      searchLoop_bool_exact "Organization" Organization.fields F s get list b hF hb,
    fun F s get list b hF hb => searchLoop_bool_exact "User" User.fields F s get list b hF hb,
    fun F s get list b hF hb => searchLoop_bool_exact "Ticket" Ticket.fields F s get list b hF hb,
    ⟨by decide, by decide, by decide⟩, rfl, rfl, rfl⟩

/-- C5 at the sample data: `TRUE` on `Shared_tickets` returns the one
organization that shares tickets, `False` the other one. -/
theorem C5_bool_search_exact_witness :
    Organization.fields.lookup "Shared_tickets" = some (.bool Organization.Shared_tickets)
    ∧ strings_ToLower "TRUE" = "true"
    ∧ SearchOrgs "Shared_tickets" "TRUE" [sampleOrg, tabOrg] = some ([tabOrg], none)
    ∧ SearchOrgs "Shared_tickets" "False" [sampleOrg, tabOrg] = some ([sampleOrg], none) :=
  ⟨rfl, by decide,
    C5_bool_search_exact.1 "Shared_tickets" "TRUE" Organization.Shared_tickets
      [sampleOrg, tabOrg] true rfl (by decide),
    C5_bool_search_exact.1 "Shared_tickets" "False" Organization.Shared_tickets
      [sampleOrg, tabOrg] false rfl (by decide)⟩

/-- C6: for every non-empty collection and every search value whose lower-casing
is neither `true` nor `false`, a search on a bool field fails with the
invalid-boolean error (and an empty result list); `notabool`, `1`, `yes` and
` true` are such values. -/
theorem C6_bool_search_rejects :
    (∀ (F s : String) (get : Organization → Bool) (OrgList : List Organization),
      Organization.fields.lookup F = some (.bool get) → OrgList ≠ [] →
      strings_ToLower s ≠ "true" → strings_ToLower s ≠ "false" →
      SearchOrgs F s OrgList = some ([], some (.invalidBool "Organization" F "bool" s)))
    ∧ (∀ (F s : String) (get : User → Bool) (UserList : List User),
      User.fields.lookup F = some (.bool get) → UserList ≠ [] →
      strings_ToLower s ≠ "true" → strings_ToLower s ≠ "false" →
      SearchUsers F s UserList = some ([], some (.invalidBool "User" F "bool" s)))
    ∧ (∀ (F s : String) (get : Ticket → Bool) (TicketList : List Ticket),
      Ticket.fields.lookup F = some (.bool get) → TicketList ≠ [] →
      strings_ToLower s ≠ "true" → strings_ToLower s ≠ "false" →
      SearchTickets F s TicketList = some ([], some (.invalidBool "Ticket" F "bool" s)))
    ∧ (∀ s ∈ ["notabool", "1", "yes", " true"],
      strings_ToLower s ≠ "true" ∧ strings_ToLower s ≠ "false") :=
  ⟨fun F s get list hF hne ht hf =>
      searchLoop_bool_rejects "Organization" Organization.fields F s get list hF hne ht hf,
    fun F s get list hF hne ht hf =>
      searchLoop_bool_rejects "User" User.fields F s get list hF hne ht hf,
    fun F s get list hF hne ht hf =>
      searchLoop_bool_rejects "Ticket" Ticket.fields F s get list hF hne ht hf,
    by decide⟩

/-- C6 at the test data: `notabool` on `Active` over one user fails. -/
theorem C6_bool_search_rejects_witness :
    User.fields.lookup "Active" = some (.bool User.Active)
    ∧ [sampleUser] ≠ []
    ∧ strings_ToLower "notabool" ≠ "true" ∧ strings_ToLower "notabool" ≠ "false"
    ∧ SearchUsers "Active" "notabool" [sampleUser]
        = some ([], some (.invalidBool "User" "Active" "bool" "notabool")) :=
  ⟨rfl, by simp, by decide, by decide,
    C6_bool_search_rejects.2.1 "Active" "notabool" User.Active [sampleUser] rfl (by simp)
      (by decide) (by decide)⟩

/-- C7: for every collection and every search value `s` that `strconv.Atoi`
parses as the integer `n`, a search on an int field succeeds and returns exactly
the entities whose field equals `n`, in source order; every returned entity has
that field equal to `n`; the int fields are `Organization.ID`, `User.ID`,
`User.Org`, `Ticket.Org`, `Ticket.Submitter` and `Ticket.Assignee`. -/
theorem C7_int_search_exact :
    (∀ (F s : String) (n : Int) (get : Organization → GoInt) (OrgList : List Organization),
      Organization.fields.lookup F = some (.int get) → strconv_Atoi s = .ok n →
      SearchOrgs F s OrgList = some (OrgList.filter (fun e => decide ((get e).val = n)), none)
      ∧ ∀ e ∈ OrgList.filter (fun e => decide ((get e).val = n)), (get e).val = n)
    ∧ (∀ (F s : String) (n : Int) (get : User → GoInt) (UserList : List User),
      User.fields.lookup F = some (.int get) → strconv_Atoi s = .ok n →
      SearchUsers F s UserList = some (UserList.filter (fun e => decide ((get e).val = n)), none)
      ∧ ∀ e ∈ UserList.filter (fun e => decide ((get e).val = n)), (get e).val = n)
    ∧ (∀ (F s : String) (n : Int) (get : Ticket → GoInt) (TicketList : List Ticket),
      Ticket.fields.lookup F = some (.int get) → strconv_Atoi s = .ok n →
      SearchTickets F s TicketList
        = some (TicketList.filter (fun e => decide ((get e).val = n)), none)
      ∧ ∀ e ∈ TicketList.filter (fun e => decide ((get e).val = n)), (get e).val = n)
    ∧ (Organization.fields.lookup "ID" = some (.int Organization.ID)
      ∧ User.fields.lookup "ID" = some (.int User.ID)
      ∧ User.fields.lookup "Org" = some (.int User.Org)
      ∧ Ticket.fields.lookup "Org" = some (.int Ticket.Org)
      ∧ Ticket.fields.lookup "Submitter" = some (.int Ticket.Submitter)
      ∧ Ticket.fields.lookup "Assignee" = some (.int Ticket.Assignee)) :=
  ⟨fun F s n get list hF hn =>
      ⟨searchLoop_int_exact "Organization" Organization.fields F s get list n hF hn,
        fun e he => by simpa using (List.mem_filter.mp he).2⟩,
    fun F s n get list hF hn =>
      ⟨searchLoop_int_exact "User" User.fields F s get list n hF hn,
        fun e he => by simpa using (List.mem_filter.mp he).2⟩,
    fun F s n get list hF hn =>
      ⟨searchLoop_int_exact "Ticket" Ticket.fields F s get list n hF hn,
        fun e he => by simpa using (List.mem_filter.mp he).2⟩,
    rfl, rfl, rfl, rfl, rfl, rfl⟩

/-- C7 at the test data: `SearchUsers` on `ID` with `49` returns user 49, and on
`Org` with `+0118` as well. -/
theorem C7_int_search_exact_witness :
    User.fields.lookup "ID" = some (.int User.ID)
    ∧ strconv_Atoi "49" = .ok 49
    ∧ SearchUsers "ID" "49" [sampleUser] = some ([sampleUser], none)
    ∧ strconv_Atoi "+0118" = .ok 118
    ∧ SearchUsers "Org" "+0118" [sampleUser] = some ([sampleUser], none) :=
  ⟨rfl, rfl, (C7_int_search_exact.2.1 "ID" "49" 49 User.ID [sampleUser] rfl rfl).1, rfl,
    (C7_int_search_exact.2.1 "Org" "+0118" 118 User.Org [sampleUser] rfl rfl).1⟩

/-- C8: for every non-empty collection and every search value that
`strconv.Atoi` rejects with the error `err`, a search on an int field fails with
`err`; the decimal rendering of a stored `int` always parses, back to the stored
value; `abc`, `12x`, `1.5` and `9223372036854775808` are rejected. -/
theorem C8_int_search_rejects :
    (∀ (F s : String) (err : SearchError) (get : Organization → GoInt)
        (OrgList : List Organization),
      Organization.fields.lookup F = some (.int get) → OrgList ≠ [] →
      strconv_Atoi s = .error err → SearchOrgs F s OrgList = some ([], some err))
    ∧ (∀ (F s : String) (err : SearchError) (get : User → GoInt) (UserList : List User),
      User.fields.lookup F = some (.int get) → UserList ≠ [] →
      strconv_Atoi s = .error err → SearchUsers F s UserList = some ([], some err))
    ∧ (∀ (F s : String) (err : SearchError) (get : Ticket → GoInt) (TicketList : List Ticket),
      Ticket.fields.lookup F = some (.int get) → TicketList ≠ [] →
      strconv_Atoi s = .error err → SearchTickets F s TicketList = some ([], some err))
    ∧ (∀ (stored : GoInt) (valStr : String), fmt_Sprintf_v (.int stored) = some valStr →
      strconv_Atoi valStr = .ok stored.val)
    ∧ (strconv_Atoi "abc" = .error (.numError "Atoi" "abc" .ErrSyntax)
      ∧ strconv_Atoi "12x" = .error (.numError "Atoi" "12x" .ErrSyntax)
      ∧ strconv_Atoi "1.5" = .error (.numError "Atoi" "1.5" .ErrSyntax)
      ∧ strconv_Atoi "9223372036854775808"
          = .error (.numError "Atoi" "9223372036854775808" .ErrRange)) :=
  ⟨fun F s err get list hF hne hs =>
      searchLoop_int_rejects "Organization" Organization.fields F s get list err hF hne hs,
    fun F s err get list hF hne hs =>
      searchLoop_int_rejects "User" User.fields F s get list err hF hne hs,
    fun F s err get list hF hne hs =>
      searchLoop_int_rejects "Ticket" Ticket.fields F s get list err hF hne hs,
    fun stored valStr h => by
      simp only [fmt_Sprintf_v, Option.some.injEq] at h
      subst h
      exact strconv_Atoi_formatInt stored,
    rfl, rfl, rfl, rfl⟩

/-- C8 at the test data: `12x` on `Submitter` over one ticket fails with the
syntax error of `Atoi`. -/
theorem C8_int_search_rejects_witness :
    Ticket.fields.lookup "Submitter" = some (.int Ticket.Submitter)
    ∧ [sampleTicket] ≠ []
    ∧ strconv_Atoi "12x" = .error (.numError "Atoi" "12x" .ErrSyntax)
    ∧ SearchTickets "Submitter" "12x" [sampleTicket]
        = some ([], some (.numError "Atoi" "12x" .ErrSyntax)) :=
  ⟨rfl, by simp, rfl,
    C8_int_search_rejects.2.2.1 "Submitter" "12x" _ Ticket.Submitter [sampleTicket] rfl
      (by simp) rfl⟩

/-- C9, the claim fails on the empty collection: `Bogus` names no field of an
organization, and the search over no organization returns the empty result and
no error. -/
theorem C9_unknown_field_empty_collection :
    Organization.fields.lookup "Bogus" = none
    ∧ SearchOrgs "Bogus" "anything" [] = some ([], none)
    ∧ ¬ ∃ results err, SearchOrgs "Bogus" "anything" [] = some (results, some err) :=
  ⟨rfl, rfl, by
    rintro ⟨results, err, h⟩
    have h2 : SearchOrgs "Bogus" "anything" [] = some ([], none) := rfl
    rw [h2] at h
    simp at h⟩

/-- C9 as amended: for each of the three entity kinds, every non-empty
collection and every search value, a search on a field name that names no field
of the entity fails with the field-not-found error; `Bogus` is such a name for
each kind. -/
theorem C9_unknown_field_rejected :
    (∀ (F s : String) (OrgList : List Organization),
      Organization.fields.lookup F = none → OrgList ≠ [] →
      SearchOrgs F s OrgList = some ([], some (.noSuchField F)))
    ∧ (∀ (F s : String) (UserList : List User),
      User.fields.lookup F = none → UserList ≠ [] →
      SearchUsers F s UserList = some ([], some (.noSuchField F)))
    ∧ (∀ (F s : String) (TicketList : List Ticket),
      Ticket.fields.lookup F = none → TicketList ≠ [] →
      SearchTickets F s TicketList = some ([], some (.noSuchField F)))
    ∧ (Organization.fields.lookup "Bogus" = none ∧ User.fields.lookup "Bogus" = none
      ∧ Ticket.fields.lookup "Bogus" = none) :=
  ⟨fun F s list hF hne =>
      searchLoop_unknown_field "Organization" Organization.fields F s list hF hne,
    fun F s list hF hne => searchLoop_unknown_field "User" User.fields F s list hF hne,
    fun F s list hF hne => searchLoop_unknown_field "Ticket" Ticket.fields F s list hF hne,
    rfl, rfl, rfl⟩

/-- C9 as amended, at the test data: `Bogus` over one organization. -/
theorem C9_unknown_field_rejected_witness :
    Organization.fields.lookup "Bogus" = none
    ∧ [sampleOrg] ≠ []
    ∧ SearchOrgs "Bogus" "anything" [sampleOrg] = some ([], some (.noSuchField "Bogus")) :=
  ⟨rfl, by simp,
    C9_unknown_field_rejected.1 "Bogus" "anything" [sampleOrg] rfl (by simp)⟩

/-- C10, the claim fails for bool and int fields: the empty search value on the
bool field `Shared_tickets` and on the int field `ID` of one organization returns
an error. -/
theorem C10_empty_value_rejected :
    (Organization.fields.lookup "Shared_tickets" = some (.bool Organization.Shared_tickets)
      ∧ SearchOrgs "Shared_tickets" "" [sampleOrg]
          = some ([], some (.invalidBool "Organization" "Shared_tickets" "bool" "")))
    ∧ (Organization.fields.lookup "ID" = some (.int Organization.ID)
      ∧ SearchOrgs "ID" "" [sampleOrg] = some ([], some (.numError "Atoi" "" .ErrSyntax)))
    ∧ ¬ (∃ results, SearchOrgs "Shared_tickets" "" [sampleOrg] = some (results, none))
    ∧ ¬ (∃ results, SearchOrgs "ID" "" [sampleOrg] = some (results, none)) :=
  ⟨⟨rfl, rfl⟩, ⟨rfl, rfl⟩, by
    rintro ⟨results, h⟩
    have h2 : SearchOrgs "Shared_tickets" "" [sampleOrg]
        = some ([], some (.invalidBool "Organization" "Shared_tickets" "bool" "")) := rfl
    rw [h2] at h
    simp at h, by
    rintro ⟨results, h⟩
    have h2 : SearchOrgs "ID" "" [sampleOrg]
        = some ([], some (.numError "Atoi" "" .ErrSyntax)) := rfl
    rw [h2] at h
    simp at h⟩

/-- C10 as amended: for every collection the search with the empty search value
returns a result and no error on every string and every `[]string` field; on a
bool field and on an int field of a non-empty collection it fails, with the
invalid-boolean error and with the syntax error of `Atoi`. -/
theorem C10_empty_value_by_kind :
    (∀ (F : String) (OrgList : List Organization),
      (∀ get : Organization → String, Organization.fields.lookup F = some (.string get) →
        ∃ results, SearchOrgs F "" OrgList = some (results, none))
      ∧ (∀ get : Organization → List String,
        Organization.fields.lookup F = some (.strings get) →
        ∃ results, SearchOrgs F "" OrgList = some (results, none))
      ∧ (∀ get : Organization → Bool, Organization.fields.lookup F = some (.bool get) →
        OrgList ≠ [] →
        SearchOrgs F "" OrgList = some ([], some (.invalidBool "Organization" F "bool" "")))
      ∧ (∀ get : Organization → GoInt, Organization.fields.lookup F = some (.int get) →
        OrgList ≠ [] →
        SearchOrgs F "" OrgList = some ([], some (.numError "Atoi" "" .ErrSyntax))))
    ∧ (∀ (F : String) (UserList : List User),
      (∀ get : User → String, User.fields.lookup F = some (.string get) →
        ∃ results, SearchUsers F "" UserList = some (results, none))
      ∧ (∀ get : User → List String, User.fields.lookup F = some (.strings get) →
        ∃ results, SearchUsers F "" UserList = some (results, none))
      ∧ (∀ get : User → Bool, User.fields.lookup F = some (.bool get) → UserList ≠ [] →
        SearchUsers F "" UserList = some ([], some (.invalidBool "User" F "bool" "")))
      ∧ (∀ get : User → GoInt, User.fields.lookup F = some (.int get) → UserList ≠ [] →
        SearchUsers F "" UserList = some ([], some (.numError "Atoi" "" .ErrSyntax))))
    ∧ (∀ (F : String) (TicketList : List Ticket),
      (∀ get : Ticket → String, Ticket.fields.lookup F = some (.string get) →
        ∃ results, SearchTickets F "" TicketList = some (results, none))
      ∧ (∀ get : Ticket → List String, Ticket.fields.lookup F = some (.strings get) →
        ∃ results, SearchTickets F "" TicketList = some (results, none))
      ∧ (∀ get : Ticket → Bool, Ticket.fields.lookup F = some (.bool get) →
        TicketList ≠ [] →
        SearchTickets F "" TicketList = some ([], some (.invalidBool "Ticket" F "bool" "")))
      ∧ (∀ get : Ticket → GoInt, Ticket.fields.lookup F = some (.int get) →
        TicketList ≠ [] →
        SearchTickets F "" TicketList = some ([], some (.numError "Atoi" "" .ErrSyntax)))) :=
  ⟨fun F list => searchLoop_empty_value "Organization" Organization.fields F list,
    fun F list => searchLoop_empty_value "User" User.fields F list,
    fun F list => searchLoop_empty_value "Ticket" Ticket.fields F list⟩

/-- C10 as amended, at the test data: the empty value on `Details` and on `Tags`
of one organization returns no error, on `Verified` of one user it fails. -/
theorem C10_empty_value_by_kind_witness :
    Organization.fields.lookup "Details" = some (.string Organization.Details)
    ∧ (∃ results, SearchOrgs "Details" "" [sampleOrg] = some (results, none))
    ∧ Organization.fields.lookup "Tags" = some (.strings Organization.Tags)
    ∧ (∃ results, SearchOrgs "Tags" "" [sampleOrg] = some (results, none))
    ∧ User.fields.lookup "Verified" = some (.bool User.Verified)
    ∧ [sampleUser] ≠ []
    ∧ SearchUsers "Verified" "" [sampleUser]
        = some ([], some (.invalidBool "User" "Verified" "bool" "")) :=
  ⟨rfl, (C10_empty_value_by_kind.1 "Details" [sampleOrg]).1 Organization.Details rfl,
    rfl, (C10_empty_value_by_kind.1 "Tags" [sampleOrg]).2.1 Organization.Tags rfl,
    rfl, by simp,
    (C10_empty_value_by_kind.2.1 "Verified" [sampleUser]).2.2.1 User.Verified rfl (by simp)⟩

/-! ## Maps -/

section Maps

variable {V : Type}

theorem mapGet_mapSet (m : GoMap V) (k : GoInt) (v : V) (k2 : GoInt) :
    mapGet (mapSet m k v) k2 = if k = k2 then some v else mapGet m k2 := by
  induction m with
  | nil => simp [mapSet, mapGet]
  | cons kv rest ih =>
    obtain ⟨k1, v1⟩ := kv
    by_cases h1 : k1 = k
    · subst h1
      by_cases h2 : k1 = k2 <;> simp [mapSet, mapGet, h2]
    · by_cases h2 : k1 = k2
      · subst h2
        simp [mapSet, mapGet, h1, Ne.symm h1]
      · simp [mapSet, mapGet, h1, h2, ih]

theorem mem_keys_iff (m : GoMap V) (k : GoInt) :
    k ∈ m.map Prod.fst ↔ (mapGet m k).isSome = true := by
  induction m with
  | nil => simp [mapGet]
  | cons kv rest ih =>
    obtain ⟨k1, v1⟩ := kv
    by_cases h1 : k1 = k
    · simp [mapGet, h1]
    · simp only [List.map_cons, List.mem_cons, mapGet, h1, if_false]
      rw [← ih]
      constructor
      · rintro (h | h)
        · exact absurd h.symm h1
        · exact h
      · exact fun h => Or.inr h

theorem keys_mapSet (m : GoMap V) (k : GoInt) (v : V) :
    (mapSet m k v).map Prod.fst
      = if (mapGet m k).isSome = true then m.map Prod.fst else m.map Prod.fst ++ [k] := by
  induction m with
  | nil => simp [mapSet, mapGet]
  | cons kv rest ih =>
    obtain ⟨k1, v1⟩ := kv
    by_cases h1 : k1 = k
    · simp [mapSet, mapGet, h1]
    · simp only [mapSet, mapGet, h1, if_false, List.map_cons, ih]
      split_ifs <;> simp

theorem keys_nodup_mapSet (m : GoMap V) (k : GoInt) (v : V)
    (h : (m.map Prod.fst).Nodup) : ((mapSet m k v).map Prod.fst).Nodup := by
  rw [keys_mapSet]
  split_ifs with hk
  · exact h
  · rw [List.nodup_append]
    refine ⟨h, List.nodup_singleton k, ?_⟩
    intro a ha hb
    rw [List.mem_singleton] at hb
    subst hb
    exact hk ((mem_keys_iff m a).mp ha)

theorem mapLen_eq_card (m : GoMap V) (keys : List GoInt)
    (hnodup : (m.map Prod.fst).Nodup)
    (hmem : ∀ k, (mapGet m k).isSome = true ↔ k ∈ keys) :
    mapLen m = keys.toFinset.card := by
  have h1 : mapLen m = (m.map Prod.fst).length := by simp [mapLen]
  rw [h1, ← List.toFinset_card_of_nodup hnodup]
  congr 1
  ext k
  simp only [List.mem_toFinset]
  rw [mem_keys_iff, hmem]

end Maps

/-! ## Indices -/

section Buckets

variable {α : Type} (key : α → GoInt)

/-- The sum of the bucket lengths of a map of slices. -/
theorem bucketSum_mapSet (m : GoMap (List α)) (k : GoInt) (v : List α) :
    ((mapSet m k v).map (fun kv => kv.2.length)).sum + (mapIndex m k).length
      = (m.map (fun kv => kv.2.length)).sum + v.length := by
  induction m with
  | nil => simp [mapSet, mapIndex, mapGet]
  | cons kv rest ih =>
    obtain ⟨k1, v1⟩ := kv
    by_cases h1 : k1 = k
    · simp [mapSet, mapIndex, mapGet, h1]
      omega
    · simp only [mapSet, mapIndex, mapGet, h1, if_false, List.map_cons, List.sum_cons] at ih ⊢
      omega

theorem addToBucketChecked_eq (index : GoMap (List α)) (x : α) :
    addToBucketChecked key index x = addToBucket key index x := by
  unfold addToBucketChecked addToBucket
  cases h : mapGet index (key x) with
  | none => simp [mapIndex, h]
  | some b => simp

theorem foldl_addToBucketChecked (xs : List α) (m : GoMap (List α)) :
    xs.foldl (addToBucketChecked key) m = xs.foldl (addToBucket key) m := by
  have : addToBucketChecked key = addToBucket key := by
    funext index x
    exact addToBucketChecked_eq key index x
  rw [this]

theorem mapIndex_addToBucket (m : GoMap (List α)) (x : α) (k : GoInt) :
    mapIndex (addToBucket key m x) k
      = mapIndex m k ++ (if key x = k then [x] else []) := by
  unfold addToBucket
  by_cases h : key x = k
  · subst h
    simp [mapIndex, mapGet_mapSet]
  · simp [mapIndex, mapGet_mapSet, h]

theorem isSome_addToBucket (m : GoMap (List α)) (x : α) (k : GoInt) :
    (mapGet (addToBucket key m x) k).isSome
      = ((mapGet m k).isSome || decide (key x = k)) := by
  unfold addToBucket
  by_cases h : key x = k
  · subst h
    simp [mapGet_mapSet]
  · simp [mapGet_mapSet, h]

theorem mapIndex_foldl_addToBucket (xs : List α) : ∀ (m : GoMap (List α)) (k : GoInt),
    mapIndex (xs.foldl (addToBucket key) m) k
      = mapIndex m k ++ xs.filter (fun x => decide (key x = k)) := by
  induction xs with
  | nil => intro m k; simp
  | cons x rest ih =>
    intro m k
    rw [List.foldl_cons, ih, mapIndex_addToBucket]
    by_cases h : key x = k <;> simp [h, List.filter_cons]

theorem isSome_foldl_addToBucket (xs : List α) : ∀ (m : GoMap (List α)) (k : GoInt),
    (mapGet (xs.foldl (addToBucket key) m) k).isSome
      = ((mapGet m k).isSome || xs.any (fun x => decide (key x = k))) := by
  induction xs with
  | nil => intro m k; simp
  | cons x rest ih =>
    intro m k
    rw [List.foldl_cons, ih, isSome_addToBucket]
    simp [Bool.or_assoc]

theorem keys_nodup_foldl_addToBucket (xs : List α) : ∀ (m : GoMap (List α)),
    (m.map Prod.fst).Nodup → ((xs.foldl (addToBucket key) m).map Prod.fst).Nodup := by
  induction xs with
  | nil => intro m h; exact h
  | cons x rest ih =>
    intro m h
    rw [List.foldl_cons]
    exact ih _ (keys_nodup_mapSet m _ _ h)

theorem bucketSum_foldl_addToBucket (xs : List α) : ∀ (m : GoMap (List α)),
    ((xs.foldl (addToBucket key) m).map (fun kv => kv.2.length)).sum
      = (m.map (fun kv => kv.2.length)).sum + xs.length := by
  induction xs with
  | nil => intro m; simp
  | cons x rest ih =>
    intro m
    rw [List.foldl_cons, ih]
    have := bucketSum_mapSet m (key x) (mapIndex m (key x) ++ [x])
    simp only [List.length_append, List.length_cons, List.length_nil] at this ⊢
    unfold addToBucket
    omega

/-- What a bucket index built from the empty map holds. -/
theorem bucketIndex_spec (xs : List α) (k : GoInt) :
    mapIndex (xs.foldl (addToBucket key) []) k = xs.filter (fun x => decide (key x = k))
    ∧ ((mapGet (xs.foldl (addToBucket key) []) k).isSome = true
        ↔ xs.filter (fun x => decide (key x = k)) ≠ []) := by
  constructor
  · rw [mapIndex_foldl_addToBucket]
    simp [mapIndex, mapGet]
  · rw [isSome_foldl_addToBucket]
    simp only [mapGet, Option.isSome_none, Bool.false_or, List.any_eq_true, decide_eq_true_eq,
      ne_eq, List.filter_eq_nil_iff, not_forall, Classical.not_not]
    constructor
    · rintro ⟨x, hx, hk⟩
      exact ⟨x, hx, hk⟩
    · rintro ⟨x, hx, hk⟩
      exact ⟨x, hx, hk⟩

/-- The buckets of an index built from the empty map partition the source list. -/
theorem bucketIndex_partition (xs : List α) :
    ((xs.foldl (addToBucket key) []).map Prod.fst).Nodup
    ∧ mapLen (xs.foldl (addToBucket key) []) = (xs.map key).toFinset.card
    ∧ ((xs.foldl (addToBucket key) []).map (fun kv => kv.2.length)).sum = xs.length := by
  refine ⟨keys_nodup_foldl_addToBucket key xs [] (by simp), ?_, ?_⟩
  · apply mapLen_eq_card
    · exact keys_nodup_foldl_addToBucket key xs [] (by simp)
    · intro k
      rw [isSome_foldl_addToBucket]
      simp [mapGet]
  · rw [bucketSum_foldl_addToBucket]
    simp

end Buckets

section FirstWins

variable {α : Type} (key : α → GoInt)

theorem mapGet_foldl_addIfAbsent (xs : List α) : ∀ (m : GoMap α) (k : GoInt),
    mapGet (xs.foldl (addIfAbsent key) m) k
      = (mapGet m k).or (xs.find? (fun x => decide (key x = k))) := by
  induction xs with
  | nil => intro m k; simp
  | cons x rest ih =>
    intro m k
    rw [List.foldl_cons, ih]
    unfold addIfAbsent
    cases hx : mapGet m (key x) with
    | some v =>
      simp only [Option.isSome_some, Bool.true_eq_false, if_false]
      by_cases hk : key x = k
      · subst hk
        simp [hx]
      · simp [List.find?_cons, hk]
    | none =>
      simp only [Option.isSome_none, if_true, mapGet_mapSet]
      by_cases hk : key x = k
      · subst hk
        simp [hx, List.find?_cons]
      · simp [List.find?_cons, hk]

theorem keys_nodup_foldl_addIfAbsent (xs : List α) : ∀ (m : GoMap α),
    (m.map Prod.fst).Nodup → ((xs.foldl (addIfAbsent key) m).map Prod.fst).Nodup := by
  induction xs with
  | nil => intro m h; exact h
  | cons x rest ih =>
    intro m h
    rw [List.foldl_cons]
    apply ih
    unfold addIfAbsent
    split_ifs
    · exact keys_nodup_mapSet m _ _ h
    · exact h

/-- What an ID index built from the empty map holds: the first entity of each key. -/
theorem idIndex_spec (xs : List α) (k : GoInt) :
    mapGet (xs.foldl (addIfAbsent key) []) k = xs.find? (fun x => decide (key x = k)) := by
  rw [mapGet_foldl_addIfAbsent]
  simp [mapGet]

theorem idIndex_len (xs : List α) :
    ((xs.foldl (addIfAbsent key) []).map Prod.fst).Nodup
    ∧ mapLen (xs.foldl (addIfAbsent key) []) = (xs.map key).toFinset.card := by
  refine ⟨keys_nodup_foldl_addIfAbsent key xs [] (by simp), ?_⟩
  apply mapLen_eq_card
  · exact keys_nodup_foldl_addIfAbsent key xs [] (by simp)
  · intro k
    rw [idIndex_spec, List.find?_isSome]
    simp

end FirstWins

/-! ## The shape of a search result -/

section Shape

variable {α : Type} (entity : String) (fields : List (String × Field α))
  (searchField searchValue : String)

/-- One pass of the loop body never panics and appends the entity a number of
times that does not depend on the results so far. -/
theorem searchEntity_shape (e : α) :
    ∃ (n : Nat) (err : Option SearchError), ∀ results : List α,
      searchEntity entity fields searchField searchValue e results
        = some (results ++ List.replicate n e, err) := by
  cases hF : fields.lookup searchField with
  | none =>
    exact ⟨0, _, fun results => by
      simpa using searchEntity_noField entity fields searchField searchValue hF e results⟩
  | some field =>
    cases field with
    | string get =>
      by_cases hv : get e = searchValue
      · exact ⟨1, none, fun results => by
          simp [searchEntity_string entity fields searchField searchValue get hF, hv]⟩
      · exact ⟨0, none, fun results => by
          simp [searchEntity_string entity fields searchField searchValue get hF, hv]⟩
    | strings get =>
      exact ⟨_, none, fun results =>
        searchEntity_strings entity fields searchField searchValue get hF e results⟩
    | bool get =>
      by_cases ht : strings_ToLower searchValue = "true"
      · cases hg : get e with
        | true => exact ⟨1, none, fun results => by
            simp [searchEntity_bool entity fields searchField searchValue get hF, searchBool,
              ht, hg, Value.eqBool]⟩
        | false => exact ⟨0, none, fun results => by
            simp [searchEntity_bool entity fields searchField searchValue get hF, searchBool,
              ht, hg, Value.eqBool]⟩
      · by_cases hf : strings_ToLower searchValue = "false"
        · cases hg : get e with
          | true => exact ⟨0, none, fun results => by
              simp [searchEntity_bool entity fields searchField searchValue get hF, searchBool,
                hf, hg, Value.eqBool]⟩
          | false => exact ⟨1, none, fun results => by
              simp [searchEntity_bool entity fields searchField searchValue get hF, searchBool,
                hf, hg, Value.eqBool]⟩
        · exact ⟨0, some (.invalidBool entity searchField "bool" searchValue),
            fun results => by
              simp [searchEntity_bool entity fields searchField searchValue get hF, searchBool,
                ht, hf]⟩
    | int get =>
      cases hs : strconv_Atoi searchValue with
      | error err =>
        exact ⟨0, some err, fun results => by
          simp [searchEntity_int entity fields searchField searchValue get hF, searchInt,
            fmt_Sprintf_v, strconv_Atoi_formatInt, hs]⟩
      | ok n =>
        by_cases hv : (get e).val = n
        · subst hv
          exact ⟨1, none, fun results => by
            simp [searchEntity_int entity fields searchField searchValue get hF, searchInt,
              fmt_Sprintf_v, strconv_Atoi_formatInt, hs]⟩
        · exact ⟨0, none, fun results => by
            simp [searchEntity_int entity fields searchField searchValue get hF, searchInt,
              fmt_Sprintf_v, strconv_Atoi_formatInt, hs, hv]⟩
    | users get =>
      exact ⟨0, none, fun results => by
        simpa using searchEntity_other entity fields searchField searchValue _ hF
          (by simp only [Field.typeString]; decide) (by simp only [Field.typeString]; decide)
          (by simp only [Field.typeString]; decide) (by simp only [Field.typeString]; decide)
          e results⟩
    | tickets get =>
      exact ⟨0, none, fun results => by
        simpa using searchEntity_other entity fields searchField searchValue _ hF
          (by simp only [Field.typeString]; decide) (by simp only [Field.typeString]; decide)
          (by simp only [Field.typeString]; decide) (by simp only [Field.typeString]; decide)
          e results⟩
    | organization get =>
      exact ⟨0, none, fun results => by
        simpa using searchEntity_other entity fields searchField searchValue _ hF
          (by simp only [Field.typeString]; decide) (by simp only [Field.typeString]; decide)
          (by simp only [Field.typeString]; decide) (by simp only [Field.typeString]; decide)
          e results⟩
    | user get =>
      exact ⟨0, none, fun results => by
        simpa using searchEntity_other entity fields searchField searchValue _ hF
          (by simp only [Field.typeString]; decide) (by simp only [Field.typeString]; decide)
          (by simp only [Field.typeString]; decide) (by simp only [Field.typeString]; decide)
          e results⟩

/-- A search that returns no error returns, after the results it started from,
each entity of the list a number of times, in the order of the list. -/
theorem searchLoop_shape (list : List α) :
    ∀ (results r : List α),
      searchLoop entity fields searchField searchValue list results = some (r, none) →
      ∃ n : α → Nat, r = results ++ list.flatMap (fun e => List.replicate (n e) e) := by
  have hcount : ∀ e : α, ∃ err : Option SearchError, ∀ results : List α,
      searchEntity entity fields searchField searchValue e results
        = some (results ++ List.replicate
            (match searchEntity entity fields searchField searchValue e [] with
              | some (found, _) => found.length
              | none => 0) e, err) := by
    intro e
    obtain ⟨n, err, h⟩ := searchEntity_shape entity fields searchField searchValue e
    refine ⟨err, fun results => ?_⟩
    rw [h results, h []]
    simp
  refine fun results r h => ⟨fun x =>
    match searchEntity entity fields searchField searchValue x [] with
    | some (found, _) => found.length
    | none => 0, ?_⟩
  induction list generalizing results with
  | nil =>
    simp only [searchLoop, Option.some.injEq, Prod.mk.injEq] at h
    simp [h.1]
  | cons e rest ih =>
    obtain ⟨err, he⟩ := hcount e
    simp only [searchLoop, he results] at h
    cases err with
    | some err1 => simp at h
    | none =>
      simp only at h
      rw [ih _ h]
      simp [List.flatMap_cons]

end Shape

/-! ## Order of a search result -/

theorem flatMap_replicate_ordered {α : Type} (n : α → Nat) (list : List α) :
    ∃ f : Nat → Nat,
      (∀ i j, i ≤ j → j < (list.flatMap (fun e => List.replicate (n e) e)).length → f i ≤ f j)
      ∧ ∀ i, i < (list.flatMap (fun e => List.replicate (n e) e)).length →
          (list.flatMap (fun e => List.replicate (n e) e))[i]? = list[f i]? := by
  induction list with
  | nil => exact ⟨fun i => i, by simp, by simp⟩
  | cons e rest ih =>
    obtain ⟨g, hmono, hget⟩ := ih
    refine ⟨fun i => if i < n e then 0 else g (i - n e) + 1, ?_, ?_⟩
    · intro i j hij hj
      simp only [List.flatMap_cons, List.length_append, List.length_replicate] at hj
      by_cases hi : i < n e
      · simp [hi]
      · have hj2 : ¬ j < n e := by omega
        simp only [hi, hj2, if_false]
        have := hmono (i - n e) (j - n e) (by omega) (by omega)
        omega
    · intro i hi
      simp only [List.flatMap_cons, List.length_append, List.length_replicate] at hi
      by_cases hlt : i < n e
      · simp only [hlt, if_true, List.flatMap_cons, List.getElem?_cons_zero]
        rw [List.getElem?_append_left (by simpa using hlt)]
        simp [List.getElem?_replicate, hlt]
      · simp only [hlt, if_false, List.flatMap_cons, List.getElem?_cons_succ]
        rw [List.getElem?_append_right (by simpa using Nat.le_of_not_lt hlt)]
        simp only [List.length_replicate]
        exact hget (i - n e) (by omega)

theorem ordered_positions {α : Type} (r list : List α) (f : Nat → Nat)
    (hmono : ∀ i j, i ≤ j → j < r.length → f i ≤ f j)
    (hget : ∀ i, i < r.length → r[i]? = list[f i]?) :
    (∀ e ∈ r, e ∈ list)
    ∧ ∀ (i j : Nat) (A B : α), i < j → r[i]? = some A → r[j]? = some B → A ≠ B →
        ∃ p q : Nat, p < q ∧ list[p]? = some A ∧ list[q]? = some B := by
  constructor
  · intro e he
    obtain ⟨i, hi, rfl⟩ := List.getElem_of_mem he
    have h := hget i hi
    rw [List.getElem?_eq_getElem hi] at h
    exact List.getElem?_mem h.symm
  · intro i j A B hij hA hB hne
    have hj : j < r.length := by
      by_contra hc
      rw [List.getElem?_eq_none (by omega)] at hB
      exact Option.noConfusion hB
    have hi : i < r.length := by omega
    have h1 := hget i hi
    have h2 := hget j hj
    rw [hA] at h1
    rw [hB] at h2
    refine ⟨f i, f j, ?_, h1.symm, h2.symm⟩
    have hle := hmono i j (by omega) hj
    rcases Nat.lt_or_eq_of_le hle with hlt | heq
    · exact hlt
    · rw [heq] at h1
      rw [← h1] at h2
      exact absurd (Option.some.inj h2).symm hne

section Order

variable {α : Type} (entity : String) (fields : List (String × Field α))

theorem searchLoop_preserves_order (F s : String) (list r : List α)
    (h : searchLoop entity fields F s list [] = some (r, none)) :
    (∀ e ∈ r, e ∈ list)
    ∧ (∃ f : Nat → Nat, (∀ i j, i ≤ j → j < r.length → f i ≤ f j)
        ∧ ∀ i, i < r.length → r[i]? = list[f i]?)
    ∧ ∀ (i j : Nat) (A B : α), i < j → r[i]? = some A → r[j]? = some B → A ≠ B →
        ∃ p q : Nat, p < q ∧ list[p]? = some A ∧ list[q]? = some B := by
  obtain ⟨n, hn⟩ := searchLoop_shape entity fields F s list [] r h
  rw [List.nil_append] at hn
  subst hn
  obtain ⟨f, hmono, hget⟩ := flatMap_replicate_ordered n list
  obtain ⟨hmem, hpos⟩ := ordered_positions _ list f hmono hget
  exact ⟨hmem, ⟨f, hmono, hget⟩, hpos⟩

end Order

/-! ## Field names -/

theorem lookup_eq_none_of_not_mem {α : Type} (fields : List (String × Field α)) (F : String)
    (h : F ∉ fields.map Prod.fst) : fields.lookup F = none := by
  induction fields with
  | nil => rfl
  | cons kv rest ih =>
    obtain ⟨name, field⟩ := kv
    simp only [List.map_cons, List.mem_cons, not_or] at h
    have hne : (F == name) = false := by simpa using h.1
    simp only [List.lookup, hne]
    exact ih h.2

theorem mem_of_lookup_isSome {α : Type} (fields : List (String × Field α)) (F : String)
    (h : (fields.lookup F).isSome = true) : F ∈ fields.map Prod.fst := by
  by_contra hc
  rw [lookup_eq_none_of_not_mem fields F hc] at h
  simp at h

theorem lookup_case_variant {α : Type} (fields : List (String × Field α))
    (hinj : ∀ a ∈ fields.map Prod.fst, ∀ b ∈ fields.map Prod.fst,
      strings_ToLower a = strings_ToLower b → a = b)
    (F real : String) (hreal : (fields.lookup real).isSome = true)
    (hcase : strings_ToLower F = strings_ToLower real) (hne : F ≠ real) :
    fields.lookup F = none := by
  apply lookup_eq_none_of_not_mem
  intro hF
  exact hne (hinj F hF real (mem_of_lookup_isSome fields real hreal) hcase)

theorem Organization_names_lower_injective :
    ∀ a ∈ Organization.fields.map Prod.fst, ∀ b ∈ Organization.fields.map Prod.fst,
      strings_ToLower a = strings_ToLower b → a = b := by
  decide

set_option maxRecDepth 100000 in
theorem User_names_lower_injective :
    ∀ a ∈ User.fields.map Prod.fst, ∀ b ∈ User.fields.map Prod.fst,
      strings_ToLower a = strings_ToLower b → a = b := by
  decide

set_option maxRecDepth 100000 in
theorem Ticket_names_lower_injective :
    ∀ a ∈ Ticket.fields.map Prod.fst, ∀ b ∈ Ticket.fields.map Prod.fst,
      strings_ToLower a = strings_ToLower b → a = b := by
  decide

section GenericEmptyValue

variable {α : Type} (entity : String) (fields : List (String × Field α))

theorem searchLoop_empty_value_list (F : String) (get : α → List String) (list : List α)
    (hF : fields.lookup F = some (.strings get)) :
    ∃ results, searchLoop entity fields F "" list [] = some (results, none)
      ∧ (∀ e, e ∈ results ↔ e ∈ list ∧ "" ∈ tokens (get e))
      ∧ ∀ e ∈ list, joinSpace (get e) = [] → e ∈ results := by
  have hmem : ∀ e, e ∈ list.flatMap (fun e => List.replicate ((tokens (get e)).count "") e)
      ↔ e ∈ list ∧ "" ∈ tokens (get e) := by
    intro e
    simp only [List.mem_flatMap, List.mem_replicate]
    constructor
    · rintro ⟨a, ha, hpos, rfl⟩
      exact ⟨ha, List.count_pos_iff.mp (Nat.pos_of_ne_zero hpos)⟩
    · rintro ⟨he, ht⟩
      exact ⟨e, he, Nat.pos_iff_ne_zero.mp (List.count_pos_iff.mpr ht), rfl⟩
  refine ⟨_, searchLoop_strings entity fields F "" get hF list [], ?_, ?_⟩
  · simpa using hmem
  · intro e he hj
    rw [List.nil_append, hmem]
    refine ⟨he, ?_⟩
    simp [tokens, strings_Split, hj, splitChars]

end GenericEmptyValue

/-- C11, the claim fails for a `[]string` field: the tags of `emptyTagOrg`, an
empty tag and `West`, have the normalized value ` West`, which is not empty, and
the search on `Tags` with the empty value returns the organization. -/
theorem C11_empty_value_matches_empty_piece :
    Organization.fields.lookup "Tags" = some (.strings Organization.Tags)
    ∧ (⟨joinSpace emptyTagOrg.Tags⟩ : String) = " West"
    ∧ SearchOrgs "Tags" "" [emptyTagOrg] = some ([emptyTagOrg], none) :=
  ⟨rfl, by decide, rfl⟩

/-- C11 as amended: for every collection the search with the empty search value
returns, on a string field, exactly the entities whose value is the empty
string, in source order; on a `[]string` field it returns no error and an
entity of the collection is in the result exactly when one of the pieces of its
normalized value (the elements joined by single spaces), split at every space,
is empty, which is so whenever the normalized value is empty. -/
theorem C11_empty_value_search :
    (∀ (F : String) (OrgList : List Organization),
      (∀ get : Organization → String, Organization.fields.lookup F = some (.string get) →
        SearchOrgs F "" OrgList = some (OrgList.filter (fun e => decide (get e = "")), none))
      ∧ (∀ get : Organization → List String,
        Organization.fields.lookup F = some (.strings get) →
        ∃ results, SearchOrgs F "" OrgList = some (results, none)
          ∧ (∀ e, e ∈ results ↔ e ∈ OrgList ∧ "" ∈ tokens (get e))
          ∧ ∀ e ∈ OrgList, joinSpace (get e) = [] → e ∈ results))
    ∧ (∀ (F : String) (UserList : List User),
      (∀ get : User → String, User.fields.lookup F = some (.string get) →
        SearchUsers F "" UserList = some (UserList.filter (fun e => decide (get e = "")), none))
      ∧ (∀ get : User → List String, User.fields.lookup F = some (.strings get) →
        ∃ results, SearchUsers F "" UserList = some (results, none)
          ∧ (∀ e, e ∈ results ↔ e ∈ UserList ∧ "" ∈ tokens (get e))
          ∧ ∀ e ∈ UserList, joinSpace (get e) = [] → e ∈ results))
    ∧ (∀ (F : String) (TicketList : List Ticket),
      (∀ get : Ticket → String, Ticket.fields.lookup F = some (.string get) →
        SearchTickets F "" TicketList
          = some (TicketList.filter (fun e => decide (get e = "")), none))
      ∧ (∀ get : Ticket → List String, Ticket.fields.lookup F = some (.strings get) →
        ∃ results, SearchTickets F "" TicketList = some (results, none)
          ∧ (∀ e, e ∈ results ↔ e ∈ TicketList ∧ "" ∈ tokens (get e))
          ∧ ∀ e ∈ TicketList, joinSpace (get e) = [] → e ∈ results)) :=
  ⟨fun F list =>
      ⟨fun get hF => searchLoop_string_exact "Organization" Organization.fields F "" get list hF,
        fun get hF =>
          searchLoop_empty_value_list "Organization" Organization.fields F get list hF⟩,
    fun F list =>
      ⟨fun get hF => searchLoop_string_exact "User" User.fields F "" get list hF,
        fun get hF => searchLoop_empty_value_list "User" User.fields F get list hF⟩,
    fun F list =>
      ⟨fun get hF => searchLoop_string_exact "Ticket" Ticket.fields F "" get list hF,
        fun get hF => searchLoop_empty_value_list "Ticket" Ticket.fields F get list hF⟩⟩

/-- C11 as amended, at the sample data: the empty value on `Details` returns the
organizations without details, and on `Tags` the zero organization (no tags) is
among the results. -/
theorem C11_empty_value_search_witness :
    Organization.fields.lookup "Details" = some (.string Organization.Details)
    ∧ SearchOrgs "Details" "" [sampleOrg, tabOrg] = some ([tabOrg], none)
    ∧ Organization.fields.lookup "Tags" = some (.strings Organization.Tags)
    ∧ zeroOrganization ∈ [sampleOrg, zeroOrganization]
    ∧ joinSpace zeroOrganization.Tags = []
    ∧ ∃ results, SearchOrgs "Tags" "" [sampleOrg, zeroOrganization] = some (results, none)
        ∧ zeroOrganization ∈ results :=
  ⟨rfl, (C11_empty_value_search.1 "Details" [sampleOrg, tabOrg]).1 Organization.Details rfl,
    rfl, by simp, rfl,
    match (C11_empty_value_search.1 "Tags" [sampleOrg, zeroOrganization]).2
      Organization.Tags rfl with
    | ⟨results, hr, _, hz⟩ => ⟨results, hr, hz zeroOrganization (by simp) rfl⟩⟩

/-- C12: for every collection, field and search value for which the search
returns no error, no entity outside the collection is returned and the result
preserves source order: the positions of the result map to positions of the
collection holding the same entity, without ever going back, so that of two
different entities `A` before `B` in the result, `A` stands before `B` in the
collection. -/
theorem C12_search_preserves_order :
    (∀ (F s : String) (OrgList r : List Organization),
      SearchOrgs F s OrgList = some (r, none) →
      (∀ e ∈ r, e ∈ OrgList)
      ∧ (∃ f : Nat → Nat, (∀ i j, i ≤ j → j < r.length → f i ≤ f j)
          ∧ ∀ i, i < r.length → r[i]? = OrgList[f i]?)
      ∧ ∀ (i j : Nat) (A B : Organization), i < j → r[i]? = some A → r[j]? = some B →
          A ≠ B → ∃ p q : Nat, p < q ∧ OrgList[p]? = some A ∧ OrgList[q]? = some B)
    ∧ (∀ (F s : String) (UserList r : List User),
      SearchUsers F s UserList = some (r, none) →
      (∀ e ∈ r, e ∈ UserList)
      ∧ (∃ f : Nat → Nat, (∀ i j, i ≤ j → j < r.length → f i ≤ f j)
          ∧ ∀ i, i < r.length → r[i]? = UserList[f i]?)
      ∧ ∀ (i j : Nat) (A B : User), i < j → r[i]? = some A → r[j]? = some B →
          A ≠ B → ∃ p q : Nat, p < q ∧ UserList[p]? = some A ∧ UserList[q]? = some B)
    ∧ (∀ (F s : String) (TicketList r : List Ticket),
      SearchTickets F s TicketList = some (r, none) →
      (∀ e ∈ r, e ∈ TicketList)
      ∧ (∃ f : Nat → Nat, (∀ i j, i ≤ j → j < r.length → f i ≤ f j)
          ∧ ∀ i, i < r.length → r[i]? = TicketList[f i]?)
      ∧ ∀ (i j : Nat) (A B : Ticket), i < j → r[i]? = some A → r[j]? = some B →
          A ≠ B → ∃ p q : Nat, p < q ∧ TicketList[p]? = some A ∧ TicketList[q]? = some B) :=
  ⟨fun F s list r h =>
      searchLoop_preserves_order "Organization" Organization.fields F s list r h,
    fun F s list r h => searchLoop_preserves_order "User" User.fields F s list r h,
    fun F s list r h => searchLoop_preserves_order "Ticket" Ticket.fields F s list r h⟩

/-- C12 at the sample data: of the organizations that do not share tickets,
`sampleOrg` comes before `dupOrg` in the result, as in the collection. -/
theorem C12_search_preserves_order_witness :
    SearchOrgs "Shared_tickets" "false" [sampleOrg, tabOrg, dupOrg]
      = some ([sampleOrg, dupOrg], none)
    ∧ (∀ e ∈ [sampleOrg, dupOrg], e ∈ [sampleOrg, tabOrg, dupOrg])
    ∧ ∀ (i j : Nat) (A B : Organization), i < j → [sampleOrg, dupOrg][i]? = some A →
        [sampleOrg, dupOrg][j]? = some B → A ≠ B →
        ∃ p q : Nat, p < q ∧ [sampleOrg, tabOrg, dupOrg][p]? = some A
          ∧ [sampleOrg, tabOrg, dupOrg][q]? = some B :=
  ⟨rfl,
    (C12_search_preserves_order.1 "Shared_tickets" "false" [sampleOrg, tabOrg, dupOrg]
      [sampleOrg, dupOrg] rfl).1,
    (C12_search_preserves_order.1 "Shared_tickets" "false" [sampleOrg, tabOrg, dupOrg]
      [sampleOrg, dupOrg] rfl).2.2⟩

/-- C13, the code at the failing input: the one ticket tagged `New York` and
`New Jersey` is returned twice by the search on `Tags` for `New`, so the result
is longer than the collection. -/
theorem C13_entity_returned_twice :
    Ticket.fields.lookup "Tags" = some (.strings Ticket.Tags)
    ∧ newTicket.Tags = ["New York", "New Jersey"]
    ∧ SearchTickets "Tags" "New" [newTicket] = some ([newTicket, newTicket], none)
    ∧ [newTicket].length < [newTicket, newTicket].length :=
  ⟨rfl, rfl, rfl, by decide⟩

/-- C14: field names are case-sensitive: for every non-empty collection and every
search value, a search whose field name `F` has the lower-casing of a real field
name `real` without being `real` fails with the field-not-found error for `F`
(such an `F` is never itself a field name); `id`, `name`, `tags` and `url` name
no field of any of the three structs. -/
theorem C14_field_names_case_sensitive :
    (∀ (F real s : String) (OrgList : List Organization),
      (Organization.fields.lookup real).isSome = true →
      strings_ToLower F = strings_ToLower real → F ≠ real → OrgList ≠ [] →
      Organization.fields.lookup F = none
      ∧ SearchOrgs F s OrgList = some ([], some (.noSuchField F)))
    ∧ (∀ (F real s : String) (UserList : List User),
      (User.fields.lookup real).isSome = true →
      strings_ToLower F = strings_ToLower real → F ≠ real → UserList ≠ [] →
      User.fields.lookup F = none
      ∧ SearchUsers F s UserList = some ([], some (.noSuchField F)))
    ∧ (∀ (F real s : String) (TicketList : List Ticket),
      (Ticket.fields.lookup real).isSome = true →
      strings_ToLower F = strings_ToLower real → F ≠ real → TicketList ≠ [] →
      Ticket.fields.lookup F = none
      ∧ SearchTickets F s TicketList = some ([], some (.noSuchField F)))
    ∧ (∀ F ∈ ["id", "name", "tags", "url"],
      Organization.fields.lookup F = none ∧ User.fields.lookup F = none
      ∧ Ticket.fields.lookup F = none) := by
  refine ⟨fun F real s list hreal hcase hne hlist => ?_,
    fun F real s list hreal hcase hne hlist => ?_,
    fun F real s list hreal hcase hne hlist => ?_, ?_⟩
  · have hF := lookup_case_variant Organization.fields Organization_names_lower_injective
      F real hreal hcase hne
    exact ⟨hF, searchLoop_unknown_field "Organization" Organization.fields F s list hF hlist⟩
  · have hF := lookup_case_variant User.fields User_names_lower_injective
      F real hreal hcase hne
    exact ⟨hF, searchLoop_unknown_field "User" User.fields F s list hF hlist⟩
  · have hF := lookup_case_variant Ticket.fields Ticket_names_lower_injective
      F real hreal hcase hne
    exact ⟨hF, searchLoop_unknown_field "Ticket" Ticket.fields F s list hF hlist⟩
  · intro F hF
    simp only [List.mem_cons, List.mem_singleton, List.not_mem_nil, or_false] at hF
    rcases hF with rfl | rfl | rfl | rfl <;> exact ⟨rfl, rfl, rfl⟩

/-- C14 at the test data: `id` in place of `ID` over one organization. -/
theorem C14_field_names_case_sensitive_witness :
    (Organization.fields.lookup "ID").isSome = true
    ∧ strings_ToLower "id" = strings_ToLower "ID" ∧ "id" ≠ "ID" ∧ [sampleOrg] ≠ []
    ∧ Organization.fields.lookup "id" = none
    ∧ SearchOrgs "id" "103" [sampleOrg] = some ([], some (.noSuchField "id")) :=
  ⟨rfl, by decide, by decide, by simp,
    C14_field_names_case_sensitive.1 "id" "ID" "103" [sampleOrg] rfl (by decide) (by decide)
      (by simp)⟩

/-- C15, the code at the failing input: over the two tickets whose IDs the
search value of `TestMultipleSearchTickets` lists, `SearchTickets` on `ID`
returns no ticket. -/
theorem C15_two_ids_match_nothing :
    sampleTicket.ID = "1a227508-9f39-427c-8f57-1b72f3fab87c"
    ∧ newTicket.ID = "4cce7415-ef12-42b6-b7b5-fb00e24f9cc1"
    ∧ SearchTickets "ID"
        "1a227508-9f39-427c-8f57-1b72f3fab87c, 4cce7415-ef12-42b6-b7b5-fb00e24f9cc1"
        [sampleTicket, newTicket] = some ([], none) :=
  ⟨rfl, rfl, rfl⟩

/-! ## Associated users and tickets -/

theorem Organization.ID_setAssociatedUsers (o : Organization) (users : List User) :
    (o.setAssociatedUsers users).ID = o.ID := by
  cases o; rfl

theorem Organization.ID_setAssociatedTickets (o : Organization) (tickets : List Ticket) :
    (o.setAssociatedTickets tickets).ID = o.ID := by
  cases o; rfl

theorem Organization.AssociatedUsers_setAssociatedUsers (o : Organization)
    (users : List User) : (o.setAssociatedUsers users).AssociatedUsers = users := by
  cases o; rfl

theorem Organization.AssociatedUsers_setAssociatedTickets (o : Organization)
    (tickets : List Ticket) :
    (o.setAssociatedTickets tickets).AssociatedUsers = o.AssociatedUsers := by
  cases o; rfl

theorem Organization.AssociatedTickets_setAssociatedTickets (o : Organization)
    (tickets : List Ticket) : (o.setAssociatedTickets tickets).AssociatedTickets = tickets := by
  cases o; rfl

theorem associateUsersAndTickets_spec (orgUserIndex : GoMap (List User))
    (orgTicketIndex : GoMap (List Ticket)) (org : Organization) :
    (associateUsersAndTickets orgUserIndex orgTicketIndex org).ID = org.ID
    ∧ (associateUsersAndTickets orgUserIndex orgTicketIndex org).AssociatedUsers
        = mapIndex orgUserIndex org.ID
    ∧ (associateUsersAndTickets orgUserIndex orgTicketIndex org).AssociatedTickets
        = mapIndex orgTicketIndex org.ID := by
  unfold associateUsersAndTickets mapIndex
  cases hu : mapGet orgUserIndex org.ID <;> cases ht : mapGet orgTicketIndex org.ID <;>
    simp [Organization.ID_setAssociatedUsers, Organization.ID_setAssociatedTickets,
      Organization.AssociatedUsers_setAssociatedUsers,
      Organization.AssociatedUsers_setAssociatedTickets,
      Organization.AssociatedTickets_setAssociatedTickets, ht]

theorem foldl_append_singleton {α β : Type} (f : α → β) (xs : List α) :
    ∀ acc : List β, xs.foldl (fun acc x => acc ++ [f x]) acc = acc ++ xs.map f := by
  induction xs with
  | nil => intro acc; simp
  | cons x rest ih => intro acc; simp [ih]

theorem getAssociatedUsersAndTickets_eq_map (orgs : List Organization)
    (orgUserIndex : GoMap (List User)) (orgTicketIndex : GoMap (List Ticket)) :
    getAssociatedUsersAndTickets orgs orgUserIndex orgTicketIndex
      = orgs.map (associateUsersAndTickets orgUserIndex orgTicketIndex) := by
  unfold getAssociatedUsersAndTickets
  rw [foldl_append_singleton]
  simp

theorem forall2_map_right {α β : Type} (R : α → β → Prop) (f : α → β) (xs : List α)
    (h : ∀ x ∈ xs, R x (f x)) : List.Forall₂ R xs (xs.map f) := by
  induction xs with
  | nil => exact List.Forall₂.nil
  | cons x rest ih =>
    exact List.Forall₂.cons (h x (List.mem_cons_self _ _))
      (ih (fun y hy => h y (List.mem_cons_of_mem _ hy)))

theorem filter_ID_val {α : Type} (key : α → GoInt) (k : GoInt) (xs : List α) :
    xs.filter (fun x => decide ((key x).val = k.val)) = xs.filter (fun x => decide (key x = k)) := by
  apply List.filter_congr
  intro x _
  simp [Subtype.ext_iff]

theorem SearchOrgs_ID_formatInt (L : List Organization) (k : GoInt) :
    SearchOrgs "ID" (formatInt k.val) L = some (L.filter (fun o => decide (o.ID = k)), none) := by
  have h := searchLoop_int_exact "Organization" Organization.fields "ID"
    (formatInt k.val) Organization.ID L k.val rfl (strconv_Atoi_formatInt k)
  rw [filter_ID_val] at h
  exact h

/-- C16: ID indices are first-occurrence-wins: for every organization list `L`
and integer `k`, `indexOrgs(L)` has an entry for `k` if and only if some
organization in `L` has ID `k`, and the entry is the first organization of `L`
with ID `k`, while `SearchOrgs` on `ID` over `L` returns all of them; the same
for `indexUsers` and `SearchUsers` over a user list. -/
theorem C16_id_index_first_wins :
    (∀ (L : List Organization) (k : GoInt),
      mapGet (indexOrgs L) k = L.find? (fun o => decide (o.ID = k))
      ∧ ((mapGet (indexOrgs L) k).isSome = true ↔ ∃ o ∈ L, o.ID = k)
      ∧ SearchOrgs "ID" (formatInt k.val) L
          = some (L.filter (fun o => decide (o.ID = k)), none))
    ∧ (∀ (U : List User) (k : GoInt),
      mapGet (indexUsers U) k = U.find? (fun u => decide (u.ID = k))
      ∧ ((mapGet (indexUsers U) k).isSome = true ↔ ∃ u ∈ U, u.ID = k)
      ∧ SearchUsers "ID" (formatInt k.val) U
          = some (U.filter (fun u => decide (u.ID = k)), none)) := by
  constructor
  · intro L k
    have h1 : mapGet (indexOrgs L) k = L.find? (fun o => decide (o.ID = k)) :=
      idIndex_spec Organization.ID L k
    refine ⟨h1, ?_, ?_⟩
    · rw [h1, List.find?_isSome]
      simp
    · exact SearchOrgs_ID_formatInt L k
  · intro U k
    have h1 : mapGet (indexUsers U) k = U.find? (fun u => decide (u.ID = k)) :=
      idIndex_spec User.ID U k
    refine ⟨h1, ?_, ?_⟩
    · rw [h1, List.find?_isSome]
      simp
    · have h := searchLoop_int_exact "User" User.fields "ID"
        (formatInt k.val) User.ID U k.val rfl (strconv_Atoi_formatInt k)
      rw [filter_ID_val] at h
      exact h

/-- C16 at the sample data: of the two organizations with ID 104 the index
holds the first, `tabOrg`, and the search on `ID` returns both. -/
theorem C16_id_index_first_wins_witness :
    mapGet (indexOrgs [sampleOrg, tabOrg, dupOrg]) ⟨104, by decide⟩ = some tabOrg
    ∧ SearchOrgs "ID" "104" [sampleOrg, tabOrg, dupOrg] = some ([tabOrg, dupOrg], none) :=
  ⟨(C16_id_index_first_wins.1 [sampleOrg, tabOrg, dupOrg] ⟨104, by decide⟩).1,
    (C16_id_index_first_wins.1 [sampleOrg, tabOrg, dupOrg] ⟨104, by decide⟩).2.2⟩

/-- C17: many-valued indices hold the source-ordered matches: for every user
list `U`, ticket list `T` and integer `k`, the value of each index at `k` is the
sub-list of the source with the indexed field equal to `k`, and `k` is a key
exactly when that sub-list is not empty. -/
theorem C17_bucket_index_holds_matches :
    (∀ (U : List User) (k : GoInt),
      mapIndex (indexOrgUsers U) k = U.filter (fun u => decide (u.Org = k))
      ∧ ((mapGet (indexOrgUsers U) k).isSome = true
          ↔ U.filter (fun u => decide (u.Org = k)) ≠ []))
    ∧ (∀ (T : List Ticket) (k : GoInt),
      mapIndex (indexOrgTickets T) k = T.filter (fun t => decide (t.Org = k))
      ∧ ((mapGet (indexOrgTickets T) k).isSome = true
          ↔ T.filter (fun t => decide (t.Org = k)) ≠ []))
    ∧ (∀ (T : List Ticket) (k : GoInt),
      mapIndex (indexUserSubmittedTickets T) k = T.filter (fun t => decide (t.Submitter = k))
      ∧ ((mapGet (indexUserSubmittedTickets T) k).isSome = true
          ↔ T.filter (fun t => decide (t.Submitter = k)) ≠ []))
    ∧ (∀ (T : List Ticket) (k : GoInt),
      mapIndex (indexUserAssignedTickets T) k = T.filter (fun t => decide (t.Assignee = k))
      ∧ ((mapGet (indexUserAssignedTickets T) k).isSome = true
          ↔ T.filter (fun t => decide (t.Assignee = k)) ≠ [])) := by
  refine ⟨fun U k => ?_, fun T k => ?_, fun T k => bucketIndex_spec Ticket.Submitter T k,
    fun T k => bucketIndex_spec Ticket.Assignee T k⟩
  · unfold indexOrgUsers
    rw [foldl_addToBucketChecked]
    exact bucketIndex_spec User.Org U k
  · unfold indexOrgTickets
    rw [foldl_addToBucketChecked]
    exact bucketIndex_spec Ticket.Org T k

/-- C17 at the sample data: the bucket of user 1 in the index of submitted
tickets holds the two tickets user 1 submitted, in source order, though no
user list is involved; user 5 submitted nothing and is no key. -/
theorem C17_bucket_index_holds_matches_witness :
    (mapIndex (indexUserSubmittedTickets scenarioTickets) ⟨1, by decide⟩).map Ticket.ID
      = ["t1", "t2"]
    ∧ (mapGet (indexUserSubmittedTickets scenarioTickets) ⟨5, by decide⟩).isSome = false :=
  ⟨by rw [(C17_bucket_index_holds_matches.2.2.1 scenarioTickets ⟨1, by decide⟩).1]; rfl,
    by
      have h := (C17_bucket_index_holds_matches.2.2.1 scenarioTickets ⟨5, by decide⟩).2
      cases hs : (mapGet (indexUserSubmittedTickets scenarioTickets) ⟨5, by decide⟩).isSome
      · rfl
      · exact absurd rfl (h.mp hs)⟩

/-- C18: the buckets of a many-valued index partition the source list: the
number of keys (the keys of the map are distinct) is the number of distinct
values of the indexed field and the bucket lengths sum to the length of the
list, for the four many-valued indices; the number of keys of `indexOrgs` is
the number of distinct organization IDs. -/
theorem C18_index_partitions_source :
    (∀ U : List User,
      ((indexOrgUsers U).map Prod.fst).Nodup
      ∧ mapLen (indexOrgUsers U) = (U.map User.Org).toFinset.card
      ∧ ((indexOrgUsers U).map (fun kv => kv.2.length)).sum = U.length)
    ∧ (∀ T : List Ticket,
      ((indexOrgTickets T).map Prod.fst).Nodup
      ∧ mapLen (indexOrgTickets T) = (T.map Ticket.Org).toFinset.card
      ∧ ((indexOrgTickets T).map (fun kv => kv.2.length)).sum = T.length)
    ∧ (∀ T : List Ticket,
      ((indexUserSubmittedTickets T).map Prod.fst).Nodup
      ∧ mapLen (indexUserSubmittedTickets T) = (T.map Ticket.Submitter).toFinset.card
      ∧ ((indexUserSubmittedTickets T).map (fun kv => kv.2.length)).sum = T.length)
    ∧ (∀ T : List Ticket,
      ((indexUserAssignedTickets T).map Prod.fst).Nodup
      ∧ mapLen (indexUserAssignedTickets T) = (T.map Ticket.Assignee).toFinset.card
      ∧ ((indexUserAssignedTickets T).map (fun kv => kv.2.length)).sum = T.length)
    ∧ (∀ L : List Organization,
      ((indexOrgs L).map Prod.fst).Nodup
      ∧ mapLen (indexOrgs L) = (L.map Organization.ID).toFinset.card) := by
  refine ⟨fun U => ?_, fun T => ?_, fun T => bucketIndex_partition Ticket.Submitter T,
    fun T => bucketIndex_partition Ticket.Assignee T, fun L => idIndex_len Organization.ID L⟩
  · unfold indexOrgUsers
    rw [foldl_addToBucketChecked]
    exact bucketIndex_partition User.Org U
  · unfold indexOrgTickets
    rw [foldl_addToBucketChecked]
    exact bucketIndex_partition Ticket.Org T

/-- C18 at the sample data: four users of two organizations give two buckets
with four users in all, and three organizations with two IDs two entries. -/
theorem C18_index_partitions_source_witness :
    mapLen (indexOrgUsers scenarioUsers) = 2
    ∧ ((indexOrgUsers scenarioUsers).map (fun kv => kv.2.length)).sum = 4
    ∧ mapLen (indexOrgs [sampleOrg, tabOrg, dupOrg]) = 2 :=
  ⟨(C18_index_partitions_source.1 scenarioUsers).2.1.trans (by decide),
    (C18_index_partitions_source.1 scenarioUsers).2.2.trans (by decide),
    (C18_index_partitions_source.2.2.2.2 [sampleOrg, tabOrg, dupOrg]).2.trans (by decide)⟩

/-- C19: for every list of organizations and every pair of indices,
`getAssociatedUsersAndTickets` returns one organization for each one given, in
the same order, with `AssociatedUsers` the bucket of the user index for the
organization's ID, or the empty list when the ID is not a key, and
`AssociatedTickets` the bucket of the ticket index, or the empty list when the
ID is not a key. -/
theorem C19_associated_users_and_tickets (orgs : List Organization)
    (orgUserIndex : GoMap (List User)) (orgTicketIndex : GoMap (List Ticket)) :
    (getAssociatedUsersAndTickets orgs orgUserIndex orgTicketIndex).length = orgs.length
    ∧ List.Forall₂
      (fun org out =>
        (∀ users, mapGet orgUserIndex org.ID = some users → out.AssociatedUsers = users)
        ∧ (mapGet orgUserIndex org.ID = none → out.AssociatedUsers = [])
        ∧ (∀ tickets, mapGet orgTicketIndex org.ID = some tickets →
            out.AssociatedTickets = tickets)
        ∧ (mapGet orgTicketIndex org.ID = none → out.AssociatedTickets = []))
      orgs (getAssociatedUsersAndTickets orgs orgUserIndex orgTicketIndex) := by
  rw [getAssociatedUsersAndTickets_eq_map]
  refine ⟨by simp, forall2_map_right _ _ _ (fun org _ => ?_)⟩
  obtain ⟨_, hu, ht⟩ := associateUsersAndTickets_spec orgUserIndex orgTicketIndex org
  rw [hu, ht]
  unfold mapIndex
  exact ⟨fun users h => by simp [h], fun h => by simp [h], fun tickets h => by simp [h],
    fun h => by simp [h]⟩

/-- C19 at the sample data: organization 104 gets the three users and two
tickets of its buckets, organization 103 (in neither index) two empty lists. -/
theorem C19_associated_users_and_tickets_witness :
    (getAssociatedUsersAndTickets [tabOrg, sampleOrg] (indexOrgUsers scenarioUsers)
      (indexOrgTickets scenarioTickets)).map
        (fun o => (o.AssociatedUsers.length, o.AssociatedTickets.length))
      = [(3, 2), (0, 0)]
    ∧ (getAssociatedUsersAndTickets [tabOrg, sampleOrg] (indexOrgUsers scenarioUsers)
      (indexOrgTickets scenarioTickets)).length = 2 :=
  ⟨rfl, (C19_associated_users_and_tickets [tabOrg, sampleOrg] (indexOrgUsers scenarioUsers)
    (indexOrgTickets scenarioTickets)).1⟩

/-- C20: end to end for organizations: for every organization list `O`, user
list `U`, ticket list `T` and integer `k`, the search on `ID` with the decimal
form of `k` returns the organizations of `O` with ID `k`, and
`getAssociatedUsersAndTickets` over them with the two indices has one entry for
each of them, in order, whose `AssociatedUsers` are the users of `U` with
`Org = k` in source order and whose `AssociatedTickets` are the tickets of `T`
with `Org = k` in source order. -/
theorem C20_search_then_associate (O : List Organization) (U : List User) (T : List Ticket)
    (k : GoInt) :
    ∃ r, SearchOrgs "ID" (formatInt k.val) O = some (r, none)
      ∧ r = O.filter (fun o => decide (o.ID = k))
      ∧ (getAssociatedUsersAndTickets r (indexOrgUsers U) (indexOrgTickets T)).length
          = r.length
      ∧ List.Forall₂
        (fun org out =>
          out.ID = org.ID
          ∧ out.AssociatedUsers = U.filter (fun u => decide (u.Org = k))
          ∧ out.AssociatedTickets = T.filter (fun t => decide (t.Org = k)))
        r (getAssociatedUsersAndTickets r (indexOrgUsers U) (indexOrgTickets T)) := by
  refine ⟨_, SearchOrgs_ID_formatInt O k, rfl, ?_, ?_⟩
  · rw [getAssociatedUsersAndTickets_eq_map]
    simp
  · rw [getAssociatedUsersAndTickets_eq_map]
    apply forall2_map_right
    intro org horg
    have hk : org.ID = k := by simpa using (List.mem_filter.mp horg).2
    obtain ⟨hid, hu, ht⟩ :=
      associateUsersAndTickets_spec (indexOrgUsers U) (indexOrgTickets T) org
    refine ⟨hid, ?_, ?_⟩
    · rw [hu, hk]
      unfold indexOrgUsers
      rw [foldl_addToBucketChecked]
      exact (bucketIndex_spec User.Org U k).1
    · rw [ht, hk]
      unfold indexOrgTickets
      rw [foldl_addToBucketChecked]
      exact (bucketIndex_spec Ticket.Org T k).1

/-- C20 at the scenario of the specification: one organization with ID 104,
three users and two tickets of organization 104: one entry, with three
associated users and two associated tickets. -/
theorem C20_search_then_associate_witness :
    ∃ r, SearchOrgs "ID" "104" [sampleOrg, tabOrg] = some (r, none)
      ∧ r = [tabOrg]
      ∧ (getAssociatedUsersAndTickets r (indexOrgUsers scenarioUsers)
          (indexOrgTickets scenarioTickets)).map
            (fun o => (o.AssociatedUsers.length, o.AssociatedTickets.length)) = [(3, 2)] :=
  match C20_search_then_associate [sampleOrg, tabOrg] scenarioUsers scenarioTickets
    ⟨104, by decide⟩ with
  | ⟨r, hr, hfilter, _, _⟩ => ⟨r, hr, hfilter, by rw [hfilter]; rfl⟩

/-! ## Associated entities of users and tickets -/

theorem Ticket.keys_setSubmitterObj (t : Ticket) (u : User) :
    (t.setSubmitterObj u).Assignee = t.Assignee ∧ (t.setSubmitterObj u).Org = t.Org := by
  cases t; exact ⟨rfl, rfl⟩

theorem Ticket.keys_setAssigneeObj (t : Ticket) (u : User) :
    (t.setAssigneeObj u).Org = t.Org := by
  cases t; rfl

theorem User.keys_setOrgObject (u : User) (o : Organization) :
    (u.setOrgObject o).ID = u.ID := by
  cases u; rfl

theorem User.keys_setTicketsSubmitted (u : User) (tickets : List Ticket) :
    (u.setTicketsSubmitted tickets).ID = u.ID := by
  cases u; rfl

theorem associateUsersAndOrgs_spec (userIndex : GoMap User) (orgIndex : GoMap Organization)
    (ticket : Ticket) :
    (associateUsersAndOrgs userIndex orgIndex ticket).SubmitterObj
        = (mapGet userIndex ticket.Submitter).getD ticket.SubmitterObj
    ∧ (associateUsersAndOrgs userIndex orgIndex ticket).AssigneeObj
        = (mapGet userIndex ticket.Assignee).getD ticket.AssigneeObj
    ∧ (associateUsersAndOrgs userIndex orgIndex ticket).OrgObj
        = (mapGet orgIndex ticket.Org).getD ticket.OrgObj
    ∧ ((associateUsersAndOrgs userIndex orgIndex ticket).ID,
        (associateUsersAndOrgs userIndex orgIndex ticket).URL,
        (associateUsersAndOrgs userIndex orgIndex ticket).External_id,
        (associateUsersAndOrgs userIndex orgIndex ticket).Created_at,
        (associateUsersAndOrgs userIndex orgIndex ticket).Priority,
        (associateUsersAndOrgs userIndex orgIndex ticket).Status,
        (associateUsersAndOrgs userIndex orgIndex ticket).Type_,
        (associateUsersAndOrgs userIndex orgIndex ticket).Subject,
        (associateUsersAndOrgs userIndex orgIndex ticket).Description,
        (associateUsersAndOrgs userIndex orgIndex ticket).Tags,
        (associateUsersAndOrgs userIndex orgIndex ticket).Org,
        (associateUsersAndOrgs userIndex orgIndex ticket).Has_incidents,
        (associateUsersAndOrgs userIndex orgIndex ticket).Due_at,
        (associateUsersAndOrgs userIndex orgIndex ticket).Submitter,
        (associateUsersAndOrgs userIndex orgIndex ticket).Assignee,
        (associateUsersAndOrgs userIndex orgIndex ticket).Via)
      = (ticket.ID, ticket.URL, ticket.External_id, ticket.Created_at, ticket.Priority,
          ticket.Status, ticket.Type_, ticket.Subject, ticket.Description, ticket.Tags,
          ticket.Org, ticket.Has_incidents, ticket.Due_at, ticket.Submitter, ticket.Assignee,
          ticket.Via) := by
  simp only [associateUsersAndOrgs]
  cases h1 : mapGet userIndex ticket.Submitter <;>
    simp only [(Ticket.keys_setSubmitterObj _ _).1, (Ticket.keys_setSubmitterObj _ _).2] <;>
    cases h2 : mapGet userIndex ticket.Assignee <;>
    simp only [Ticket.keys_setAssigneeObj, (Ticket.keys_setSubmitterObj _ _).2] <;>
    cases h3 : mapGet orgIndex ticket.Org <;>
    (cases ticket; exact ⟨rfl, rfl, rfl, rfl⟩)

theorem associateOrgsAndTickets_spec (orgIndex : GoMap Organization)
    (userSubmittedIndex userAssignedIndex : GoMap (List Ticket)) (user : User) :
    (associateOrgsAndTickets orgIndex userSubmittedIndex userAssignedIndex user).OrgObject
        = (mapGet orgIndex user.Org).getD user.OrgObject
    ∧ (associateOrgsAndTickets orgIndex userSubmittedIndex userAssignedIndex user).TicketsSubmitted
        = (mapGet userSubmittedIndex user.ID).getD user.TicketsSubmitted
    ∧ (associateOrgsAndTickets orgIndex userSubmittedIndex userAssignedIndex user).TicketsAssigned
        = (mapGet userAssignedIndex user.ID).getD user.TicketsAssigned
    ∧ ((associateOrgsAndTickets orgIndex userSubmittedIndex userAssignedIndex user).ID,
        (associateOrgsAndTickets orgIndex userSubmittedIndex userAssignedIndex user).Name,
        (associateOrgsAndTickets orgIndex userSubmittedIndex userAssignedIndex user).URL,
        (associateOrgsAndTickets orgIndex userSubmittedIndex userAssignedIndex user).External_id,
        (associateOrgsAndTickets orgIndex userSubmittedIndex userAssignedIndex user).Alias,
        (associateOrgsAndTickets orgIndex userSubmittedIndex userAssignedIndex user).Created_at,
        (associateOrgsAndTickets orgIndex userSubmittedIndex userAssignedIndex user).Active,
        (associateOrgsAndTickets orgIndex userSubmittedIndex userAssignedIndex user).Verified,
        (associateOrgsAndTickets orgIndex userSubmittedIndex userAssignedIndex user).Shared,
        (associateOrgsAndTickets orgIndex userSubmittedIndex userAssignedIndex user).Locale,
        (associateOrgsAndTickets orgIndex userSubmittedIndex userAssignedIndex user).Timezone,
        (associateOrgsAndTickets orgIndex userSubmittedIndex userAssignedIndex user).Last_login_at,
        (associateOrgsAndTickets orgIndex userSubmittedIndex userAssignedIndex user).Email,
        (associateOrgsAndTickets orgIndex userSubmittedIndex userAssignedIndex user).Phone,
        (associateOrgsAndTickets orgIndex userSubmittedIndex userAssignedIndex user).Signature,
        (associateOrgsAndTickets orgIndex userSubmittedIndex userAssignedIndex user).Tags,
        (associateOrgsAndTickets orgIndex userSubmittedIndex userAssignedIndex user).Suspended,
        (associateOrgsAndTickets orgIndex userSubmittedIndex userAssignedIndex user).Role,
        (associateOrgsAndTickets orgIndex userSubmittedIndex userAssignedIndex user).Org)
      = (user.ID, user.Name, user.URL, user.External_id, user.Alias, user.Created_at,
          user.Active, user.Verified, user.Shared, user.Locale, user.Timezone,
          user.Last_login_at, user.Email, user.Phone, user.Signature, user.Tags,
          user.Suspended, user.Role, user.Org) := by
  simp only [associateOrgsAndTickets]
  cases h1 : mapGet orgIndex user.Org <;>
    simp only [User.keys_setOrgObject] <;>
    cases h2 : mapGet userSubmittedIndex user.ID <;>
    simp only [User.keys_setTicketsSubmitted, User.keys_setOrgObject] <;>
    cases h3 : mapGet userAssignedIndex user.ID <;>
    (cases user; exact ⟨rfl, rfl, rfl, rfl⟩)

theorem associateUsersAndTickets_frame (orgUserIndex : GoMap (List User))
    (orgTicketIndex : GoMap (List Ticket)) (org : Organization) :
    ((associateUsersAndTickets orgUserIndex orgTicketIndex org).ID,
      (associateUsersAndTickets orgUserIndex orgTicketIndex org).Name,
      (associateUsersAndTickets orgUserIndex orgTicketIndex org).URL,
      (associateUsersAndTickets orgUserIndex orgTicketIndex org).External_id,
      (associateUsersAndTickets orgUserIndex orgTicketIndex org).DomainNames,
      (associateUsersAndTickets orgUserIndex orgTicketIndex org).Created_at,
      (associateUsersAndTickets orgUserIndex orgTicketIndex org).Details,
      (associateUsersAndTickets orgUserIndex orgTicketIndex org).Shared_tickets,
      (associateUsersAndTickets orgUserIndex orgTicketIndex org).Tags)
      = (org.ID, org.Name, org.URL, org.External_id, org.DomainNames, org.Created_at,
          org.Details, org.Shared_tickets, org.Tags) := by
  simp only [associateUsersAndTickets]
  cases h1 : mapGet orgUserIndex org.ID <;>
    simp only [Organization.ID_setAssociatedUsers] <;>
    cases h2 : mapGet orgTicketIndex org.ID <;>
    (cases org; rfl)

theorem getAssociatedOrgsAndTickets_eq_map (users : List User) (orgIndex : GoMap Organization)
    (userSubmittedIndex userAssignedIndex : GoMap (List Ticket)) :
    getAssociatedOrgsAndTickets users orgIndex userSubmittedIndex userAssignedIndex
      = users.map (associateOrgsAndTickets orgIndex userSubmittedIndex userAssignedIndex) := by
  unfold getAssociatedOrgsAndTickets
  rw [foldl_append_singleton]
  simp

theorem getAssociatedUsersAndOrgs_eq_map (tickets : List Ticket) (userIndex : GoMap User)
    (orgIndex : GoMap Organization) :
    getAssociatedUsersAndOrgs tickets userIndex orgIndex
      = tickets.map (associateUsersAndOrgs userIndex orgIndex) := by
  unfold getAssociatedUsersAndOrgs
  rw [foldl_append_singleton]
  simp

theorem associateUsersAndOrgs_dangling (userIndex : GoMap User) (orgIndex : GoMap Organization)
    (ticket : Ticket) (h1 : mapGet userIndex ticket.Submitter = none)
    (h2 : mapGet userIndex ticket.Assignee = none) (h3 : mapGet orgIndex ticket.Org = none) :
    associateUsersAndOrgs userIndex orgIndex ticket = ticket := by
  simp [associateUsersAndOrgs, h1, h2, h3]

theorem associateUsersAndOrgs_keys (userIndex : GoMap User) (orgIndex : GoMap Organization)
    (ticket : Ticket) :
    (associateUsersAndOrgs userIndex orgIndex ticket).Submitter = ticket.Submitter
    ∧ (associateUsersAndOrgs userIndex orgIndex ticket).Assignee = ticket.Assignee
    ∧ (associateUsersAndOrgs userIndex orgIndex ticket).Org = ticket.Org := by
  have h := (associateUsersAndOrgs_spec userIndex orgIndex ticket).2.2.2
  simp only [Prod.mk.injEq] at h
  obtain ⟨_, _, _, _, _, _, _, _, _, _, horg, _, _, hsub, hasg, _⟩ := h
  exact ⟨hsub, hasg, horg⟩

theorem associateOrgsAndTickets_keys (orgIndex : GoMap Organization)
    (userSubmittedIndex userAssignedIndex : GoMap (List Ticket)) (user : User) :
    (associateOrgsAndTickets orgIndex userSubmittedIndex userAssignedIndex user).ID = user.ID
    ∧ (associateOrgsAndTickets orgIndex userSubmittedIndex userAssignedIndex user).Org
        = user.Org := by
  have h := (associateOrgsAndTickets_spec orgIndex userSubmittedIndex userAssignedIndex user).2.2.2
  simp only [Prod.mk.injEq] at h
  exact ⟨h.1, h.2.2.2.2.2.2.2.2.2.2.2.2.2.2.2.2.2.2⟩

theorem bucket_getD_spec {α : Type} (key : α → GoInt) (xs : List α) (k : GoInt)
    (old : List α) :
    ((xs.filter (fun x => decide (key x = k)) ≠ [] →
        (mapGet (xs.foldl (addToBucket key) []) k).getD old
          = xs.filter (fun x => decide (key x = k)))
    ∧ (xs.filter (fun x => decide (key x = k)) = [] →
        (mapGet (xs.foldl (addToBucket key) []) k).getD old = old)) := by
  obtain ⟨hidx, hsome⟩ := bucketIndex_spec key xs k
  unfold mapIndex at hidx
  cases hg : mapGet (xs.foldl (addToBucket key) []) k with
  | none =>
    rw [hg] at hsome
    refine ⟨fun hne => ?_, fun _ => rfl⟩
    exact absurd (hsome.mpr hne) (by simp)
  | some b =>
    rw [hg] at hidx hsome
    simp only [Option.getD_some] at hidx ⊢
    refine ⟨fun _ => hidx, fun hnil => ?_⟩
    exact absurd hnil (hsome.mp rfl)

/-- C21: dangling references are tolerated: for every list of tickets and
indices, a ticket of the list whose `Submitter` and `Assignee` are no keys of the
user index and whose `Org` is no key of the organization index stands in the
output, at its position, as it was given: `SubmitterObj`, `AssigneeObj` and
`OrgObj` are those of the input (the zero values for a ticket as loaded); the
function has no error result. -/
theorem C21_dangling_references_tolerated (tickets : List Ticket) (userIndex : GoMap User)
    (orgIndex : GoMap Organization) (i : Nat) (t : Ticket) (ht : tickets[i]? = some t)
    (h1 : mapGet userIndex t.Submitter = none) (h2 : mapGet userIndex t.Assignee = none)
    (h3 : mapGet orgIndex t.Org = none) :
    (getAssociatedUsersAndOrgs tickets userIndex orgIndex).length = tickets.length
    ∧ (getAssociatedUsersAndOrgs tickets userIndex orgIndex)[i]? = some t
    ∧ ∀ out, (getAssociatedUsersAndOrgs tickets userIndex orgIndex)[i]? = some out →
        out.SubmitterObj = t.SubmitterObj ∧ out.AssigneeObj = t.AssigneeObj
        ∧ out.OrgObj = t.OrgObj := by
  rw [getAssociatedUsersAndOrgs_eq_map]
  have hi : (tickets.map (associateUsersAndOrgs userIndex orgIndex))[i]? = some t := by
    rw [List.getElem?_map, ht]
    simp [associateUsersAndOrgs_dangling userIndex orgIndex t h1 h2 h3]
  refine ⟨by simp, hi, fun out hout => ?_⟩
  rw [hi] at hout
  cases hout
  exact ⟨rfl, rfl, rfl⟩

/-- C21 at the scenario of the specification: the ticket with submitter 71,
assignee 38 and organization 112, none of them known, comes back with the zero
user as submitter and assignee and the zero organization. -/
theorem C21_dangling_references_tolerated_witness :
    mapGet (indexUsers scenarioUsers) sampleTicket.Submitter = none
    ∧ mapGet (indexUsers scenarioUsers) sampleTicket.Assignee = none
    ∧ mapGet (indexOrgs [sampleOrg, tabOrg]) sampleTicket.Org = none
    ∧ (getAssociatedUsersAndOrgs [sampleTicket] (indexUsers scenarioUsers)
        (indexOrgs [sampleOrg, tabOrg]))[0]? = some sampleTicket
    ∧ sampleTicket.SubmitterObj = zeroUser ∧ sampleTicket.AssigneeObj = zeroUser
    ∧ sampleTicket.OrgObj = zeroOrganization :=
  ⟨rfl, rfl, rfl,
    (C21_dangling_references_tolerated [sampleTicket] (indexUsers scenarioUsers)
      (indexOrgs [sampleOrg, tabOrg]) 0 sampleTicket rfl rfl rfl rfl).2.1,
    rfl, rfl, rfl⟩

/-- C22: for every ticket list, user list `U` and organization list `O`, each
ticket returned by `getAssociatedUsersAndOrgs(tickets, indexUsers(U),
indexOrgs(O))` has, when some user of `U` has its `Submitter` as ID,
`SubmitterObj` equal to the first such user (whose ID is then that
`Submitter`); likewise `AssigneeObj` for `Assignee`, and `OrgObj` equal to the
first organization of `O` with its `Org` as ID. -/
theorem C22_ticket_gets_first_matches (tickets : List Ticket) (U : List User)
    (O : List Organization) (out : Ticket)
    (hout : out ∈ getAssociatedUsersAndOrgs tickets (indexUsers U) (indexOrgs O)) :
    (∀ u, U.find? (fun u => decide (u.ID = out.Submitter)) = some u →
        out.SubmitterObj = u ∧ out.SubmitterObj.ID = out.Submitter)
    ∧ (∀ u, U.find? (fun u => decide (u.ID = out.Assignee)) = some u →
        out.AssigneeObj = u ∧ out.AssigneeObj.ID = out.Assignee)
    ∧ (∀ o, O.find? (fun o => decide (o.ID = out.Org)) = some o →
        out.OrgObj = o ∧ out.OrgObj.ID = out.Org) := by
  rw [getAssociatedUsersAndOrgs_eq_map, List.mem_map] at hout
  obtain ⟨t, _, rfl⟩ := hout
  obtain ⟨hs, ha, ho, _⟩ := associateUsersAndOrgs_spec (indexUsers U) (indexOrgs O) t
  obtain ⟨ks, ka, ko⟩ := associateUsersAndOrgs_keys (indexUsers U) (indexOrgs O) t
  rw [hs, ha, ho, ks, ka, ko]
  have hU : ∀ k, mapGet (indexUsers U) k = U.find? (fun u => decide (u.ID = k)) :=
    fun k => idIndex_spec User.ID U k
  have hO : ∀ k, mapGet (indexOrgs O) k = O.find? (fun o => decide (o.ID = k)) :=
    fun k => idIndex_spec Organization.ID O k
  refine ⟨fun u hu => ?_, fun u hu => ?_, fun o ho2 => ?_⟩
  · rw [hU, hu]
    exact ⟨rfl, by simpa using List.find?_some hu⟩
  · rw [hU, hu]
    exact ⟨rfl, by simpa using List.find?_some hu⟩
  · rw [hO, ho2]
    exact ⟨rfl, by simpa using List.find?_some ho2⟩

/-- C22 at the sample data: ticket `t1` of organization 104, submitted by user 1
and assigned to user 2, gets these users and, of the two organizations with ID
104, the first. -/
theorem C22_ticket_gets_first_matches_witness :
    (getAssociatedUsersAndOrgs scenarioTickets (indexUsers scenarioUsers)
        (indexOrgs [sampleOrg, tabOrg, dupOrg]))[0]?
      = some (((ticketOf "t1" ⟨104, by decide⟩ ⟨1, by decide⟩ ⟨2, by decide⟩).setSubmitterObj
          (userOf ⟨1, by decide⟩ ⟨104, by decide⟩)).setAssigneeObj
          (userOf ⟨2, by decide⟩ ⟨104, by decide⟩) |>.setOrgObj tabOrg)
    ∧ ∀ o, [sampleOrg, tabOrg, dupOrg].find? (fun o => decide (o.ID = ⟨104, by decide⟩))
        = some o →
      (((ticketOf "t1" ⟨104, by decide⟩ ⟨1, by decide⟩ ⟨2, by decide⟩).setSubmitterObj
          (userOf ⟨1, by decide⟩ ⟨104, by decide⟩)).setAssigneeObj
          (userOf ⟨2, by decide⟩ ⟨104, by decide⟩) |>.setOrgObj tabOrg).OrgObj = o :=
  ⟨rfl, fun o ho =>
    ((C22_ticket_gets_first_matches scenarioTickets scenarioUsers [sampleOrg, tabOrg, dupOrg]
      _ (List.getElem?_mem (rfl : (getAssociatedUsersAndOrgs scenarioTickets
        (indexUsers scenarioUsers) (indexOrgs [sampleOrg, tabOrg, dupOrg]))[0]? = some _))).2.2
      o ho).1⟩

/-- C23, the claim fails for a user that already carries tickets: no ticket of
the empty ticket list is submitted by `staleUser`, yet the user returned keeps
the submitted ticket it came with instead of the empty list. -/
theorem C23_stale_tickets_kept :
    ([] : List Ticket).filter (fun t => decide (t.Submitter = staleUser.ID)) = []
    ∧ (getAssociatedOrgsAndTickets [staleUser] (indexOrgs [])
        (indexUserSubmittedTickets []) (indexUserAssignedTickets [])).map User.TicketsSubmitted
      = [[sampleTicket]] :=
  ⟨rfl, rfl⟩

/-- C23 as amended: for every list of users, organization list `O` and ticket
list `T`, `getAssociatedOrgsAndTickets(users, indexOrgs(O),
indexUserSubmittedTickets(T), indexUserAssignedTickets(T))` returns one user for
each user given, in order, with the same `ID` and `Org`, whose
`TicketsSubmitted` are the tickets of `T` with `Submitter = ID` in source order
when there is one, and those of the input user otherwise (so the empty list for
a user that comes with none, as loaded); likewise `TicketsAssigned` for
`Assignee`; and whose `OrgObject` is the first organization of `O` with
`ID = Org`, and that of the input user when no organization has that ID. -/
theorem C23_user_gets_matches (users : List User) (O : List Organization)
    (T : List Ticket) :
    List.Forall₂
      (fun u out =>
        out.ID = u.ID ∧ out.Org = u.Org
        ∧ (T.filter (fun t => decide (t.Submitter = u.ID)) ≠ [] →
            out.TicketsSubmitted = T.filter (fun t => decide (t.Submitter = u.ID)))
        ∧ (T.filter (fun t => decide (t.Submitter = u.ID)) = [] →
            out.TicketsSubmitted = u.TicketsSubmitted)
        ∧ (u.TicketsSubmitted = [] →
            out.TicketsSubmitted = T.filter (fun t => decide (t.Submitter = u.ID)))
        ∧ (T.filter (fun t => decide (t.Assignee = u.ID)) ≠ [] →
            out.TicketsAssigned = T.filter (fun t => decide (t.Assignee = u.ID)))
        ∧ (T.filter (fun t => decide (t.Assignee = u.ID)) = [] →
            out.TicketsAssigned = u.TicketsAssigned)
        ∧ (u.TicketsAssigned = [] →
            out.TicketsAssigned = T.filter (fun t => decide (t.Assignee = u.ID)))
        ∧ (∀ o, O.find? (fun o => decide (o.ID = u.Org)) = some o → out.OrgObject = o)
        ∧ (O.find? (fun o => decide (o.ID = u.Org)) = none → out.OrgObject = u.OrgObject))
      users
      (getAssociatedOrgsAndTickets users (indexOrgs O) (indexUserSubmittedTickets T)
        (indexUserAssignedTickets T)) := by
  rw [getAssociatedOrgsAndTickets_eq_map]
  apply forall2_map_right
  intro u _
  obtain ⟨ho, hs, ha, _⟩ := associateOrgsAndTickets_spec (indexOrgs O)
    (indexUserSubmittedTickets T) (indexUserAssignedTickets T) u
  obtain ⟨kid, korg⟩ := associateOrgsAndTickets_keys (indexOrgs O)
    (indexUserSubmittedTickets T) (indexUserAssignedTickets T) u
  obtain ⟨hs1, hs2⟩ := bucket_getD_spec Ticket.Submitter T u.ID u.TicketsSubmitted
  obtain ⟨ha1, ha2⟩ := bucket_getD_spec Ticket.Assignee T u.ID u.TicketsAssigned
  have hO : mapGet (indexOrgs O) u.Org = O.find? (fun o => decide (o.ID = u.Org)) :=
    idIndex_spec Organization.ID O u.Org
  rw [ho, hs, ha]
  refine ⟨kid, korg, hs1, hs2, ?_, ha1, ha2, ?_, ?_, ?_⟩
  · intro hnil
    by_cases hf : T.filter (fun t => decide (t.Submitter = u.ID)) = []
    · rw [hf]
      exact (hs2 hf).trans hnil
    · exact hs1 hf
  · intro hnil
    by_cases hf : T.filter (fun t => decide (t.Assignee = u.ID)) = []
    · rw [hf]
      exact (ha2 hf).trans hnil
    · exact ha1 hf
  · intro o hfind
    rw [hO, hfind]
    rfl
  · intro hfind
    rw [hO, hfind]
    rfl

/-- C23 as amended, at the sample data: user 1 of organization 104 gets its two
submitted tickets, no assigned ticket, and the first organization with ID 104. -/
theorem C23_user_gets_matches_witness :
    (getAssociatedOrgsAndTickets [userOf ⟨1, by decide⟩ ⟨104, by decide⟩]
        (indexOrgs [sampleOrg, tabOrg, dupOrg]) (indexUserSubmittedTickets scenarioTickets)
        (indexUserAssignedTickets scenarioTickets)).map
          (fun u => (u.TicketsSubmitted.map Ticket.ID, u.TicketsAssigned.map Ticket.ID,
            u.OrgObject.Name))
      = [(["t1", "t2"], [], "Xylar")]
    ∧ List.Forall₂ (fun u out => out.ID = u.ID)
        [userOf ⟨1, by decide⟩ ⟨104, by decide⟩]
        (getAssociatedOrgsAndTickets [userOf ⟨1, by decide⟩ ⟨104, by decide⟩]
          (indexOrgs [sampleOrg, tabOrg, dupOrg]) (indexUserSubmittedTickets scenarioTickets)
          (indexUserAssignedTickets scenarioTickets)) :=
  ⟨rfl, (C23_user_gets_matches [userOf ⟨1, by decide⟩ ⟨104, by decide⟩]
    [sampleOrg, tabOrg, dupOrg] scenarioTickets).imp (fun _ _ h => h.1)⟩

/-- C24: the three materializers only add associations: the output has the
length of the input and the entity at each position has, in every field other
than the association fields, the value of the input entity at that position. -/
theorem C24_materializers_keep_other_fields :
    (∀ (orgs : List Organization) (orgUserIndex : GoMap (List User))
        (orgTicketIndex : GoMap (List Ticket)),
      (getAssociatedUsersAndTickets orgs orgUserIndex orgTicketIndex).length = orgs.length
      ∧ List.Forall₂
        (fun org out =>
          (out.ID, out.Name, out.URL, out.External_id, out.DomainNames, out.Created_at,
            out.Details, out.Shared_tickets, out.Tags)
            = (org.ID, org.Name, org.URL, org.External_id, org.DomainNames, org.Created_at,
                org.Details, org.Shared_tickets, org.Tags))
        orgs (getAssociatedUsersAndTickets orgs orgUserIndex orgTicketIndex))
    ∧ (∀ (users : List User) (orgIndex : GoMap Organization)
        (userSubmittedIndex userAssignedIndex : GoMap (List Ticket)),
      (getAssociatedOrgsAndTickets users orgIndex userSubmittedIndex userAssignedIndex).length
        = users.length
      ∧ List.Forall₂
        (fun user out =>
          (out.ID, out.Name, out.URL, out.External_id, out.Alias, out.Created_at, out.Active,
            out.Verified, out.Shared, out.Locale, out.Timezone, out.Last_login_at, out.Email,
            out.Phone, out.Signature, out.Tags, out.Suspended, out.Role, out.Org)
            = (user.ID, user.Name, user.URL, user.External_id, user.Alias, user.Created_at,
                user.Active, user.Verified, user.Shared, user.Locale, user.Timezone,
                user.Last_login_at, user.Email, user.Phone, user.Signature, user.Tags,
                user.Suspended, user.Role, user.Org))
        users (getAssociatedOrgsAndTickets users orgIndex userSubmittedIndex userAssignedIndex))
    ∧ (∀ (tickets : List Ticket) (userIndex : GoMap User) (orgIndex : GoMap Organization),
      (getAssociatedUsersAndOrgs tickets userIndex orgIndex).length = tickets.length
      ∧ List.Forall₂
        (fun ticket out =>
          (out.ID, out.URL, out.External_id, out.Created_at, out.Priority, out.Status,
            out.Type_, out.Subject, out.Description, out.Tags, out.Org, out.Has_incidents,
            out.Due_at, out.Submitter, out.Assignee, out.Via)
            = (ticket.ID, ticket.URL, ticket.External_id, ticket.Created_at, ticket.Priority,
                ticket.Status, ticket.Type_, ticket.Subject, ticket.Description, ticket.Tags,
                ticket.Org, ticket.Has_incidents, ticket.Due_at, ticket.Submitter,
                ticket.Assignee, ticket.Via))
        tickets (getAssociatedUsersAndOrgs tickets userIndex orgIndex)) := by
  refine ⟨fun orgs iu it => ?_, fun users io isub ias => ?_, fun tickets iu io => ?_⟩
  · rw [getAssociatedUsersAndTickets_eq_map]
    exact ⟨by simp, forall2_map_right _ _ _
      (fun org _ => associateUsersAndTickets_frame iu it org)⟩
  · rw [getAssociatedOrgsAndTickets_eq_map]
    exact ⟨by simp, forall2_map_right _ _ _
      (fun user _ => (associateOrgsAndTickets_spec io isub ias user).2.2.2)⟩
  · rw [getAssociatedUsersAndOrgs_eq_map]
    exact ⟨by simp, forall2_map_right _ _ _
      (fun ticket _ => (associateUsersAndOrgs_spec iu io ticket).2.2.2)⟩

/-- C24 at the sample data: user 49 keeps its name and e-mail address through
the association. -/
theorem C24_materializers_keep_other_fields_witness :
    (getAssociatedOrgsAndTickets [sampleUser] (indexOrgs [sampleOrg])
        (indexUserSubmittedTickets scenarioTickets)
        (indexUserAssignedTickets scenarioTickets)).length = 1
    ∧ (getAssociatedOrgsAndTickets [sampleUser] (indexOrgs [sampleOrg])
        (indexUserSubmittedTickets scenarioTickets)
        (indexUserAssignedTickets scenarioTickets)).map (fun u => (u.Name, u.Email))
      = [("Faulkner Holcomb", "jodyholcomb@flotonic.com")] :=
  ⟨(C24_materializers_keep_other_fields.2.1 [sampleUser] (indexOrgs [sampleOrg])
    (indexUserSubmittedTickets scenarioTickets) (indexUserAssignedTickets scenarioTickets)).1,
    rfl⟩

/-! ## Command line input -/

theorem dropWhile_eq_self {α : Type} (p : α → Bool) (l : List α)
    (h : ∀ c ∈ l, p c = false) : l.dropWhile p = l := by
  cases l with
  | nil => rfl
  | cons c cs => simp [List.dropWhile_cons, h c (List.mem_cons_self _ _)]

theorem dropWhile_append_singleton {α : Type} (p : α → Bool) (sp : α) (hsp : p sp = true)
    (l : List α) :
    ((l ++ [sp]).dropWhile p = [] ∧ l.dropWhile p = [])
    ∨ (l ++ [sp]).dropWhile p = l.dropWhile p ++ [sp] := by
  induction l with
  | nil => left; simp [List.dropWhile_cons, hsp]
  | cons c cs ih =>
    by_cases hc : p c = true
    · simpa [List.dropWhile_cons, hc] using ih
    · right
      simp [List.dropWhile_cons, hc]

theorem strings_TrimSpace_no_space (s : String)
    (h : ∀ c ∈ s.data, unicode_IsSpace c = false) : strings_TrimSpace s = s := by
  unfold strings_TrimSpace
  rw [dropWhile_eq_self unicode_IsSpace s.data h,
    dropWhile_eq_self unicode_IsSpace s.data.reverse (fun c hc => h c (List.mem_reverse.mp hc)),
    List.reverse_reverse]

theorem strings_TrimSpace_append_space (l : List Char) :
    strings_TrimSpace ⟨l ++ [' ']⟩ = strings_TrimSpace ⟨l⟩ := by
  unfold strings_TrimSpace
  rcases dropWhile_append_singleton unicode_IsSpace ' ' (by decide) l with ⟨h1, h2⟩ | h
  · simp only [h1, h2]
  · simp only [h, List.reverse_append, List.reverse_singleton, List.singleton_append]
    rw [List.dropWhile_cons]
    simp [show unicode_IsSpace ' ' = true by decide]

theorem sliceDropLastByte_concat (xs : List Char) (c : Char) (hc : c.toNat < 128) :
    sliceDropLastByte ⟨xs ++ [c]⟩ = some ⟨xs⟩ := by
  simp [sliceDropLastByte, hc]

theorem flatMap_splitChars (sep : Char) (v : List Char) :
    (splitChars sep v).flatMap (fun piece => piece ++ [sep]) = v ++ [sep] := by
  induction v with
  | nil => simp [splitChars]
  | cons c cs ih =>
    simp only [splitChars]
    by_cases hc : c = sep
    · simp [hc, List.flatMap_cons, ih]
    · simp only [hc, if_false]
      rcases hs : splitChars sep cs with _ | ⟨p, ps⟩
      · exact absurd hs (splitChars_ne_nil sep cs)
      · rw [hs] at ih
        simp only [List.flatMap_cons, List.cons_append] at ih ⊢
        rw [ih]

theorem foldl_builder (pieces : List (List Char)) : ∀ builder : String,
    (pieces.map String.mk).foldl (fun builder comp => builder ++ (comp ++ " ")) builder
      = ⟨builder.data ++ pieces.flatMap (fun piece => piece ++ [' '])⟩ := by
  induction pieces with
  | nil => intro builder; simp
  | cons p ps ih =>
    intro builder
    simp only [List.map_cons, List.foldl_cons, ih, List.flatMap_cons]
    apply String.ext
    simp [String.data_append]

theorem not_space_of_no_whitespace (l : List Char)
    (h : ∀ c ∈ l, unicode_IsSpace c = false) : ' ' ∉ l := by
  intro hm
  have := h ' ' hm
  revert this
  decide

theorem strings_Split_two (t f : String) (rest : List Char)
    (ht : ' ' ∉ t.data) (hf : ' ' ∉ f.data) :
    strings_Split ⟨t.data ++ ' ' :: (f.data ++ ' ' :: rest)⟩ ' '
      = t :: f :: (splitChars ' ' rest).map String.mk := by
  simp only [strings_Split, splitChars_append_sep, splitChars_no_sep ' ' _ ht,
    splitChars_no_sep ' ' _ hf, List.map_append, List.map_cons, List.map_nil,
    List.singleton_append]

theorem parseSearchInput_three (t f v : String)
    (ht : ∀ c ∈ t.data, unicode_IsSpace c = false)
    (hf : ∀ c ∈ f.data, unicode_IsSpace c = false) :
    parseSearchInput (t ++ " " ++ f ++ " " ++ v ++ "\n")
      = some (t, f, strings_TrimSpace v, none) := by
  have hin : t ++ " " ++ f ++ " " ++ v ++ "\n"
      = ⟨(t.data ++ ' ' :: (f.data ++ ' ' :: v.data)) ++ ['\n']⟩ := by
    apply String.ext
    simp [String.data_append]
  rw [hin]
  unfold parseSearchInput
  rw [sliceDropLastByte_concat _ '\n' (by decide)]
  simp only
  rw [strings_Split_two t f v.data (not_space_of_no_whitespace _ ht)
    (not_space_of_no_whitespace _ hf)]
  rcases hs : splitChars ' ' v.data with _ | ⟨p, ps⟩
  · exact absurd hs (splitChars_ne_nil ' ' v.data)
  · simp only [List.map_cons]
    have hfold := foldl_builder (p :: ps) ""
    rw [← hs, flatMap_splitChars] at hfold
    simp only [List.map_cons] at hfold
    rw [hs] at hfold
    simp only [List.map_cons] at hfold
    rw [hfold]
    rw [strings_TrimSpace_no_space t ht, strings_TrimSpace_no_space f hf]
    have hv : strings_TrimSpace ⟨("" : String).data ++ (v.data ++ [' '])⟩
        = strings_TrimSpace v := by
      show strings_TrimSpace ⟨v.data ++ [' ']⟩ = strings_TrimSpace v
      exact strings_TrimSpace_append_space v.data
    rw [hv]

theorem parseSearchInput_two (t f : String)
    (ht : ∀ c ∈ t.data, unicode_IsSpace c = false)
    (hf : ∀ c ∈ f.data, unicode_IsSpace c = false) :
    parseSearchInput (t ++ " " ++ f ++ "\n") = some (t, f, "", none) := by
  have hin : t ++ " " ++ f ++ "\n" = ⟨(t.data ++ ' ' :: f.data) ++ ['\n']⟩ := by
    apply String.ext
    simp [String.data_append]
  rw [hin]
  unfold parseSearchInput
  rw [sliceDropLastByte_concat _ '\n' (by decide)]
  have hsplit : strings_Split ⟨t.data ++ ' ' :: f.data⟩ ' ' = [t, f] := by
    simp only [strings_Split, splitChars_append_sep,
      splitChars_no_sep ' ' _ (not_space_of_no_whitespace _ ht),
      splitChars_no_sep ' ' _ (not_space_of_no_whitespace _ hf), List.map_append,
      List.map_cons, List.map_nil, List.singleton_append]
  simp only [hsplit]
  rw [strings_TrimSpace_no_space t ht, strings_TrimSpace_no_space f hf]

/-- C25, the code at failing inputs: a line with two spaces after the search
type, a line that starts with a space and a line that ends with a space are
accepted without error, with an empty search field or an empty search type. -/
theorem C25_empty_field_accepted :
    parseSearchInput "org  5\n" = some ("org", "", "5", none)
    ∧ parseSearchInput " org ID\n" = some ("", "org", "ID", none)
    ∧ parseSearchInput "org \n" = some ("org", "", "", none) :=
  ⟨rfl, rfl, rfl⟩

/-- C26: for every search type `t` and field `f` without whitespace (that they
are non-empty is not needed) and every string `v`, the line `t f v` with a final
newline is parsed into `t`, `f` and `v` without its leading and trailing
whitespace, the inner spacing kept, and no error; the line `t f` with a final
newline into `t`, `f`, the empty value and no error. -/
theorem C26_parse_well_formed (t f v : String)
    (ht : ∀ c ∈ t.data, unicode_IsSpace c = false)
    (hf : ∀ c ∈ f.data, unicode_IsSpace c = false) :
    parseSearchInput (t ++ " " ++ f ++ " " ++ v ++ "\n")
      = some (t, f, strings_TrimSpace v, none)
    ∧ parseSearchInput (t ++ " " ++ f ++ "\n") = some (t, f, "", none) :=
  ⟨parseSearchInput_three t f v ht hf, parseSearchInput_two t f ht hf⟩

/-- C26 at a search for a subject of several words with blanks around it. -/
theorem C26_parse_well_formed_witness :
    (∀ c ∈ "ticket".data, unicode_IsSpace c = false)
    ∧ (∀ c ∈ "Subject".data, unicode_IsSpace c = false)
    ∧ strings_TrimSpace "  A  Catastrophe in\tMicronesia " = "A  Catastrophe in\tMicronesia"
    ∧ parseSearchInput ("ticket" ++ " " ++ "Subject" ++ " "
        ++ "  A  Catastrophe in\tMicronesia " ++ "\n")
      = some ("ticket", "Subject", strings_TrimSpace "  A  Catastrophe in\tMicronesia ", none)
    ∧ parseSearchInput ("ticket" ++ " " ++ "Subject" ++ "\n")
      = some ("ticket", "Subject", "", none) :=
  ⟨by decide, by decide, by decide,
    (C26_parse_well_formed "ticket" "Subject" "  A  Catastrophe in\tMicronesia "
      (by decide) (by decide)).1,
    (C26_parse_well_formed "ticket" "Subject" "  A  Catastrophe in\tMicronesia "
      (by decide) (by decide)).2⟩

/-! ## Errors of a search -/

section Uniform

variable {α : Type} (entity : String) (fields : List (String × Field α))
  (searchField searchValue : String)

/-- Whether one pass of the loop body returns an error, and which, does not
depend on the entity. -/
theorem searchEntity_uniform :
    (∀ e : α, ∃ n : Nat, ∀ results : List α,
      searchEntity entity fields searchField searchValue e results
        = some (results ++ List.replicate n e, none))
    ∨ (∃ err : SearchError, ∀ (e : α) (results : List α),
      searchEntity entity fields searchField searchValue e results
        = some (results, some err)) := by
  cases hF : fields.lookup searchField with
  | none =>
    exact Or.inr ⟨_, fun e results =>
      searchEntity_noField entity fields searchField searchValue hF e results⟩
  | some field =>
    cases field with
    | string get =>
      refine Or.inl (fun e => ?_)
      by_cases hv : get e = searchValue
      · exact ⟨1, fun results => by
          simp [searchEntity_string entity fields searchField searchValue get hF, hv]⟩
      · exact ⟨0, fun results => by
          simp [searchEntity_string entity fields searchField searchValue get hF, hv]⟩
    | strings get =>
      exact Or.inl (fun e => ⟨_, fun results =>
        searchEntity_strings entity fields searchField searchValue get hF e results⟩)
    | bool get =>
      by_cases ht : strings_ToLower searchValue = "true"
      · refine Or.inl (fun e => ?_)
        cases hg : get e with
        | true => exact ⟨1, fun results => by
            simp [searchEntity_bool entity fields searchField searchValue get hF, searchBool,
              ht, hg, Value.eqBool]⟩
        | false => exact ⟨0, fun results => by
            simp [searchEntity_bool entity fields searchField searchValue get hF, searchBool,
              ht, hg, Value.eqBool]⟩
      · by_cases hf : strings_ToLower searchValue = "false"
        · refine Or.inl (fun e => ?_)
          cases hg : get e with
          | true => exact ⟨0, fun results => by
              simp [searchEntity_bool entity fields searchField searchValue get hF, searchBool,
                hf, hg, Value.eqBool]⟩
          | false => exact ⟨1, fun results => by
              simp [searchEntity_bool entity fields searchField searchValue get hF, searchBool,
                hf, hg, Value.eqBool]⟩
        · exact Or.inr ⟨.invalidBool entity searchField "bool" searchValue,
            fun e results => by
              simp [searchEntity_bool entity fields searchField searchValue get hF, searchBool,
                ht, hf]⟩
    | int get =>
      cases hs : strconv_Atoi searchValue with
      | error err =>
        exact Or.inr ⟨err, fun e results => by
          simp [searchEntity_int entity fields searchField searchValue get hF, searchInt,
            fmt_Sprintf_v, strconv_Atoi_formatInt, hs]⟩
      | ok n =>
        refine Or.inl (fun e => ?_)
        by_cases hv : (get e).val = n
        · subst hv
          exact ⟨1, fun results => by
            simp [searchEntity_int entity fields searchField searchValue get hF, searchInt,
              fmt_Sprintf_v, strconv_Atoi_formatInt, hs]⟩
        · exact ⟨0, fun results => by
            simp [searchEntity_int entity fields searchField searchValue get hF, searchInt,
              fmt_Sprintf_v, strconv_Atoi_formatInt, hs, hv]⟩
    | users get =>
      exact Or.inl (fun e => ⟨0, fun results => by
        simpa using searchEntity_other entity fields searchField searchValue _ hF
          (by simp only [Field.typeString]; decide) (by simp only [Field.typeString]; decide)
          (by simp only [Field.typeString]; decide) (by simp only [Field.typeString]; decide)
          e results⟩)
    | tickets get =>
      exact Or.inl (fun e => ⟨0, fun results => by
        simpa using searchEntity_other entity fields searchField searchValue _ hF
          (by simp only [Field.typeString]; decide) (by simp only [Field.typeString]; decide)
          (by simp only [Field.typeString]; decide) (by simp only [Field.typeString]; decide)
          e results⟩)
    | organization get =>
      exact Or.inl (fun e => ⟨0, fun results => by
        simpa using searchEntity_other entity fields searchField searchValue _ hF
          (by simp only [Field.typeString]; decide) (by simp only [Field.typeString]; decide)
          (by simp only [Field.typeString]; decide) (by simp only [Field.typeString]; decide)
          e results⟩)
    | user get =>
      exact Or.inl (fun e => ⟨0, fun results => by
        simpa using searchEntity_other entity fields searchField searchValue _ hF
          (by simp only [Field.typeString]; decide) (by simp only [Field.typeString]; decide)
          (by simp only [Field.typeString]; decide) (by simp only [Field.typeString]; decide)
          e results⟩)

theorem searchLoop_no_error (list : List α)
    (h : ∀ e : α, ∃ n : Nat, ∀ results : List α,
      searchEntity entity fields searchField searchValue e results
        = some (results ++ List.replicate n e, none)) :
    ∀ results : List α, ∃ r,
      searchLoop entity fields searchField searchValue list results = some (r, none) := by
  induction list with
  | nil => intro results; exact ⟨results, rfl⟩
  | cons e rest ih =>
    intro results
    obtain ⟨n, hn⟩ := h e
    simp only [searchLoop, hn results]
    exact ih _

/-- A search that returns an error returns it from the first entity, with no
result, and so does the search over every other non-empty list. -/
theorem searchLoop_error_first (list r : List α) (err : SearchError)
    (h : searchLoop entity fields searchField searchValue list [] = some (r, some err)) :
    r = []
    ∧ (∃ e rest, list = e :: rest
        ∧ searchEntity entity fields searchField searchValue e [] = some ([], some err))
    ∧ ∀ other : List α, other ≠ [] →
        searchLoop entity fields searchField searchValue other [] = some ([], some err) := by
  rcases searchEntity_uniform entity fields searchField searchValue with hok | ⟨err1, herr⟩
  · obtain ⟨r2, hr2⟩ := searchLoop_no_error entity fields searchField searchValue list hok []
    rw [hr2] at h
    simp at h
  · cases list with
    | nil => simp [searchLoop] at h
    | cons e rest =>
      simp only [searchLoop, herr e []] at h
      simp only [Option.some.injEq, Prod.mk.injEq] at h
      obtain ⟨hr, he⟩ := h
      subst hr he
      refine ⟨rfl, ⟨e, rest, rfl, herr e []⟩, fun other hne => ?_⟩
      obtain ⟨e2, rest2, rfl⟩ := List.exists_cons_of_ne_nil hne
      simp only [searchLoop, herr e2 []]

end Uniform

/-- C27: whether a search fails depends only on the field name and the search
value: whenever `SearchOrgs`, `SearchUsers` or `SearchTickets` returns an error,
the result list returned with it is empty, the collection is not empty and the
loop body returns that error for its first entity, and the search with the same
field name and search value over every other non-empty collection returns the
same error with an empty result list. -/
theorem C27_error_at_first_entity :
    (∀ (F s : String) (OrgList r : List Organization) (err : SearchError),
      SearchOrgs F s OrgList = some (r, some err) →
      r = []
      ∧ (∃ e rest, OrgList = e :: rest
          ∧ searchEntity "Organization" Organization.fields F s e [] = some ([], some err))
      ∧ ∀ other : List Organization, other ≠ [] →
          SearchOrgs F s other = some ([], some err))
    ∧ (∀ (F s : String) (UserList r : List User) (err : SearchError),
      SearchUsers F s UserList = some (r, some err) →
      r = []
      ∧ (∃ e rest, UserList = e :: rest
          ∧ searchEntity "User" User.fields F s e [] = some ([], some err))
      ∧ ∀ other : List User, other ≠ [] → SearchUsers F s other = some ([], some err))
    ∧ (∀ (F s : String) (TicketList r : List Ticket) (err : SearchError),
      SearchTickets F s TicketList = some (r, some err) →
      r = []
      ∧ (∃ e rest, TicketList = e :: rest
          ∧ searchEntity "Ticket" Ticket.fields F s e [] = some ([], some err))
      ∧ ∀ other : List Ticket, other ≠ [] → SearchTickets F s other = some ([], some err)) :=
  ⟨fun F s list r err h =>
      searchLoop_error_first "Organization" Organization.fields F s list r err h,
    fun F s list r err h => searchLoop_error_first "User" User.fields F s list r err h,
    fun F s list r err h => searchLoop_error_first "Ticket" Ticket.fields F s list r err h⟩

/-- C27 at the sample data: `yes` on `Shared_tickets` fails at the first of two
organizations, one of which shares tickets and one of which does not, and over
the one organization `dupOrg` as well. -/
theorem C27_error_at_first_entity_witness :
    SearchOrgs "Shared_tickets" "yes" [sampleOrg, tabOrg]
      = some ([], some (.invalidBool "Organization" "Shared_tickets" "bool" "yes"))
    ∧ [dupOrg] ≠ []
    ∧ SearchOrgs "Shared_tickets" "yes" [dupOrg]
      = some ([], some (.invalidBool "Organization" "Shared_tickets" "bool" "yes")) :=
  ⟨rfl, by simp,
    (C27_error_at_first_entity.1 "Shared_tickets" "yes" [sampleOrg, tabOrg] []
      (.invalidBool "Organization" "Shared_tickets" "bool" "yes") rfl).2.2 [dupOrg] (by simp)⟩

/-- C28: on an empty collection every search returns the empty result and no
error, for every field name and search value; so for the unknown field `Bogus`,
for `notabool` on a bool field and for `abc` on an int field. -/
theorem C28_empty_collection_succeeds :
    (∀ F s : String, SearchOrgs F s [] = some ([], none))
    ∧ (∀ F s : String, SearchUsers F s [] = some ([], none))
    ∧ (∀ F s : String, SearchTickets F s [] = some ([], none))
    ∧ (SearchOrgs "Bogus" "x" [] = some ([], none)
      ∧ SearchUsers "Active" "notabool" [] = some ([], none)
      ∧ SearchTickets "Submitter" "abc" [] = some ([], none)) :=
  ⟨fun _ _ => rfl, fun _ _ => rfl, fun _ _ => rfl, rfl, rfl, rfl⟩

section Relationship

variable {α : Type} (entity : String) (fields : List (String × Field α))

theorem searchLoop_relationship (F s : String) (field : Field α) (list : List α)
    (hF : fields.lookup F = some field)
    (h1 : field.typeString ≠ "string") (h2 : field.typeString ≠ "[]string")
    (h3 : field.typeString ≠ "bool") (h4 : field.typeString ≠ "int") :
    searchLoop entity fields F s list [] = some ([], none) :=
  searchLoop_other entity fields F s field hF h1 h2 h3 h4 list []

theorem searchLoop_strings_exact (F s : String) (get : α → List String) (list : List α)
    (hF : fields.lookup F = some (.strings get)) :
    searchLoop entity fields F s list []
      = some (list.flatMap (fun e => List.replicate ((tokens (get e)).count s) e), none) := by
  simpa using searchLoop_strings entity fields F s get hF list []

end Relationship

/-- C29: a search on one of the relationship fields, which exist on the entity
and whose type is none of `string`, `[]string`, `bool` and `int`, returns the
empty result and no error for every collection and search value. -/
theorem C29_relationship_field_matches_nothing :
    (∀ (s : String) (OrgList : List Organization),
      SearchOrgs "AssociatedUsers" s OrgList = some ([], none)
      ∧ SearchOrgs "AssociatedTickets" s OrgList = some ([], none))
    ∧ (∀ (s : String) (UserList : List User),
      SearchUsers "OrgObject" s UserList = some ([], none)
      ∧ SearchUsers "TicketsSubmitted" s UserList = some ([], none)
      ∧ SearchUsers "TicketsAssigned" s UserList = some ([], none))
    ∧ (∀ (s : String) (TicketList : List Ticket),
      SearchTickets "SubmitterObj" s TicketList = some ([], none)
      ∧ SearchTickets "AssigneeObj" s TicketList = some ([], none)
      ∧ SearchTickets "OrgObj" s TicketList = some ([], none)) := by
  refine ⟨fun s list => ⟨?_, ?_⟩, fun s list => ⟨?_, ?_, ?_⟩, fun s list => ⟨?_, ?_, ?_⟩⟩
  · exact searchLoop_relationship "Organization" Organization.fields "AssociatedUsers" s
      (.users Organization.AssociatedUsers) list rfl (by decide) (by decide) (by decide)
      (by decide)
  · exact searchLoop_relationship "Organization" Organization.fields "AssociatedTickets" s
      (.tickets Organization.AssociatedTickets) list rfl (by decide) (by decide) (by decide)
      (by decide)
  · exact searchLoop_relationship "User" User.fields "OrgObject" s
      (.organization User.OrgObject) list rfl (by decide) (by decide) (by decide) (by decide)
  · exact searchLoop_relationship "User" User.fields "TicketsSubmitted" s
      (.tickets User.TicketsSubmitted) list rfl (by decide) (by decide) (by decide) (by decide)
  · exact searchLoop_relationship "User" User.fields "TicketsAssigned" s
      (.tickets User.TicketsAssigned) list rfl (by decide) (by decide) (by decide) (by decide)
  · exact searchLoop_relationship "Ticket" Ticket.fields "SubmitterObj" s
      (.user Ticket.SubmitterObj) list rfl (by decide) (by decide) (by decide) (by decide)
  · exact searchLoop_relationship "Ticket" Ticket.fields "AssigneeObj" s
      (.user Ticket.AssigneeObj) list rfl (by decide) (by decide) (by decide) (by decide)
  · exact searchLoop_relationship "Ticket" Ticket.fields "OrgObj" s
      (.organization Ticket.OrgObj) list rfl (by decide) (by decide) (by decide) (by decide)

/-- C30: for a `[]string` field an entity is appended to the result once for
each piece of its rendered list, split on a space, that equals the search value:
the result is the collection with each entity repeated that number of times. -/
theorem C30_once_per_matching_piece :
    (∀ (F s : String) (get : Organization → List String) (OrgList : List Organization),
      Organization.fields.lookup F = some (.strings get) →
      SearchOrgs F s OrgList
        = some (OrgList.flatMap
            (fun e => List.replicate ((tokens (get e)).count s) e), none))
    ∧ (∀ (F s : String) (get : User → List String) (UserList : List User),
      User.fields.lookup F = some (.strings get) →
      SearchUsers F s UserList
        = some (UserList.flatMap
            (fun e => List.replicate ((tokens (get e)).count s) e), none))
    ∧ (∀ (F s : String) (get : Ticket → List String) (TicketList : List Ticket),
      Ticket.fields.lookup F = some (.strings get) →
      SearchTickets F s TicketList
        = some (TicketList.flatMap
            (fun e => List.replicate ((tokens (get e)).count s) e), none)) :=
  ⟨fun F s get list hF =>
      searchLoop_strings_exact "Organization" Organization.fields F s get list hF,
    fun F s get list hF => searchLoop_strings_exact "User" User.fields F s get list hF,
    fun F s get list hF => searchLoop_strings_exact "Ticket" Ticket.fields F s get list hF⟩

/-- C30 at the example of the claim: the organization with the tags `a`, `a`
occurs twice in the result of searching `Tags` for `a`. -/
theorem C30_once_per_matching_piece_witness :
    Organization.fields.lookup "Tags" = some (.strings Organization.Tags)
    ∧ twinTagOrg.Tags = ["a", "a"]
    ∧ (tokens twinTagOrg.Tags).count "a" = 2
    ∧ SearchOrgs "Tags" "a" [sampleOrg, twinTagOrg] = some ([twinTagOrg, twinTagOrg], none) :=
  ⟨rfl, rfl, by decide,
    C30_once_per_matching_piece.1 "Tags" "a" Organization.Tags [sampleOrg, twinTagOrg] rfl⟩

/-! ## Index and scan, the last byte of the input, the brackets of a rendered list -/

theorem mapIndex_checked_spec {α : Type} (key : α → GoInt) (xs : List α) (k : GoInt) :
    mapIndex (xs.foldl (addToBucketChecked key) []) k
      = xs.filter (fun x => decide (key x = k)) := by
  rw [foldl_addToBucketChecked]
  exact (bucketIndex_spec key xs k).1

section Total

variable {α : Type} (entity : String) (fields : List (String × Field α))

theorem searchLoop_int_scan (F : String) (get : α → GoInt) (list : List α) (k : GoInt)
    (hF : fields.lookup F = some (.int get)) :
    searchLoop entity fields F (formatInt k.val) list []
      = some (list.filter (fun e => decide (get e = k)), none) := by
  have h := searchLoop_int_exact entity fields F (formatInt k.val) get list k.val hF
    (strconv_Atoi_formatInt k)
  rw [filter_ID_val] at h
  exact h

/-- A search never leaves the modelled fragment: it returns a result list and
an error or none. -/
theorem searchLoop_total (F s : String) (list : List α) :
    ∀ results : List α, ∃ r err, searchLoop entity fields F s list results = some (r, err) := by
  rcases searchEntity_uniform entity fields F s with hok | ⟨err1, herr⟩
  · intro results
    obtain ⟨r, hr⟩ := searchLoop_no_error entity fields F s list hok results
    exact ⟨r, none, hr⟩
  · intro results
    cases list with
    | nil => exact ⟨results, none, rfl⟩
    | cons e rest => exact ⟨results, some err1, by simp only [searchLoop, herr e results]⟩

end Total

theorem parseSearchInputBytes_concat (xs : List UInt8) (b : UInt8) :
    parseSearchInputBytes (xs ++ [b])
      = (match splitBytes 32 xs with
        | comp0 :: comp1 :: rest =>
          match rest with
          | _ :: _ =>
            some (bytes_TrimSpace comp0, bytes_TrimSpace comp1,
              bytes_TrimSpace (rest.foldl (fun builder comp => builder ++ (comp ++ [32])) []),
              (none : Option ParseError))
          | [] => some (bytes_TrimSpace comp0, bytes_TrimSpace comp1, [], none)
        | _ => some ([], [], [], some ParseError.invalidSearchFormat)) := by
  unfold parseSearchInputBytes
  cases h : xs ++ [b] with
  | nil => simp at h
  | cons y ys => simp only [← h, List.dropLast_concat]

theorem parseSearchInputBytes_last_byte (xs : List UInt8) (b b2 : UInt8) :
    ∃ r, parseSearchInputBytes (xs ++ [b]) = some r
      ∧ parseSearchInputBytes (xs ++ [b2]) = some r := by
  rw [parseSearchInputBytes_concat xs b, parseSearchInputBytes_concat xs b2]
  rcases splitBytes 32 xs with _ | ⟨c0, _ | ⟨c1, _ | ⟨c2, rest⟩⟩⟩ <;> exact ⟨_, rfl, rfl⟩

theorem utf8EncodeChar_ascii (c : Char) (hc : c.toNat < 128) :
    String.utf8EncodeChar c = [c.val.toUInt8] := by
  have h : c.val ≤ 0x7f := by
    rw [UInt32.le_def]
    have h2 : c.val.toNat < 128 := hc
    exact Nat.le_of_lt_succ h2
  simp [String.utf8EncodeChar, h]

theorem bytesOf_concat_ascii (cs : List Char) (c : Char) (hc : c.toNat < 128) :
    bytesOf ⟨cs ++ [c]⟩ = bytesOf ⟨cs⟩ ++ [c.val.toUInt8] := by
  simp [bytesOf, List.flatMap_append, utf8EncodeChar_ascii c hc]

/-- The text model and the byte model of `parseSearchInput` at sample inputs: the
runes of the result on bytes are the characters of the result on text, also where
the cut leaves a byte of a character behind (`org ID 5é`). -/
theorem parseSearchInput_runes_of_bytes :
    ∀ s ∈ ["org ID 5\n", "org ID 5", "org ID 5é", "org ID 5€", "org ID 5😀", "org  5\n",
        "org\n", "user Name Zoë  Ünal \n", "ticket Subject\n"],
      (parseSearchInputBytes (bytesOf s)).map
          (fun r => (runesOf 0 r.1, runesOf 0 r.2.1, runesOf 0 r.2.2.1, r.2.2.2))
        = (parseSearchInput s).map
          (fun r => (r.1.data.map Char.toNat, r.2.1.data.map Char.toNat,
            r.2.2.1.data.map Char.toNat, r.2.2.2)) := by
  decide

/-- C31: the index agrees with a linear scan: for every user list `U`, ticket
list `T` and integer `k`, the search on the indexed int field with the decimal
form of `k` returns no error and exactly the bucket of the index at `k` (the
empty list when `k` is not a key), for `indexOrgUsers`, `indexOrgTickets`,
`indexUserSubmittedTickets` and `indexUserAssignedTickets`. -/
theorem C31_index_agrees_with_scan :
    (∀ (U : List User) (k : GoInt),
      SearchUsers "Org" (formatInt k.val) U = some (mapIndex (indexOrgUsers U) k, none))
    ∧ (∀ (T : List Ticket) (k : GoInt),
      SearchTickets "Org" (formatInt k.val) T = some (mapIndex (indexOrgTickets T) k, none))
    ∧ (∀ (T : List Ticket) (k : GoInt),
      SearchTickets "Submitter" (formatInt k.val) T
        = some (mapIndex (indexUserSubmittedTickets T) k, none))
    ∧ (∀ (T : List Ticket) (k : GoInt),
      SearchTickets "Assignee" (formatInt k.val) T
        = some (mapIndex (indexUserAssignedTickets T) k, none)) := by
  refine ⟨fun U k => ?_, fun T k => ?_, fun T k => ?_, fun T k => ?_⟩
  · unfold indexOrgUsers
    rw [mapIndex_checked_spec]
    exact searchLoop_int_scan "User" User.fields "Org" User.Org U k rfl
  · unfold indexOrgTickets
    rw [mapIndex_checked_spec]
    exact searchLoop_int_scan "Ticket" Ticket.fields "Org" Ticket.Org T k rfl
  · unfold indexUserSubmittedTickets
    rw [(bucketIndex_spec Ticket.Submitter T k).1]
    exact searchLoop_int_scan "Ticket" Ticket.fields "Submitter" Ticket.Submitter T k rfl
  · unfold indexUserAssignedTickets
    rw [(bucketIndex_spec Ticket.Assignee T k).1]
    exact searchLoop_int_scan "Ticket" Ticket.fields "Assignee" Ticket.Assignee T k rfl

/-- C31 at the sample data: the scan for the users of organization 104 gives the
three users of the bucket, the scan for the tickets assigned to user 5 the empty
list of a missing key. -/
theorem C31_index_agrees_with_scan_witness :
    SearchUsers "Org" "104" scenarioUsers
      = some (mapIndex (indexOrgUsers scenarioUsers) ⟨104, by decide⟩, none)
    ∧ (mapIndex (indexOrgUsers scenarioUsers) ⟨104, by decide⟩).length = 3
    ∧ SearchTickets "Assignee" "5" scenarioTickets = some ([], none)
    ∧ mapGet (indexUserAssignedTickets scenarioTickets) ⟨5, by decide⟩ = none :=
  ⟨C31_index_agrees_with_scan.1 scenarioUsers ⟨104, by decide⟩, rfl,
    C31_index_agrees_with_scan.2.2.2 scenarioTickets ⟨5, by decide⟩, rfl⟩

/-- C32, the claim fails for a last character outside ASCII: `s[:len(s)-1]`
drops the last byte, not the last character.  The `é` of `org ID 5é` is two bytes
(195, 169); the cut leaves the first of them in the line, so `parseSearchInput`
returns the search value `5` followed by the byte 195, which is not the search
value `5` it returns for `org ID 5` followed by a newline. -/
theorem C32_last_byte_not_last_character :
    ("org ID 5é" : String) = ⟨"org ID 5".data ++ ['é']⟩
    ∧ ("org ID 5\n" : String) = ⟨"org ID 5".data ++ ['\n']⟩
    ∧ bytesOf "org ID 5é" = [111, 114, 103, 32, 73, 68, 32, 53, 195, 169]
    ∧ bytesOf "org ID 5\n" = [111, 114, 103, 32, 73, 68, 32, 53, 10]
    ∧ parseSearchInputBytes (bytesOf "org ID 5é")
        = some (bytesOf "org", bytesOf "ID", [53, 195], none)
    ∧ parseSearchInputBytes (bytesOf "org ID 5\n")
        = some (bytesOf "org", bytesOf "ID", bytesOf "5", none)
    ∧ bytesOf "5" = [53]
    ∧ ¬ ∃ r, parseSearchInputBytes (bytesOf "org ID 5é") = some r
        ∧ parseSearchInputBytes (bytesOf "org ID 5\n") = some r :=
  ⟨rfl, rfl, by decide, by decide, by decide, by decide, by decide, by
    rintro ⟨r, h1, h2⟩
    have h : parseSearchInputBytes (bytesOf "org ID 5é")
        = parseSearchInputBytes (bytesOf "org ID 5\n") := h1.trans h2.symm
    revert h
    decide⟩

/-- C32 as amended: `parseSearchInput` discards the last byte of its input
whatever it is: for every non-empty input `s`, a sequence of bytes, it returns a
result, the same as for `s` with its last byte replaced by a newline.  Where the
last character `c` of a text is ASCII, that byte is the character, and the
result is that of the text with `c` replaced by a newline; so `org ID 5` is
parsed as `org ID` with the empty search value.  The empty input is a run-time
panic. -/
theorem C32_last_byte_dropped (s : List UInt8) (hs : s ≠ []) (cs : List Char) (c : Char)
    (hc : c.toNat < 128) :
    (∃ r, parseSearchInputBytes s = some r
      ∧ parseSearchInputBytes (s.dropLast ++ [10]) = some r)
    ∧ (∃ r, parseSearchInputBytes (bytesOf ⟨cs ++ [c]⟩) = some r
      ∧ parseSearchInputBytes (bytesOf ⟨cs ++ ['\n']⟩) = some r)
    ∧ parseSearchInputBytes (bytesOf "org ID 5") = some (bytesOf "org", bytesOf "ID", [], none)
    ∧ parseSearchInputBytes [] = none := by
  refine ⟨?_, ?_, by decide, rfl⟩
  · obtain ⟨r, h1, h2⟩ := parseSearchInputBytes_last_byte s.dropLast (s.getLast hs) 10
    rw [List.dropLast_append_getLast hs] at h1
    exact ⟨r, h1, h2⟩
  · rw [bytesOf_concat_ascii cs c hc, bytesOf_concat_ascii cs '\n' (by decide)]
    exact parseSearchInputBytes_last_byte _ _ _

/-- C32 as amended, at inputs that end in no newline: the bytes of `org ID 5é`
and the text `org ID 5` have the results of the same input with the last byte
replaced by a newline. -/
theorem C32_last_byte_dropped_witness :
    bytesOf "org ID 5é" ≠ []
    ∧ ('5' : Char).toNat < 128
    ∧ (∃ r, parseSearchInputBytes (bytesOf "org ID 5é") = some r
      ∧ parseSearchInputBytes ((bytesOf "org ID 5é").dropLast ++ [10]) = some r)
    ∧ ∃ r, parseSearchInputBytes (bytesOf ⟨"org ID ".data ++ ['5']⟩) = some r
      ∧ parseSearchInputBytes (bytesOf ⟨"org ID ".data ++ ['\n']⟩) = some r :=
  ⟨by decide, by decide,
    (C32_last_byte_dropped (bytesOf "org ID 5é") (by decide) "org ID ".data '5'
      (by decide)).1,
    (C32_last_byte_dropped (bytesOf "org ID 5é") (by decide) "org ID ".data '5'
      (by decide)).2.1⟩

/-- C33: the bracket-stripping slice `valStr[1 : len(valStr)-1]` of the
`[]string` branch is always in range: for every list value, the empty list
included, the rendered form has length at least 2, starts with `[` and ends with
`]`, the slice is the rendering between the brackets, and the branch returns;
none of the three searches ever panics. -/
theorem C33_bracket_slice_in_range :
    (∀ l : List String, ∃ valStr : String,
      fmt_Sprintf_v (.strings l) = some valStr
      ∧ 2 ≤ valStr.length
      ∧ valStr.data.head? = some '['
      ∧ valStr.data.getLast? = some ']'
      ∧ sliceString valStr 1 ((valStr.length : Int) - 1) = some ⟨joinSpace l⟩)
    ∧ (∀ (l : List String) (s : String) (e : Organization) (results : List Organization),
      ∃ r, searchStrings (.strings l) s e results = some r)
    ∧ (∀ (l : List String) (s : String) (e : User) (results : List User),
      ∃ r, searchStrings (.strings l) s e results = some r)
    ∧ (∀ (l : List String) (s : String) (e : Ticket) (results : List Ticket),
      ∃ r, searchStrings (.strings l) s e results = some r)
    ∧ (∀ (F s : String) (OrgList : List Organization),
      ∃ r err, SearchOrgs F s OrgList = some (r, err))
    ∧ (∀ (F s : String) (UserList : List User),
      ∃ r err, SearchUsers F s UserList = some (r, err))
    ∧ (∀ (F s : String) (TicketList : List Ticket),
      ∃ r err, SearchTickets F s TicketList = some (r, err)) := by
  refine ⟨fun l => ⟨_, rfl, ?_, rfl, ?_, sliceString_brackets (joinSpace l)⟩,
    fun l s e results => ⟨_, searchStrings_strings l s e results⟩,
    fun l s e results => ⟨_, searchStrings_strings l s e results⟩,
    fun l s e results => ⟨_, searchStrings_strings l s e results⟩,
    fun F s list => searchLoop_total "Organization" Organization.fields F s list [],
    fun F s list => searchLoop_total "User" User.fields F s list [],
    fun F s list => searchLoop_total "Ticket" Ticket.fields F s list []⟩
  · simp [String.length]
  · exact List.getLast?_concat ('[' :: joinSpace l)

/-- C33 at the empty list: the rendering is `[]`, of length 2, the slice is the
empty string and the search on the tags of an organization without tags
returns. -/
theorem C33_bracket_slice_in_range_witness :
    fmt_Sprintf_v (.strings []) = some "[]"
    ∧ sliceString "[]" 1 ((("[]" : String).length : Int) - 1) = some ""
    ∧ (∃ r err, SearchOrgs "Tags" "x" [zeroOrganization] = some (r, err))
    ∧ SearchOrgs "Tags" "x" [zeroOrganization] = some ([], none) :=
  ⟨rfl, by decide, C33_bracket_slice_in_range.2.2.2.2.1 "Tags" "x" [zeroOrganization], rfl⟩

end ZDSearch
